import Mathlib

/-!
# Verification of the SoccerGame player protocol (`semSharedMemPlayer.c`)

This development embeds the player-side team-formation protocol of
`src/semaphore_soccergame/src/semSharedMemPlayer.c` as a small-step
interleaving transition system and proves/refutes the frozen claims
about it.

## Embedding conventions

* Each player process is embedded as a control-flow automaton whose
  locations (`PLoc`) correspond to program points of the C file, one
  location per atomic action: each semaphore operation (`semDown` /
  `semUp`) is one step, and each lock-protected block of plain
  shared-memory statements is one step (it executes entirely under the
  mutex, so its internal interleaving is unobservable).
* Counting semaphores are `Nat` counters: `semUp` increments, `semDown`
  blocks (no transition) when the counter is `0` and decrements
  otherwise, exactly the SVIPC semantics the code relies on.
* Shared C `int` counters are embedded as `Int` (no arithmetic in the
  program can approach 32-bit overflow, and `Int` keeps the sign
  behaviour of the C code observable, e.g. for the never-negative
  claims).
* `saveState` calls are recorded by a ghost counter `snaps`.
* Ghost history fields (`claimLog`, `fLog`, `gLog`, `nClaims`,
  `regUpsF`, `regUpsG`) record the values claimed by leaders at
  `teamId++`, the values read by followers/goalies, and handshake
  completions.  They never influence any transition.

## Parts of the repository not under `src/`

Only `semSharedMemPlayer.c` is under `src/`.  The constants header
`probConst.h`, the goalie/referee processes and the shared-memory
initialisation are missing, so they are modelled from the spec where a
claim needs them; each such definition carries a doc comment starting
with `Modelled from the spec:`.
-/

namespace SoccerGame


/-- Player/goalie status values, from the status enumeration used by
`semSharedMemPlayer.c` (`ARRIVING`, `LATE`, `FORMING_TEAM`,
`WAITING_TEAMS`, `WAITING_START_1/2`, `PLAYING_1/2`).  `NOSTAT` stands
for the initial value of the status array before the process writes to
it (the initialisation code is not under `src/`; no claim depends on
the initial enum value). -/
inductive PStat where
  | NOSTAT
  | ARRIVING
  | LATE
  | FORMING_TEAM
  | WAITING_TEAMS
  | WAITING_START_1
  | WAITING_START_2
  | PLAYING_1
  | PLAYING_2
  deriving DecidableEq, Repr

/-- Control locations of one player process, one per atomic action of
`semSharedMemPlayer.c`:

* `start`: about to `semDown(mutex)` in `arrive` (line 142);
* `aCrit`: holding the mutex, about to run the `arrive` body
  (`playerStat[id] = ARRIVING; saveState` — lines 147–148);
* `aUnlock`: about to `semUp(mutex)` (line 150);
* `cPre`: about to `semDown(mutex)` in `playerConstituteTeam`
  (line 177);
* `cCrit`: holding the mutex, about to run the branch
  `if (++playersArrived > 8) … else if (playersFree >= 3 && goaliesFree) …
  else …` together with its counter/status updates and `saveState`
  (lines 181–221);
* `lRound k b`: leader in the recruiting loop (lines 191–202), `k`
  completed rounds; `b = false`: about to `semUp(playersWaitTeam)`,
  `b = true`: about to `semDown(playerRegistered)`; still holding the
  mutex (the code releases it only at line 223);
* `lGoalie b`: leader goalie handshake (lines 203–210), `b = false`:
  about to `semUp(goaliesWaitTeam)`, `b = true`: about to
  `semDown(playerRegistered)`;
* `lClaim`: leader about to execute `ret = teamId++` (line 212);
* `lUnlock`: leader about to `semUp(mutex)` (line 223);
* `lRef`: leader about to `semUp(refereeWaitTeams)` (line 231);
* `lateUnlock`: late player about to `semUp(mutex)` (line 223);
* `fUnlock`: follower about to `semUp(mutex)` (line 223);
* `fWait`: follower about to `semDown(playersWaitTeam)` (line 237);
* `fRead`: follower about to read `ret = teamId` (line 242), with the
  mutex *not* held;
* `fSig`: follower about to `semUp(playerRegistered)` (line 243);
* `ctEnd`: back in `main`, about to test
  `if ((team = playerConstituteTeam(n)) != 0)` (line 119);
* `wrPre`/`wrCrit`/`wrUnlock`/`wrWait`: `waitReferee` (lines 266–282):
  mutex down, body (`playerStat[id] = team==1 ? WAITING_START_1 :
  WAITING_START_2; saveState`), mutex up, `semDown(playersWaitReferee)`;
* `puPre`/`puCrit`/`puSig`/`puUnlock`/`puWait`: `playUntilEnd`
  (lines 297–318): mutex down, body (`playerStat[id] = team==1 ?
  PLAYING_1 : PLAYING_2; saveState`), `semUp(playing)` *still under the
  mutex* (line 305), mutex up, `semDown(playersWaitEnd)`;
* `fin`: process finished (or skipped the match phase). -/
inductive PLoc where
  | start
  | aCrit
  | aUnlock
  | cPre
  | cCrit
  | lRound (k : Nat) (b : Bool)
  | lGoalie (b : Bool)
  | lClaim
  | lUnlock
  | lRef
  | lateUnlock
  | fUnlock
  | fWait
  | fRead
  | fSig
  | ctEnd
  | wrPre
  | wrCrit
  | wrUnlock
  | wrWait
  | puPre
  | puCrit
  | puSig
  | puUnlock
  | puWait
  | fin
  deriving DecidableEq, Repr

/-- Control locations of one goalie process.

Modelled from the spec: the goalie source file is not under `src/`.
Per spec §4.4 the goalie "mirrors the follower branch of §4.3 but waits
on `goaliesWaitTeam` instead of `playersWaitTeam`": under the mutex it
registers as free (`goaliesFree++`, status `WAITING_TEAMS`, snapshot),
releases the mutex, blocks on `goaliesWaitTeam`, then reads the current
`teamId` and signals `playerRegistered` once.  (The goalie's own
arrival delay and late branch are irrelevant to every claim and are
omitted; the embedded goalies are the ones that become free.) -/
inductive GLoc where
  | gStart
  | gCrit
  | gUnlock
  | gWait
  | gRead
  | gSig
  | gEnd
  deriving DecidableEq, Repr

/-- Global state of the system: the shared memory region of
`probDataStruct.h`/`sharedDataSync.h` as used by the player code
(counters `playersArrived`, `playersFree`, `goaliesFree`, `teamId`,
status arrays), the semaphore set, the control location and local
`ret` variable of each of the `NP` players and `NG` goalies, plus ghost
history fields (see the file header).  `snaps` counts `saveState`
calls. -/
structure Sys (NP NG : Nat) where
  playersArrived : Int
  playersFree : Int
  goaliesFree : Int
  teamId : Int
  playerStat : Fin NP → PStat
  goalieStat : Fin NG → PStat
  mutex : Nat
  playersWaitTeam : Nat
  goaliesWaitTeam : Nat
  playerRegistered : Nat
  refereeWaitTeams : Nat
  playersWaitReferee : Nat
  playing : Nat
  playersWaitEnd : Nat
  ploc : Fin NP → PLoc
  gloc : Fin NG → GLoc
  pret : Fin NP → Int
  gret : Fin NG → Int
  snaps : Nat
  nClaims : Nat
  regUpsF : Nat
  regUpsG : Nat
  claimLog : List Int
  fLog : List Int
  gLog : List Int

/-- A scheduling event: which process takes its next atomic step. -/
inductive Event (NP NG : Nat) where
  | pstep (i : Fin NP)
  | gstep (j : Fin NG)

/-- Initial state.

Modelled from the spec: the shared-memory initialisation code is not
under `src/`.  Counters start at `0` (spec §3: `playersFree`/
`goaliesFree` "reflect exactly the count of actors currently blocked"
— none at startup; `playersArrived` is "monotonically incremented once
per player on arrival").  `teamId` starts at `1`, matching the player
source's own contract (line 170: return value is "0 for late …; 1 for
team 1; 2 for team 2").  The mutex starts available (`1`), every other
semaphore at `0` (spec §4.2: channels carry only signals actually
sent). -/
def initSys (NP NG : Nat) : Sys NP NG where
  playersArrived := 0
  playersFree := 0
  goaliesFree := 0
  teamId := 1
  playerStat := fun _ => .NOSTAT
  goalieStat := fun _ => .NOSTAT
  mutex := 1
  playersWaitTeam := 0
  goaliesWaitTeam := 0
  playerRegistered := 0
  refereeWaitTeams := 0
  playersWaitReferee := 0
  playing := 0
  playersWaitEnd := 0
  ploc := fun _ => .start
  gloc := fun _ => .gStart
  pret := fun _ => 0
  gret := fun _ => 0
  snaps := 0
  nClaims := 0
  regUpsF := 0
  regUpsG := 0
  claimLog := []
  fLog := []
  gLog := []

/-- `NUMTEAMPLAYERS`. Modelled from the spec: `probConst.h` is not
under `src/`.  The player code reserves exactly `3` follower slots
(`playersFree -= 3`, line 187) and recruits `NUMTEAMPLAYERS - 1`
followers (loop condition `count != NUMTEAMPLAYERS-1`, line 202), and
marks arrivals late past `2 * 4 = 8` on-time players (line 182), so
`NUMTEAMPLAYERS = 4`: a team is the leader plus 3 recruited field
players, plus one goalie. -/
def NUMTEAMPLAYERS : Nat := 4

/-- One atomic step of process `e` from state `s`: `none` when the
process is blocked (its next `semDown` finds a zero counter) or
finished.  Each case is the direct transcription of the corresponding
source line(s); see `PLoc`/`GLoc` for the line map. -/
def applyEv {NP NG : Nat} (e : Event NP NG) (s : Sys NP NG) : Option (Sys NP NG) :=
  match e with
  | .pstep i =>
    match s.ploc i with
    | .start =>
        if s.mutex = 0 then none else
        some { s with mutex := s.mutex - 1, ploc := Function.update s.ploc i .aCrit }
    | .aCrit =>
        some { s with playerStat := Function.update s.playerStat i .ARRIVING,
                      snaps := s.snaps + 1,
                      ploc := Function.update s.ploc i .aUnlock }
    | .aUnlock =>
        some { s with mutex := s.mutex + 1, ploc := Function.update s.ploc i .cPre }
    | .cPre =>
        if s.mutex = 0 then none else
        some { s with mutex := s.mutex - 1, ploc := Function.update s.ploc i .cCrit }
    | .cCrit =>
        if s.playersArrived + 1 > 8 then
          some { s with playersArrived := s.playersArrived + 1,
                        playerStat := Function.update s.playerStat i .LATE,
                        snaps := s.snaps + 1,
                        ploc := Function.update s.ploc i .lateUnlock }
        else if 3 ≤ s.playersFree ∧ s.goaliesFree ≠ 0 then
          some { s with playersArrived := s.playersArrived + 1,
                        playersFree := s.playersFree - 3,
                        goaliesFree := s.goaliesFree - 1,
                        playerStat := Function.update s.playerStat i .FORMING_TEAM,
                        snaps := s.snaps + 1,
                        ploc := Function.update s.ploc i (.lRound 0 false) }
        else
          some { s with playersArrived := s.playersArrived + 1,
                        playersFree := s.playersFree + 1,
                        playerStat := Function.update s.playerStat i .WAITING_TEAMS,
                        snaps := s.snaps + 1,
                        ploc := Function.update s.ploc i .fUnlock }
    | .lRound k false =>
        some { s with playersWaitTeam := s.playersWaitTeam + 1,
                      ploc := Function.update s.ploc i (.lRound k true) }
    | .lRound k true =>
        if s.playerRegistered = 0 then none else
        some { s with playerRegistered := s.playerRegistered - 1,
                      ploc := Function.update s.ploc i
                        (if k + 1 = NUMTEAMPLAYERS - 1 then .lGoalie false
                         else .lRound (k + 1) false) }
    | .lGoalie false =>
        some { s with goaliesWaitTeam := s.goaliesWaitTeam + 1,
                      ploc := Function.update s.ploc i (.lGoalie true) }
    | .lGoalie true =>
        if s.playerRegistered = 0 then none else
        some { s with playerRegistered := s.playerRegistered - 1,
                      ploc := Function.update s.ploc i .lClaim }
    | .lClaim =>
        some { s with pret := Function.update s.pret i s.teamId,
                      teamId := s.teamId + 1,
                      nClaims := s.nClaims + 1,
                      claimLog := s.claimLog ++ [s.teamId],
                      ploc := Function.update s.ploc i .lUnlock }
    | .lUnlock =>
        some { s with mutex := s.mutex + 1, ploc := Function.update s.ploc i .lRef }
    | .lRef =>
        some { s with refereeWaitTeams := s.refereeWaitTeams + 1,
                      ploc := Function.update s.ploc i .ctEnd }
    | .lateUnlock =>
        some { s with mutex := s.mutex + 1, ploc := Function.update s.ploc i .ctEnd }
    | .fUnlock =>
        some { s with mutex := s.mutex + 1, ploc := Function.update s.ploc i .fWait }
    | .fWait =>
        if s.playersWaitTeam = 0 then none else
        some { s with playersWaitTeam := s.playersWaitTeam - 1,
                      ploc := Function.update s.ploc i .fRead }
    | .fRead =>
        some { s with pret := Function.update s.pret i s.teamId,
                      fLog := s.fLog ++ [s.teamId],
                      ploc := Function.update s.ploc i .fSig }
    | .fSig =>
        some { s with playerRegistered := s.playerRegistered + 1,
                      regUpsF := s.regUpsF + 1,
                      ploc := Function.update s.ploc i .ctEnd }
    | .ctEnd =>
        some { s with ploc := Function.update s.ploc i (if s.pret i = 0 then .fin else .wrPre) }
    | .wrPre =>
        if s.mutex = 0 then none else
        some { s with mutex := s.mutex - 1, ploc := Function.update s.ploc i .wrCrit }
    | .wrCrit =>
        some { s with playerStat := Function.update s.playerStat i
                        (if s.pret i = 1 then .WAITING_START_1 else .WAITING_START_2),
                      snaps := s.snaps + 1,
                      ploc := Function.update s.ploc i .wrUnlock }
    | .wrUnlock =>
        some { s with mutex := s.mutex + 1, ploc := Function.update s.ploc i .wrWait }
    | .wrWait =>
        if s.playersWaitReferee = 0 then none else
        some { s with playersWaitReferee := s.playersWaitReferee - 1,
                      ploc := Function.update s.ploc i .puPre }
    | .puPre =>
        if s.mutex = 0 then none else
        some { s with mutex := s.mutex - 1, ploc := Function.update s.ploc i .puCrit }
    | .puCrit =>
        some { s with playerStat := Function.update s.playerStat i
                        (if s.pret i = 1 then .PLAYING_1 else .PLAYING_2),
                      snaps := s.snaps + 1,
                      ploc := Function.update s.ploc i .puSig }
    | .puSig =>
        some { s with playing := s.playing + 1,
                      ploc := Function.update s.ploc i .puUnlock }
    | .puUnlock =>
        some { s with mutex := s.mutex + 1, ploc := Function.update s.ploc i .puWait }
    | .puWait =>
        if s.playersWaitEnd = 0 then none else
        some { s with playersWaitEnd := s.playersWaitEnd - 1,
                      ploc := Function.update s.ploc i .fin }
    | .fin => none
  | .gstep j =>
    match s.gloc j with
    | .gStart =>
        if s.mutex = 0 then none else
        some { s with mutex := s.mutex - 1, gloc := Function.update s.gloc j .gCrit }
    | .gCrit =>
        some { s with goaliesFree := s.goaliesFree + 1,
                      goalieStat := Function.update s.goalieStat j .WAITING_TEAMS,
                      snaps := s.snaps + 1,
                      gloc := Function.update s.gloc j .gUnlock }
    | .gUnlock =>
        some { s with mutex := s.mutex + 1, gloc := Function.update s.gloc j .gWait }
    | .gWait =>
        if s.goaliesWaitTeam = 0 then none else
        some { s with goaliesWaitTeam := s.goaliesWaitTeam - 1,
                      gloc := Function.update s.gloc j .gRead }
    | .gRead =>
        some { s with gret := Function.update s.gret j s.teamId,
                      gLog := s.gLog ++ [s.teamId],
                      gloc := Function.update s.gloc j .gSig }
    | .gSig =>
        some { s with playerRegistered := s.playerRegistered + 1,
                      regUpsG := s.regUpsG + 1,
                      gloc := Function.update s.gloc j .gEnd }
    | .gEnd => none

/-- The interleaving step relation: some process takes one atomic step. -/
def SysStep {NP NG : Nat} (s s' : Sys NP NG) : Prop :=
  ∃ e : Event NP NG, applyEv e s = some s'

/-- Reachability from a state by interleaved execution. -/
def Reach {NP NG : Nat} : Sys NP NG → Sys NP NG → Prop :=
  Relation.ReflTransGen SysStep

/-- Run a concrete schedule (list of events); `none` if any scheduled
process is blocked or finished at its turn. -/
def runList {NP NG : Nat} : List (Event NP NG) → Sys NP NG → Option (Sys NP NG)
  | [], s => some s
  | e :: es, s =>
    match applyEv e s with
    | none => none
    | some s' => runList es s'

/-! ## Location weights and process counts

Each weight function assigns to a control location the contribution of
a process at that location to some global accounting quantity; the
inductive invariant `Inv` below relates the semaphore counters to sums
of these weights. -/

/-- `1` iff a player at this location holds the mutex (is between the
`semDown(mutex)` and the matching `semUp(mutex)` of the source). -/
def pHoldW : PLoc → Nat
  | .aCrit | .aUnlock | .cCrit | .lRound _ _ | .lGoalie _ | .lClaim | .lUnlock
  | .lateUnlock | .fUnlock | .wrCrit | .wrUnlock | .puCrit | .puSig | .puUnlock => 1
  | _ => 0

/-- `1` iff a goalie at this location holds the mutex. -/
def gHoldW : GLoc → Nat
  | .gCrit | .gUnlock => 1
  | _ => 0

/-- Number of `semUp(playersWaitTeam)` signals already issued by a
player at this location during its current team formation (`0` off the
leader path; completed formations are accounted separately by
`nClaims`). -/
def wtUpW : PLoc → Nat
  | .lRound k false => k
  | .lRound k true => k + 1
  | .lGoalie _ => 3
  | .lClaim => 3
  | _ => 0

/-- Number of `semDown(playerRegistered)` operations already completed
by a player at this location during its current team formation. -/
def regDownW : PLoc → Nat
  | .lRound k _ => k
  | .lGoalie _ => 3
  | .lClaim => 4
  | _ => 0

/-- Number of `semUp(goaliesWaitTeam)` signals already issued by a
player at this location during its current team formation. -/
def gwUpW : PLoc → Nat
  | .lGoalie true => 1
  | .lClaim => 1
  | _ => 0

/-- Indicator: follower that has consumed a `playersWaitTeam` signal
but has not yet read `teamId` (line 242 pending). -/
def fReadW : PLoc → Nat
  | .fRead => 1
  | _ => 0

/-- Indicator: follower that has read `teamId` but has not yet issued
its `semUp(playerRegistered)` (line 243 pending). -/
def fSigW : PLoc → Nat
  | .fSig => 1
  | _ => 0

/-- Indicator: leader that has claimed a team id but has not yet issued
its `semUp(refereeWaitTeams)` (line 231 pending). -/
def rwtPendW : PLoc → Nat
  | .lUnlock | .lRef => 1
  | _ => 0

/-- Indicator: goalie that has consumed a `goaliesWaitTeam` signal but
has not yet read `teamId`. -/
def gReadW : GLoc → Nat
  | .gRead => 1
  | _ => 0

/-- Indicator: goalie that has read `teamId` but has not yet issued its
`semUp(playerRegistered)`. -/
def gSigW : GLoc → Nat
  | .gSig => 1
  | _ => 0

/-- Sum of a location weight over all players. -/
def pcnt {NP NG : Nat} (s : Sys NP NG) (w : PLoc → Nat) : Nat :=
  Finset.univ.sum fun i => w (s.ploc i)

/-- Sum of a location weight over all goalies. -/
def gcnt {NP NG : Nat} (s : Sys NP NG) (w : GLoc → Nat) : Nat :=
  Finset.univ.sum fun j => w (s.gloc j)

/-- The flattening of a claim log into the follower-side read log: each
completed formation contributes its claimed team id three times (once
per recruited field player). -/
def padThree (l : List Int) : List Int := l.flatMap fun v => [v, v, v]

/-- Locations of a player before it can possibly have written to its
local `ret` variable (which the embedding initialises to the source's
`int ret = 0`, line 175). -/
def earlyLoc : PLoc → Bool
  | .start | .aCrit | .aUnlock | .cPre | .cCrit => true
  | _ => false

/-- The inductive invariant of the system.  Conjuncts:

* `mutexEq`: the mutex discipline — the mutex counter plus the number
  of processes inside a critical region is exactly `1`;
* `roundBound`: a leader never exceeds `NUMTEAMPLAYERS - 1 = 3`
  recruiting rounds;
* `wtEq`/`gwtEq`/`regEq`: counting-semaphore accounting for
  `playersWaitTeam`, `goaliesWaitTeam` and `playerRegistered`: signals
  issued minus signals consumed, with in-flight contributions measured
  by the location weights and completed formations by `nClaims`;
* `teamIdEq`/`claimLen`: `teamId` grows by exactly one per claimed
  formation, starting from `1`;
* `fLogEq`/`gLogEq`: the batch structure of the rendezvous — the
  sequence of `teamId` values read by followers (resp. goalies) is
  exactly three copies (resp. one copy) of each claimed id in claim
  order, plus at most `3` (resp. `1`) reads of the current `teamId`
  belonging to the formation still in progress;
* `rwtEq`: `refereeWaitTeams` is signalled exactly once per claimed
  formation (pending leaders accounted by `rwtPendW`);
* `pfreeNonneg`/`gfreeNonneg`: the free counters never go negative;
* `lateState`/`preRetZero`: a late player still has `ret = 0` and
  status `LATE`; `ret` is still `0` before the branch executes. -/
structure Inv {NP NG : Nat} (s : Sys NP NG) : Prop where
  mutexEq : s.mutex + pcnt s pHoldW + gcnt s gHoldW = 1
  roundBound : ∀ i k b, s.ploc i = PLoc.lRound k b → k ≤ 2
  wtEq : s.playersWaitTeam + pcnt s fReadW + pcnt s fSigW + s.regUpsF
           = 3 * s.nClaims + pcnt s wtUpW
  gwtEq : s.goaliesWaitTeam + gcnt s gReadW + gcnt s gSigW + s.regUpsG
           = s.nClaims + pcnt s gwUpW
  regEq : s.playerRegistered + 4 * s.nClaims + pcnt s regDownW
           = s.regUpsF + s.regUpsG
  teamIdEq : s.teamId = 1 + (s.nClaims : Int)
  claimLen : s.claimLog.length = s.nClaims
  fLogEq : ∃ pf, pf ≤ 3 ∧ s.regUpsF + pcnt s fSigW = 3 * s.nClaims + pf ∧
             s.fLog = padThree s.claimLog ++ List.replicate pf s.teamId
  gLogEq : ∃ pg, pg ≤ 1 ∧ s.regUpsG + gcnt s gSigW = s.nClaims + pg ∧
             s.gLog = s.claimLog ++ List.replicate pg s.teamId
  rwtEq : s.refereeWaitTeams + pcnt s rwtPendW = s.nClaims
  pfreeNonneg : 0 ≤ s.playersFree
  gfreeNonneg : 0 ≤ s.goaliesFree
  lateState : ∀ i, s.ploc i = PLoc.lateUnlock →
                s.pret i = 0 ∧ s.playerStat i = PStat.LATE
  preRetZero : ∀ i, earlyLoc (s.ploc i) = true → s.pret i = 0

/-- Player locations whose next action is a `semDown` on a rendezvous
channel of the protocol (the mutex is exclusion, not a rendezvous
channel; spec §3 lists the channel set). -/
def isChanWaitP : PLoc → Bool
  | .fWait | .wrWait | .puWait | .lRound _ true | .lGoalie true => true
  | _ => false

/-- Goalie locations whose next action is a `semDown` on a rendezvous
channel. -/
def isChanWaitG : GLoc → Bool
  | .gWait => true
  | _ => false

/-- Replace the player-visible shared-memory record (the four counters
and the two status arrays) of a state, leaving semaphores, control
locations, locals and ghosts untouched.  Used to express that a step
neither reads nor writes the shared record. -/
def withShared {NP NG : Nat} (s : Sys NP NG) (pa pf gf ti : Int)
    (ps : Fin NP → PStat) (gs : Fin NG → PStat) : Sys NP NG :=
  { s with playersArrived := pa, playersFree := pf, goaliesFree := gf,
           teamId := ti, playerStat := ps, goalieStat := gs }

/-- Schedule driving 1 goalie and 3 followers to their waits and a
fourth player to leader state, blocked on `playerRegistered` inside the
critical region (`lRound 0 true`). -/
def c4Sched : List (Event 4 1) :=
  [
   .gstep 0, .gstep 0, .gstep 0, .pstep 0, .pstep 0, .pstep 0, .pstep 0, .pstep 0,
   .pstep 0, .pstep 1, .pstep 1, .pstep 1, .pstep 1, .pstep 1, .pstep 1, .pstep 2,
   .pstep 2, .pstep 2, .pstep 2, .pstep 2, .pstep 2, .pstep 3, .pstep 3, .pstep 3,
   .pstep 3, .pstep 3, .pstep 3
  ]

/-- `c4Sched` extended by one step of player 0: it consumes the
leader's `playersWaitTeam` signal and stands before the unlocked read
of `teamId` (`fRead`). -/
def c5Sched : List (Event 4 1) :=
  [
   .gstep 0, .gstep 0, .gstep 0, .pstep 0, .pstep 0, .pstep 0, .pstep 0, .pstep 0,
   .pstep 0, .pstep 1, .pstep 1, .pstep 1, .pstep 1, .pstep 1, .pstep 1, .pstep 2,
   .pstep 2, .pstep 2, .pstep 2, .pstep 2, .pstep 2, .pstep 3, .pstep 3, .pstep 3,
   .pstep 3, .pstep 3, .pstep 3, .pstep 0
  ]

/-- Schedule: 8 players arrive with no goalie (all become waiting
followers), then one goalie arrives, then player 8 reaches the branch
point with 8 free players and 1 free goalie available. -/
def c3Sched : List (Event 9 1) :=
  [
   .pstep 0, .pstep 0, .pstep 0, .pstep 0, .pstep 0, .pstep 0, .pstep 1, .pstep 1,
   .pstep 1, .pstep 1, .pstep 1, .pstep 1, .pstep 2, .pstep 2, .pstep 2, .pstep 2,
   .pstep 2, .pstep 2, .pstep 3, .pstep 3, .pstep 3, .pstep 3, .pstep 3, .pstep 3,
   .pstep 4, .pstep 4, .pstep 4, .pstep 4, .pstep 4, .pstep 4, .pstep 5, .pstep 5,
   .pstep 5, .pstep 5, .pstep 5, .pstep 5, .pstep 6, .pstep 6, .pstep 6, .pstep 6,
   .pstep 6, .pstep 6, .pstep 7, .pstep 7, .pstep 7, .pstep 7, .pstep 7, .pstep 7,
   .gstep 0, .gstep 0, .gstep 0, .pstep 8, .pstep 8, .pstep 8, .pstep 8
  ]

/-- Segment 0 of the §8 scenario schedule (see `c7Sched`). -/
def c7Sched0 : List (Event 9 2) :=
  [
   .gstep 0, .gstep 0, .gstep 0, .gstep 1, .gstep 1, .gstep 1, .pstep 0, .pstep 0,
   .pstep 0, .pstep 0, .pstep 0, .pstep 0, .pstep 1, .pstep 1, .pstep 1, .pstep 1,
   .pstep 1, .pstep 1, .pstep 2, .pstep 2, .pstep 2, .pstep 2, .pstep 2, .pstep 2,
   .pstep 3, .pstep 3, .pstep 3, .pstep 3, .pstep 3, .pstep 3, .pstep 0, .pstep 0
  ]

/-- Segment 1 of the §8 scenario schedule (see `c7Sched`). -/
def c7Sched1 : List (Event 9 2) :=
  [
   .pstep 0, .pstep 3, .pstep 3, .pstep 1, .pstep 1, .pstep 1, .pstep 3, .pstep 3,
   .pstep 2, .pstep 2, .pstep 2, .pstep 3, .pstep 3, .gstep 0, .gstep 0, .gstep 0,
   .pstep 3, .pstep 3, .pstep 3, .pstep 3, .pstep 3, .pstep 3, .pstep 3, .pstep 3,
   .pstep 0, .pstep 0, .pstep 0, .pstep 0, .pstep 1, .pstep 1, .pstep 1, .pstep 1
  ]

/-- Segment 2 of the §8 scenario schedule (see `c7Sched`). -/
def c7Sched2 : List (Event 9 2) :=
  [
   .pstep 2, .pstep 2, .pstep 2, .pstep 2, .pstep 4, .pstep 4, .pstep 4, .pstep 4,
   .pstep 4, .pstep 4, .pstep 5, .pstep 5, .pstep 5, .pstep 5, .pstep 5, .pstep 5,
   .pstep 6, .pstep 6, .pstep 6, .pstep 6, .pstep 6, .pstep 6, .pstep 7, .pstep 7,
   .pstep 7, .pstep 7, .pstep 7, .pstep 7, .pstep 4, .pstep 4, .pstep 4, .pstep 7
  ]

/-- Segment 3 of the §8 scenario schedule (see `c7Sched`). -/
def c7Sched3 : List (Event 9 2) :=
  [
   .pstep 7, .pstep 5, .pstep 5, .pstep 5, .pstep 7, .pstep 7, .pstep 6, .pstep 6,
   .pstep 6, .pstep 7, .pstep 7, .gstep 1, .gstep 1, .gstep 1, .pstep 7, .pstep 7,
   .pstep 7, .pstep 7, .pstep 7, .pstep 7, .pstep 7, .pstep 7, .pstep 4, .pstep 4,
   .pstep 4, .pstep 4, .pstep 5, .pstep 5, .pstep 5, .pstep 5, .pstep 6, .pstep 6
  ]

/-- Segment 4 of the §8 scenario schedule (see `c7Sched`). -/
def c7Sched4 : List (Event 9 2) :=
  [
   .pstep 6, .pstep 6, .pstep 8, .pstep 8, .pstep 8, .pstep 8, .pstep 8, .pstep 8,
   .pstep 8
  ]

/-- The spec §8 scenario: 2 goalies then 9 players arrive in id order
0..8; both formations run to completion, every recruited player
continues into `waitReferee`, and player 8 arrives 9th and leaves late. -/
def c7Sched : List (Event 9 2) :=
  c7Sched0 ++ c7Sched1 ++ c7Sched2 ++ c7Sched3 ++ c7Sched4


/-- State reached by `c4Sched`: the leader (player 3) holds the mutex
and is blocked on `playerRegistered` in its first recruiting round. -/
def c4State : Sys 4 1 := (runList c4Sched (initSys 4 1)).getD (initSys 4 1)

/-- State reached by the first 25 events of `c4Sched`: player 3 is at
the branch point of `playerConstituteTeam` with 3 free players and 1
free goalie available and only 3 prior arrivals. -/
def c4Mid : Sys 4 1 := (runList (c4Sched.take 25) (initSys 4 1)).getD (initSys 4 1)

/-- State reached by `c5Sched`: player 0 has been woken and stands
before the unlocked `ret = teamId` read while the leader still holds
the mutex. -/
def c5State : Sys 4 1 := (runList c5Sched (initSys 4 1)).getD (initSys 4 1)

/-- State reached by `c3Sched`: player 8 is at the branch point with 8
free players and 1 free goalie available, but 8 prior arrivals. -/
def c3State : Sys 9 1 := (runList c3Sched (initSys 9 1)).getD (initSys 9 1)

/-- Final state of the §8 scenario schedule. -/
def c7Final : Sys 9 2 := (runList c7Sched (initSys 9 2)).getD (initSys 9 2)

/-- State reached by all but the last two events of `c7Sched`: the
late player 8 is at `lateUnlock`. -/
def c7Late : Sys 9 2 := (runList (c7Sched.take 135) (initSys 9 2)).getD (initSys 9 2)

/-- Locations where a player waits on `playerRegistered` during its own
team formation (the leader's handshake waits, lines 197 and 207). -/
def leaderRegWait : PLoc → Bool
  | .lRound _ true | .lGoalie true => true
  | _ => false

/-- The value `main` stores into `int n` from `argv[1]` (line 78):
`n = (unsigned int) strtol (argv[1], &tinp, 0)`.  The `long` result of
`strtol` is truncated to 32 bits by the cast and the assignment to the
signed `int n` reinterprets the 32-bit pattern in two's complement. -/
def storedId (v : Int) : Int :=
  let u := v % 4294967296
  if u < 2147483648 then u else u - 4294967296

/-- `main`'s argument validation (lines 70–82): the process proceeds
past validation exactly when the argument count is 4, `strtol`
consumed the whole id string (`*tinp == 0`), and the stored id
satisfies `n < NUMPLAYERS` (line 79 checks `n >= NUMPLAYERS` only —
there is no lower-bound check).  `numPlayers` is passed as a parameter
because `probConst.h` is not under `src/`. -/
def argsAccepted (argc : Nat) (v : Int) (endIsNul : Bool) (numPlayers : Int) : Bool :=
  decide (argc = 4) && endIsNul && decide (storedId v < numPlayers)

/-- Outcome of the post-lock `switch (player_type)` of
`playerConstituteTeam` (lines 227–250), on the success path of each
semaphore operation: which channel operations the arm performs,
whether it reports a diagnostic (`perror`), whether it exits the
process, and whether the function afterwards returns normally
(reaches `return ret`, line 252).  (OS-level semaphore failures, which
do exit, are environment errors outside this model.) -/
structure SwitchOutcome where
  signalsRefereeWaitTeams : Bool
  waitsPlayersWaitTeam : Bool
  readsTeamIdAndRegisters : Bool
  reportsInvalidType : Bool
  exitsProcess : Bool
  returnsNormally : Bool
  deriving DecidableEq, Repr

/-- The `switch (player_type)` itself (lines 227–250): case 0 (late)
breaks; case 1 (leader) signals `refereeWaitTeams`; case 2 (follower)
waits on `playersWaitTeam`, reads `teamId` and signals
`playerRegistered`; the `default` arm calls
`perror("Invalid player type was assigned")` and — unlike every other
error path in the file — does not call `exit`, so control falls
through to `return ret`. -/
def postLockSwitch (pt : Int) : SwitchOutcome :=
  if pt = 0 then ⟨false, false, false, false, false, true⟩
  else if pt = 1 then ⟨true, false, false, false, false, true⟩
  else if pt = 2 then ⟨false, true, true, false, false, true⟩
  else ⟨false, false, false, true, false, true⟩

/-- State used by the C6 witness: a player at the branch point with 5
free players and 2 free goalies recorded. -/
def w6State : Sys 1 1 :=
  { initSys 1 1 with mutex := 0, playersFree := 5, goaliesFree := 2,
                     ploc := fun _ => PLoc.cCrit }

/-- State used by the C10 witness: a leader about to claim while
`teamId` holds `0`. -/
def w10Claim : Sys 1 0 :=
  { initSys 1 0 with teamId := 0, mutex := 0, ploc := fun _ => PLoc.lClaim }

/-- State used by the C10 witness: a player at the `main` return test
with `ret = 0`. -/
def w10End : Sys 1 0 :=
  { initSys 1 0 with ploc := fun _ => PLoc.ctEnd }

/-- The successor of `w6State` under player 0's branch step. -/
def w6Next : Sys 1 1 := (applyEv (Event.pstep 0) w6State).getD (initSys 1 1)

theorem runList_reach {NP NG : Nat} :
    ∀ (evs : List (Event NP NG)) (s s' : Sys NP NG),
      runList evs s = some s' → Reach s s' := by
  intro evs
  induction evs with
  | nil =>
    intro s s' h
    simp only [runList, Option.some.injEq] at h
    exact h ▸ Relation.ReflTransGen.refl
  | cons e es ih =>
    intro s s' h
    simp only [runList] at h
    cases happ : applyEv e s with
    | none => rw [happ] at h; exact absurd h (by simp)
    | some s₁ =>
      rw [happ] at h
      exact Relation.ReflTransGen.head ⟨e, happ⟩ (ih s₁ s' h)

theorem sum_update_w {n : Nat} {α : Type} (f : Fin n → α) (i : Fin n) (v : α)
    (w : α → Nat) :
    (Finset.univ.sum fun j => w (Function.update f i v j)) + w (f i)
      = (Finset.univ.sum fun j => w (f j)) + w v := by
  have h1 : ∀ j, w (Function.update f i v j)
      = Function.update (fun k => w (f k)) i (w v) j := by
    intro j
    by_cases h : j = i
    · subst h; simp
    · simp [Function.update_noteq h]
  calc (Finset.univ.sum fun j => w (Function.update f i v j)) + w (f i)
      = (Finset.univ.sum (Function.update (fun k => w (f k)) i (w v))) + w (f i) := by
        rw [Finset.sum_congr rfl (fun j _ => h1 j)]
    _ = (w v + (Finset.univ \ {i}).sum fun k => w (f k)) + w (f i) := by
        rw [Finset.sum_update_of_mem (Finset.mem_univ i)]
    _ = (Finset.univ.sum fun j => w (f j)) + w v := by
        have h2 : (Finset.univ \ {i}).sum (fun k => w (f k)) + w (f i)
            = Finset.univ.sum fun j => w (f j) := by
          have h3 := Finset.sum_erase_add Finset.univ (fun k => w (f k)) (Finset.mem_univ i)
          rw [Finset.erase_eq] at h3
          exact h3
        omega

theorem pcnt_update {NP NG : Nat} (s : Sys NP NG) (i : Fin NP) (v : PLoc)
    (w : PLoc → Nat) (s' : Sys NP NG) (hloc : s'.ploc = Function.update s.ploc i v) :
    pcnt s' w + w (s.ploc i) = pcnt s w + w v := by
  unfold pcnt
  rw [hloc]
  exact sum_update_w s.ploc i v w

theorem gcnt_update {NP NG : Nat} (s : Sys NP NG) (j : Fin NG) (v : GLoc)
    (w : GLoc → Nat) (s' : Sys NP NG) (hloc : s'.gloc = Function.update s.gloc j v) :
    gcnt s' w + w (s.gloc j) = gcnt s w + w v := by
  unfold gcnt
  rw [hloc]
  exact sum_update_w s.gloc j v w

theorem single_le_pcnt {NP NG : Nat} (s : Sys NP NG) (w : PLoc → Nat) (i : Fin NP) :
    w (s.ploc i) ≤ pcnt s w := by
  unfold pcnt
  exact Finset.single_le_sum (f := fun j => w (s.ploc j))
    (fun _ _ => Nat.zero_le _) (Finset.mem_univ i)

theorem single_le_gcnt {NP NG : Nat} (s : Sys NP NG) (w : GLoc → Nat) (j : Fin NG) :
    w (s.gloc j) ≤ gcnt s w := by
  unfold gcnt
  exact Finset.single_le_sum (f := fun k => w (s.gloc k))
    (fun _ _ => Nat.zero_le _) (Finset.mem_univ j)

theorem pcnt_eq_single {NP NG : Nat} (s : Sys NP NG) (w : PLoc → Nat) (i : Fin NP)
    (h0 : ∀ j, j ≠ i → w (s.ploc j) = 0) : pcnt s w = w (s.ploc i) := by
  unfold pcnt
  exact Finset.sum_eq_single i (fun b _ hb => h0 b hb)
    (fun h => absurd (Finset.mem_univ i) h)

theorem gcnt_eq_zero {NP NG : Nat} (s : Sys NP NG) (w : GLoc → Nat)
    (h : gcnt s w = 0) : ∀ j, w (s.gloc j) = 0 := by
  intro j
  have := single_le_gcnt s w j
  omega

theorem wtUpW_zero_of_hold (l : PLoc) (h : pHoldW l = 0) : wtUpW l = 0 := by
  cases l <;> simp_all [pHoldW, wtUpW]

theorem regDownW_zero_of_hold (l : PLoc) (h : pHoldW l = 0) : regDownW l = 0 := by
  cases l <;> simp_all [pHoldW, regDownW]

theorem gwUpW_zero_of_hold (l : PLoc) (h : pHoldW l = 0) : gwUpW l = 0 := by
  cases l <;> simp_all [pHoldW, gwUpW]

theorem wtUpW_le_three (l : PLoc) (hk : ∀ k b, l = PLoc.lRound k b → k ≤ 2) :
    wtUpW l ≤ 3 := by
  cases l <;> try simp [wtUpW]
  case lRound k b =>
    have := hk k b rfl
    cases b <;> simp [wtUpW] <;> omega

theorem regDownW_le_four (l : PLoc) (hk : ∀ k b, l = PLoc.lRound k b → k ≤ 2) :
    regDownW l ≤ 4 := by
  cases l <;> try simp [regDownW]
  case lRound k b =>
    have := hk k b rfl
    simp [regDownW]
    omega

theorem gwUpW_le_hold (l : PLoc) : gwUpW l ≤ pHoldW l := by
  cases l <;> try simp [gwUpW, pHoldW]
  case lGoalie b => cases b <;> simp [gwUpW, pHoldW]

theorem invInit (NP NG : Nat) : Inv (initSys NP NG) where
  mutexEq := by simp [initSys, pcnt, gcnt, pHoldW, gHoldW]
  roundBound := by intro i k b h; simp [initSys] at h
  wtEq := by simp [initSys, pcnt, fReadW, fSigW, wtUpW]
  gwtEq := by simp [initSys, pcnt, gcnt, gReadW, gSigW, gwUpW]
  regEq := by simp [initSys, pcnt, regDownW]
  teamIdEq := by simp [initSys]
  claimLen := by simp [initSys]
  fLogEq := ⟨0, by omega, by simp [initSys, pcnt, fSigW], by simp [initSys, padThree]⟩
  gLogEq := ⟨0, by omega, by simp [initSys, gcnt, gSigW], by simp [initSys]⟩
  rwtEq := by simp [initSys, pcnt, rwtPendW]
  pfreeNonneg := by simp [initSys]
  gfreeNonneg := by simp [initSys]
  lateState := by intro i h; simp [initSys] at h
  preRetZero := by intro i _; simp [initSys]

/-- Under the invariant, a player inside a critical region is the only
process inside one, and the mutex counter is `0`. -/
theorem onlyHolder {NP NG : Nat} {s : Sys NP NG} (hInv : Inv s) {i : Fin NP}
    (hi : pHoldW (s.ploc i) = 1) :
    s.mutex = 0 ∧ (∀ j, j ≠ i → pHoldW (s.ploc j) = 0) ∧
      ∀ j, gHoldW (s.gloc j) = 0 := by
  have h1 := single_le_pcnt s pHoldW i
  have hm := hInv.mutexEq
  have hg : gcnt s gHoldW = 0 := by omega
  have h2 : pHoldW (s.ploc i) + ((Finset.univ.erase i).sum fun k => pHoldW (s.ploc k))
      = pcnt s pHoldW :=
    Finset.add_sum_erase Finset.univ (fun k => pHoldW (s.ploc k)) (Finset.mem_univ i)
  refine ⟨by omega, ?_, gcnt_eq_zero s gHoldW hg⟩
  intro j hj
  have h3 : pHoldW (s.ploc j) ≤ ((Finset.univ.erase i).sum fun k => pHoldW (s.ploc k)) :=
    Finset.single_le_sum (f := fun k => pHoldW (s.ploc k)) (fun _ _ => Nat.zero_le _)
      (Finset.mem_erase.mpr ⟨hj, Finset.mem_univ j⟩)
  omega

/-- Under the invariant, if player `i` is inside a critical region then
every per-formation weight sum collapses to `i`'s own contribution. -/
theorem pcnt_formation_single {NP NG : Nat} {s : Sys NP NG} (hInv : Inv s)
    {i : Fin NP} (hi : pHoldW (s.ploc i) = 1) :
    pcnt s wtUpW = wtUpW (s.ploc i) ∧ pcnt s regDownW = regDownW (s.ploc i) ∧
      pcnt s gwUpW = gwUpW (s.ploc i) := by
  obtain ⟨-, hothers, -⟩ := onlyHolder hInv hi
  refine ⟨pcnt_eq_single s wtUpW i ?_, pcnt_eq_single s regDownW i ?_,
    pcnt_eq_single s gwUpW i ?_⟩ <;> intro j hj
  · exact wtUpW_zero_of_hold _ (hothers j hj)
  · exact regDownW_zero_of_hold _ (hothers j hj)
  · exact gwUpW_zero_of_hold _ (hothers j hj)

/-- At the moment a leader stands at `ret = teamId++` (location
`lClaim`), the whole rendezvous of its batch has completed: all three
recruited followers and the goalie have read `teamId` and acknowledged,
all handshake semaphores are drained, and nobody is still between a
wake-up and its acknowledgement. -/
theorem claimFreeze {NP NG : Nat} {s : Sys NP NG} (hInv : Inv s) {i : Fin NP}
    (hi : s.ploc i = PLoc.lClaim) :
    s.playersWaitTeam = 0 ∧ s.goaliesWaitTeam = 0 ∧ s.playerRegistered = 0 ∧
    pcnt s fReadW = 0 ∧ pcnt s fSigW = 0 ∧ gcnt s gReadW = 0 ∧ gcnt s gSigW = 0 ∧
    s.regUpsF = 3 * s.nClaims + 3 ∧ s.regUpsG = s.nClaims + 1 := by
  have hhold : pHoldW (s.ploc i) = 1 := by rw [hi]; rfl
  obtain ⟨hw, hr, hg⟩ := pcnt_formation_single hInv hhold
  rw [hi] at hw hr hg
  simp only [wtUpW, regDownW, gwUpW] at hw hr hg
  have h3 := hInv.wtEq
  have h4 := hInv.gwtEq
  have h5 := hInv.regEq
  omega

theorem pcnt_upd7 {NP NG : Nat} {s s' : Sys NP NG} {i : Fin NP} {v o : PLoc}
    (hp : s'.ploc = Function.update s.ploc i v) (ho : s.ploc i = o) :
    (pcnt s' pHoldW + pHoldW o = pcnt s pHoldW + pHoldW v) ∧
    (pcnt s' wtUpW + wtUpW o = pcnt s wtUpW + wtUpW v) ∧
    (pcnt s' regDownW + regDownW o = pcnt s regDownW + regDownW v) ∧
    (pcnt s' gwUpW + gwUpW o = pcnt s gwUpW + gwUpW v) ∧
    (pcnt s' fReadW + fReadW o = pcnt s fReadW + fReadW v) ∧
    (pcnt s' fSigW + fSigW o = pcnt s fSigW + fSigW v) ∧
    (pcnt s' rwtPendW + rwtPendW o = pcnt s rwtPendW + rwtPendW v) := by
  subst ho
  exact ⟨pcnt_update s i v _ s' hp, pcnt_update s i v _ s' hp,
    pcnt_update s i v _ s' hp, pcnt_update s i v _ s' hp,
    pcnt_update s i v _ s' hp, pcnt_update s i v _ s' hp,
    pcnt_update s i v _ s' hp⟩

theorem gcnt_upd3 {NP NG : Nat} {s s' : Sys NP NG} {j : Fin NG} {v o : GLoc}
    (hp : s'.gloc = Function.update s.gloc j v) (ho : s.gloc j = o) :
    (gcnt s' gHoldW + gHoldW o = gcnt s gHoldW + gHoldW v) ∧
    (gcnt s' gReadW + gReadW o = gcnt s gReadW + gReadW v) ∧
    (gcnt s' gSigW + gSigW o = gcnt s gSigW + gSigW v) := by
  subst ho
  exact ⟨gcnt_update s j v _ s' hp, gcnt_update s j v _ s' hp,
    gcnt_update s j v _ s' hp⟩

theorem roundBound_pres {NP NG : Nat} {s s' : Sys NP NG} {i : Fin NP} {v : PLoc}
    (hp : s'.ploc = Function.update s.ploc i v) (hInv : Inv s)
    (hv : ∀ k b, v = PLoc.lRound k b → k ≤ 2) :
    ∀ j k b, s'.ploc j = PLoc.lRound k b → k ≤ 2 := by
  intro j k b hj
  rw [hp] at hj
  by_cases hji : j = i
  · subst hji; rw [Function.update_same] at hj; exact hv k b hj
  · rw [Function.update_noteq hji] at hj; exact hInv.roundBound j k b hj

theorem lateState_pres {NP NG : Nat} {s s' : Sys NP NG} {i : Fin NP} {v : PLoc}
    {st : PStat} {r : Int}
    (hp : s'.ploc = Function.update s.ploc i v)
    (hpret : s'.pret = Function.update s.pret i r)
    (hstat : s'.playerStat = Function.update s.playerStat i st)
    (hInv : Inv s)
    (hv : v = PLoc.lateUnlock → r = 0 ∧ st = PStat.LATE) :
    ∀ j, s'.ploc j = PLoc.lateUnlock →
      s'.pret j = 0 ∧ s'.playerStat j = PStat.LATE := by
  intro j hj
  rw [hp] at hj
  rw [hpret, hstat]
  by_cases hji : j = i
  · subst hji
    rw [Function.update_same] at hj ⊢
    rw [Function.update_same]
    exact hv hj
  · rw [Function.update_noteq hji] at hj ⊢
    rw [Function.update_noteq hji]
    exact hInv.lateState j hj

theorem preRet_pres {NP NG : Nat} {s s' : Sys NP NG} {i : Fin NP} {v : PLoc}
    {r : Int}
    (hp : s'.ploc = Function.update s.ploc i v)
    (hpret : s'.pret = Function.update s.pret i r)
    (hInv : Inv s)
    (hv : earlyLoc v = true → r = 0) :
    ∀ j, earlyLoc (s'.ploc j) = true → s'.pret j = 0 := by
  intro j hj
  rw [hp] at hj
  rw [hpret]
  by_cases hji : j = i
  · subst hji
    rw [Function.update_same] at hj ⊢
    exact hv hj
  · rw [Function.update_noteq hji] at hj ⊢
    exact hInv.preRetZero j hj

theorem pHoldW_le_one (l : PLoc) : pHoldW l ≤ 1 := by
  cases l <;> simp [pHoldW]

theorem pcnt_le_mul_hold {NP NG : Nat} {s : Sys NP NG} (hInv : Inv s) :
    pcnt s wtUpW ≤ 3 * pcnt s pHoldW := by
  unfold pcnt
  rw [Finset.mul_sum]
  apply Finset.sum_le_sum
  intro j _
  by_cases hh : pHoldW (s.ploc j) = 0
  · rw [wtUpW_zero_of_hold _ hh]
    omega
  · have h1 := wtUpW_le_three (s.ploc j) (fun k b hkb => hInv.roundBound j k b hkb)
    have h2 := pHoldW_le_one (s.ploc j)
    omega

/-- At most one leader is mid-formation, so at most `3` unredeemed
`playersWaitTeam` contributions exist at any time. -/
theorem pcnt_wtUpW_le {NP NG : Nat} {s : Sys NP NG} (hInv : Inv s) : pcnt s wtUpW ≤ 3 := by
  have h1 := pcnt_le_mul_hold hInv
  have h2 := hInv.mutexEq
  omega

/-- At most one leader is mid-formation, so at most `1` unredeemed
`goaliesWaitTeam` contribution exists at any time. -/
theorem pcnt_gwUpW_le {NP NG : Nat} {s : Sys NP NG} (hInv : Inv s) : pcnt s gwUpW ≤ 1 := by
  have h1 : pcnt s gwUpW ≤ pcnt s pHoldW := by
    unfold pcnt
    exact Finset.sum_le_sum fun j _ => gwUpW_le_hold (s.ploc j)
  have h2 := hInv.mutexEq
  omega

theorem padThree_snoc (l : List Int) (v : Int) :
    padThree (l ++ [v]) = padThree l ++ [v, v, v] := by
  simp [padThree]

set_option maxHeartbeats 3200000 in
/-- The invariant `Inv` is preserved by every step of the system. -/
theorem invStep {NP NG : Nat} {s s' : Sys NP NG} (hInv : Inv s) (e : Event NP NG)
    (h : applyEv e s = some s') : Inv s' := by
  cases e with
  | pstep i =>
    cases hloc : s.ploc i with
    | start =>
      simp only [applyEv, hloc] at h
      by_cases hm : s.mutex = 0
      · rw [if_pos hm] at h; exact Option.noConfusion h
      rw [if_neg hm] at h
      have h2 := Option.some.inj h
      have e01 : s'.mutex = s.mutex - 1 := by rw [← h2]
      have e02 : s'.playersWaitTeam = s.playersWaitTeam := by rw [← h2]
      have e03 : s'.goaliesWaitTeam = s.goaliesWaitTeam := by rw [← h2]
      have e04 : s'.playerRegistered = s.playerRegistered := by rw [← h2]
      have e05 : s'.refereeWaitTeams = s.refereeWaitTeams := by rw [← h2]
      have e06 : s'.playersFree = s.playersFree := by rw [← h2]
      have e07 : s'.goaliesFree = s.goaliesFree := by rw [← h2]
      have e08 : s'.teamId = s.teamId := by rw [← h2]
      have e09 : s'.nClaims = s.nClaims := by rw [← h2]
      have e10 : s'.regUpsF = s.regUpsF := by rw [← h2]
      have e11 : s'.regUpsG = s.regUpsG := by rw [← h2]
      have e12 : s'.claimLog = s.claimLog := by rw [← h2]
      have e13 : s'.fLog = s.fLog := by rw [← h2]
      have e14 : s'.gLog = s.gLog := by rw [← h2]
      have e15 : s'.gloc = s.gloc := by rw [← h2]
      have e16 : s'.ploc = Function.update s.ploc i PLoc.aCrit := by rw [← h2]
      have e17 : s'.pret = s.pret := by rw [← h2]
      have e18 : s'.playerStat = s.playerStat := by rw [← h2]
      have e19 : s'.claimLog.length = s.claimLog.length  := by rw [e12]
      obtain ⟨hp1, hp2, hp3, hp4, hp5, hp6, hp7⟩ := pcnt_upd7 e16 hloc
      simp only [pHoldW, wtUpW, regDownW, gwUpW, fReadW, fSigW, rwtPendW] at hp1 hp2 hp3 hp4 hp5 hp6 hp7
      have hgH : gcnt s' gHoldW = gcnt s gHoldW := by unfold gcnt; rw [e15]
      have hgR : gcnt s' gReadW = gcnt s gReadW := by unfold gcnt; rw [e15]
      have hgS : gcnt s' gSigW = gcnt s gSigW := by unfold gcnt; rw [e15]
      have i01 := hInv.mutexEq
      have i02 := hInv.wtEq
      have i03 := hInv.gwtEq
      have i04 := hInv.regEq
      have i05 := hInv.teamIdEq
      have i06 := hInv.claimLen
      have i07 := hInv.rwtEq
      have i08 := hInv.pfreeNonneg
      have i09 := hInv.gfreeNonneg
      have hFL : ∃ pf, pf ≤ 3 ∧ s'.regUpsF + pcnt s' fSigW = 3 * s'.nClaims + pf ∧ s'.fLog = padThree s'.claimLog ++ List.replicate pf s'.teamId := by
        obtain ⟨pf, hf1, hf2, hf3⟩ := hInv.fLogEq
        exact ⟨pf, hf1, by omega, by rw [e13, e12, e08]; exact hf3⟩
      have hGL : ∃ pg, pg ≤ 1 ∧ s'.regUpsG + gcnt s' gSigW = s'.nClaims + pg ∧ s'.gLog = s'.claimLog ++ List.replicate pg s'.teamId := by
        obtain ⟨pg, hg1, hg2, hg3⟩ := hInv.gLogEq
        exact ⟨pg, hg1, by omega, by rw [e14, e12, e08]; exact hg3⟩
      exact {
        roundBound := roundBound_pres e16 hInv (by intro k b hh; cases hh),
        lateState := lateState_pres e16 (e17.trans (Function.update_eq_self i s.pret).symm) (e18.trans (Function.update_eq_self i s.playerStat).symm) hInv (by intro hh; cases hh),
        preRetZero := preRet_pres e16 (e17.trans (Function.update_eq_self i s.pret).symm) hInv (fun _ => hInv.preRetZero i (by rw [hloc]; rfl)),
        mutexEq := by omega, wtEq := by omega, gwtEq := by omega,
        regEq := by omega, teamIdEq := by omega, claimLen := by omega,
        rwtEq := by omega, pfreeNonneg := by omega, gfreeNonneg := by omega,
        fLogEq := hFL, gLogEq := hGL }
    | aCrit =>
      simp only [applyEv, hloc] at h
      have h2 := Option.some.inj h
      have e01 : s'.mutex = s.mutex := by rw [← h2]
      have e02 : s'.playersWaitTeam = s.playersWaitTeam := by rw [← h2]
      have e03 : s'.goaliesWaitTeam = s.goaliesWaitTeam := by rw [← h2]
      have e04 : s'.playerRegistered = s.playerRegistered := by rw [← h2]
      have e05 : s'.refereeWaitTeams = s.refereeWaitTeams := by rw [← h2]
      have e06 : s'.playersFree = s.playersFree := by rw [← h2]
      have e07 : s'.goaliesFree = s.goaliesFree := by rw [← h2]
      have e08 : s'.teamId = s.teamId := by rw [← h2]
      have e09 : s'.nClaims = s.nClaims := by rw [← h2]
      have e10 : s'.regUpsF = s.regUpsF := by rw [← h2]
      have e11 : s'.regUpsG = s.regUpsG := by rw [← h2]
      have e12 : s'.claimLog = s.claimLog := by rw [← h2]
      have e13 : s'.fLog = s.fLog := by rw [← h2]
      have e14 : s'.gLog = s.gLog := by rw [← h2]
      have e15 : s'.gloc = s.gloc := by rw [← h2]
      have e16 : s'.ploc = Function.update s.ploc i PLoc.aUnlock := by rw [← h2]
      have e17 : s'.pret = s.pret := by rw [← h2]
      have e18 : s'.playerStat = Function.update s.playerStat i PStat.ARRIVING := by rw [← h2]
      have e19 : s'.claimLog.length = s.claimLog.length  := by rw [e12]
      obtain ⟨hp1, hp2, hp3, hp4, hp5, hp6, hp7⟩ := pcnt_upd7 e16 hloc
      simp only [pHoldW, wtUpW, regDownW, gwUpW, fReadW, fSigW, rwtPendW] at hp1 hp2 hp3 hp4 hp5 hp6 hp7
      have hgH : gcnt s' gHoldW = gcnt s gHoldW := by unfold gcnt; rw [e15]
      have hgR : gcnt s' gReadW = gcnt s gReadW := by unfold gcnt; rw [e15]
      have hgS : gcnt s' gSigW = gcnt s gSigW := by unfold gcnt; rw [e15]
      have i01 := hInv.mutexEq
      have i02 := hInv.wtEq
      have i03 := hInv.gwtEq
      have i04 := hInv.regEq
      have i05 := hInv.teamIdEq
      have i06 := hInv.claimLen
      have i07 := hInv.rwtEq
      have i08 := hInv.pfreeNonneg
      have i09 := hInv.gfreeNonneg
      have hFL : ∃ pf, pf ≤ 3 ∧ s'.regUpsF + pcnt s' fSigW = 3 * s'.nClaims + pf ∧ s'.fLog = padThree s'.claimLog ++ List.replicate pf s'.teamId := by
        obtain ⟨pf, hf1, hf2, hf3⟩ := hInv.fLogEq
        exact ⟨pf, hf1, by omega, by rw [e13, e12, e08]; exact hf3⟩
      have hGL : ∃ pg, pg ≤ 1 ∧ s'.regUpsG + gcnt s' gSigW = s'.nClaims + pg ∧ s'.gLog = s'.claimLog ++ List.replicate pg s'.teamId := by
        obtain ⟨pg, hg1, hg2, hg3⟩ := hInv.gLogEq
        exact ⟨pg, hg1, by omega, by rw [e14, e12, e08]; exact hg3⟩
      exact {
        roundBound := roundBound_pres e16 hInv (by intro k b hh; cases hh),
        lateState := lateState_pres e16 (e17.trans (Function.update_eq_self i s.pret).symm) e18 hInv (by intro hh; cases hh),
        preRetZero := preRet_pres e16 (e17.trans (Function.update_eq_self i s.pret).symm) hInv (fun _ => hInv.preRetZero i (by rw [hloc]; rfl)),
        mutexEq := by omega, wtEq := by omega, gwtEq := by omega,
        regEq := by omega, teamIdEq := by omega, claimLen := by omega,
        rwtEq := by omega, pfreeNonneg := by omega, gfreeNonneg := by omega,
        fLogEq := hFL, gLogEq := hGL }
    | aUnlock =>
      simp only [applyEv, hloc] at h
      have h2 := Option.some.inj h
      have e01 : s'.mutex = s.mutex + 1 := by rw [← h2]
      have e02 : s'.playersWaitTeam = s.playersWaitTeam := by rw [← h2]
      have e03 : s'.goaliesWaitTeam = s.goaliesWaitTeam := by rw [← h2]
      have e04 : s'.playerRegistered = s.playerRegistered := by rw [← h2]
      have e05 : s'.refereeWaitTeams = s.refereeWaitTeams := by rw [← h2]
      have e06 : s'.playersFree = s.playersFree := by rw [← h2]
      have e07 : s'.goaliesFree = s.goaliesFree := by rw [← h2]
      have e08 : s'.teamId = s.teamId := by rw [← h2]
      have e09 : s'.nClaims = s.nClaims := by rw [← h2]
      have e10 : s'.regUpsF = s.regUpsF := by rw [← h2]
      have e11 : s'.regUpsG = s.regUpsG := by rw [← h2]
      have e12 : s'.claimLog = s.claimLog := by rw [← h2]
      have e13 : s'.fLog = s.fLog := by rw [← h2]
      have e14 : s'.gLog = s.gLog := by rw [← h2]
      have e15 : s'.gloc = s.gloc := by rw [← h2]
      have e16 : s'.ploc = Function.update s.ploc i PLoc.cPre := by rw [← h2]
      have e17 : s'.pret = s.pret := by rw [← h2]
      have e18 : s'.playerStat = s.playerStat := by rw [← h2]
      have e19 : s'.claimLog.length = s.claimLog.length  := by rw [e12]
      obtain ⟨hp1, hp2, hp3, hp4, hp5, hp6, hp7⟩ := pcnt_upd7 e16 hloc
      simp only [pHoldW, wtUpW, regDownW, gwUpW, fReadW, fSigW, rwtPendW] at hp1 hp2 hp3 hp4 hp5 hp6 hp7
      have hgH : gcnt s' gHoldW = gcnt s gHoldW := by unfold gcnt; rw [e15]
      have hgR : gcnt s' gReadW = gcnt s gReadW := by unfold gcnt; rw [e15]
      have hgS : gcnt s' gSigW = gcnt s gSigW := by unfold gcnt; rw [e15]
      have i01 := hInv.mutexEq
      have i02 := hInv.wtEq
      have i03 := hInv.gwtEq
      have i04 := hInv.regEq
      have i05 := hInv.teamIdEq
      have i06 := hInv.claimLen
      have i07 := hInv.rwtEq
      have i08 := hInv.pfreeNonneg
      have i09 := hInv.gfreeNonneg
      have hFL : ∃ pf, pf ≤ 3 ∧ s'.regUpsF + pcnt s' fSigW = 3 * s'.nClaims + pf ∧ s'.fLog = padThree s'.claimLog ++ List.replicate pf s'.teamId := by
        obtain ⟨pf, hf1, hf2, hf3⟩ := hInv.fLogEq
        exact ⟨pf, hf1, by omega, by rw [e13, e12, e08]; exact hf3⟩
      have hGL : ∃ pg, pg ≤ 1 ∧ s'.regUpsG + gcnt s' gSigW = s'.nClaims + pg ∧ s'.gLog = s'.claimLog ++ List.replicate pg s'.teamId := by
        obtain ⟨pg, hg1, hg2, hg3⟩ := hInv.gLogEq
        exact ⟨pg, hg1, by omega, by rw [e14, e12, e08]; exact hg3⟩
      exact {
        roundBound := roundBound_pres e16 hInv (by intro k b hh; cases hh),
        lateState := lateState_pres e16 (e17.trans (Function.update_eq_self i s.pret).symm) (e18.trans (Function.update_eq_self i s.playerStat).symm) hInv (by intro hh; cases hh),
        preRetZero := preRet_pres e16 (e17.trans (Function.update_eq_self i s.pret).symm) hInv (fun _ => hInv.preRetZero i (by rw [hloc]; rfl)),
        mutexEq := by omega, wtEq := by omega, gwtEq := by omega,
        regEq := by omega, teamIdEq := by omega, claimLen := by omega,
        rwtEq := by omega, pfreeNonneg := by omega, gfreeNonneg := by omega,
        fLogEq := hFL, gLogEq := hGL }
    | cPre =>
      simp only [applyEv, hloc] at h
      by_cases hm : s.mutex = 0
      · rw [if_pos hm] at h; exact Option.noConfusion h
      rw [if_neg hm] at h
      have h2 := Option.some.inj h
      have e01 : s'.mutex = s.mutex - 1 := by rw [← h2]
      have e02 : s'.playersWaitTeam = s.playersWaitTeam := by rw [← h2]
      have e03 : s'.goaliesWaitTeam = s.goaliesWaitTeam := by rw [← h2]
      have e04 : s'.playerRegistered = s.playerRegistered := by rw [← h2]
      have e05 : s'.refereeWaitTeams = s.refereeWaitTeams := by rw [← h2]
      have e06 : s'.playersFree = s.playersFree := by rw [← h2]
      have e07 : s'.goaliesFree = s.goaliesFree := by rw [← h2]
      have e08 : s'.teamId = s.teamId := by rw [← h2]
      have e09 : s'.nClaims = s.nClaims := by rw [← h2]
      have e10 : s'.regUpsF = s.regUpsF := by rw [← h2]
      have e11 : s'.regUpsG = s.regUpsG := by rw [← h2]
      have e12 : s'.claimLog = s.claimLog := by rw [← h2]
      have e13 : s'.fLog = s.fLog := by rw [← h2]
      have e14 : s'.gLog = s.gLog := by rw [← h2]
      have e15 : s'.gloc = s.gloc := by rw [← h2]
      have e16 : s'.ploc = Function.update s.ploc i PLoc.cCrit := by rw [← h2]
      have e17 : s'.pret = s.pret := by rw [← h2]
      have e18 : s'.playerStat = s.playerStat := by rw [← h2]
      have e19 : s'.claimLog.length = s.claimLog.length  := by rw [e12]
      obtain ⟨hp1, hp2, hp3, hp4, hp5, hp6, hp7⟩ := pcnt_upd7 e16 hloc
      simp only [pHoldW, wtUpW, regDownW, gwUpW, fReadW, fSigW, rwtPendW] at hp1 hp2 hp3 hp4 hp5 hp6 hp7
      have hgH : gcnt s' gHoldW = gcnt s gHoldW := by unfold gcnt; rw [e15]
      have hgR : gcnt s' gReadW = gcnt s gReadW := by unfold gcnt; rw [e15]
      have hgS : gcnt s' gSigW = gcnt s gSigW := by unfold gcnt; rw [e15]
      have i01 := hInv.mutexEq
      have i02 := hInv.wtEq
      have i03 := hInv.gwtEq
      have i04 := hInv.regEq
      have i05 := hInv.teamIdEq
      have i06 := hInv.claimLen
      have i07 := hInv.rwtEq
      have i08 := hInv.pfreeNonneg
      have i09 := hInv.gfreeNonneg
      have hFL : ∃ pf, pf ≤ 3 ∧ s'.regUpsF + pcnt s' fSigW = 3 * s'.nClaims + pf ∧ s'.fLog = padThree s'.claimLog ++ List.replicate pf s'.teamId := by
        obtain ⟨pf, hf1, hf2, hf3⟩ := hInv.fLogEq
        exact ⟨pf, hf1, by omega, by rw [e13, e12, e08]; exact hf3⟩
      have hGL : ∃ pg, pg ≤ 1 ∧ s'.regUpsG + gcnt s' gSigW = s'.nClaims + pg ∧ s'.gLog = s'.claimLog ++ List.replicate pg s'.teamId := by
        obtain ⟨pg, hg1, hg2, hg3⟩ := hInv.gLogEq
        exact ⟨pg, hg1, by omega, by rw [e14, e12, e08]; exact hg3⟩
      exact {
        roundBound := roundBound_pres e16 hInv (by intro k b hh; cases hh),
        lateState := lateState_pres e16 (e17.trans (Function.update_eq_self i s.pret).symm) (e18.trans (Function.update_eq_self i s.playerStat).symm) hInv (by intro hh; cases hh),
        preRetZero := preRet_pres e16 (e17.trans (Function.update_eq_self i s.pret).symm) hInv (fun _ => hInv.preRetZero i (by rw [hloc]; rfl)),
        mutexEq := by omega, wtEq := by omega, gwtEq := by omega,
        regEq := by omega, teamIdEq := by omega, claimLen := by omega,
        rwtEq := by omega, pfreeNonneg := by omega, gfreeNonneg := by omega,
        fLogEq := hFL, gLogEq := hGL }
    | cCrit =>
      simp only [applyEv, hloc] at h
      by_cases hlate : s.playersArrived + 1 > 8
      · rw [if_pos hlate] at h
        have h2 := Option.some.inj h
        have e01 : s'.mutex = s.mutex := by rw [← h2]
        have e02 : s'.playersWaitTeam = s.playersWaitTeam := by rw [← h2]
        have e03 : s'.goaliesWaitTeam = s.goaliesWaitTeam := by rw [← h2]
        have e04 : s'.playerRegistered = s.playerRegistered := by rw [← h2]
        have e05 : s'.refereeWaitTeams = s.refereeWaitTeams := by rw [← h2]
        have e06 : s'.playersFree = s.playersFree := by rw [← h2]
        have e07 : s'.goaliesFree = s.goaliesFree := by rw [← h2]
        have e08 : s'.teamId = s.teamId := by rw [← h2]
        have e09 : s'.nClaims = s.nClaims := by rw [← h2]
        have e10 : s'.regUpsF = s.regUpsF := by rw [← h2]
        have e11 : s'.regUpsG = s.regUpsG := by rw [← h2]
        have e12 : s'.claimLog = s.claimLog := by rw [← h2]
        have e13 : s'.fLog = s.fLog := by rw [← h2]
        have e14 : s'.gLog = s.gLog := by rw [← h2]
        have e15 : s'.gloc = s.gloc := by rw [← h2]
        have e16 : s'.ploc = Function.update s.ploc i PLoc.lateUnlock := by rw [← h2]
        have e17 : s'.pret = s.pret := by rw [← h2]
        have e18 : s'.playerStat = Function.update s.playerStat i PStat.LATE := by rw [← h2]
        have e19 : s'.claimLog.length = s.claimLog.length  := by rw [e12]
        obtain ⟨hp1, hp2, hp3, hp4, hp5, hp6, hp7⟩ := pcnt_upd7 e16 hloc
        simp only [pHoldW, wtUpW, regDownW, gwUpW, fReadW, fSigW, rwtPendW] at hp1 hp2 hp3 hp4 hp5 hp6 hp7
        have hgH : gcnt s' gHoldW = gcnt s gHoldW := by unfold gcnt; rw [e15]
        have hgR : gcnt s' gReadW = gcnt s gReadW := by unfold gcnt; rw [e15]
        have hgS : gcnt s' gSigW = gcnt s gSigW := by unfold gcnt; rw [e15]
        have i01 := hInv.mutexEq
        have i02 := hInv.wtEq
        have i03 := hInv.gwtEq
        have i04 := hInv.regEq
        have i05 := hInv.teamIdEq
        have i06 := hInv.claimLen
        have i07 := hInv.rwtEq
        have i08 := hInv.pfreeNonneg
        have i09 := hInv.gfreeNonneg
        have hFL : ∃ pf, pf ≤ 3 ∧ s'.regUpsF + pcnt s' fSigW = 3 * s'.nClaims + pf ∧ s'.fLog = padThree s'.claimLog ++ List.replicate pf s'.teamId := by
          obtain ⟨pf, hf1, hf2, hf3⟩ := hInv.fLogEq
          exact ⟨pf, hf1, by omega, by rw [e13, e12, e08]; exact hf3⟩
        have hGL : ∃ pg, pg ≤ 1 ∧ s'.regUpsG + gcnt s' gSigW = s'.nClaims + pg ∧ s'.gLog = s'.claimLog ++ List.replicate pg s'.teamId := by
          obtain ⟨pg, hg1, hg2, hg3⟩ := hInv.gLogEq
          exact ⟨pg, hg1, by omega, by rw [e14, e12, e08]; exact hg3⟩
        exact {
          roundBound := roundBound_pres e16 hInv (by intro k b hh; cases hh),
          lateState := lateState_pres e16 (e17.trans (Function.update_eq_self i s.pret).symm) e18 hInv (fun _ => ⟨hInv.preRetZero i (by rw [hloc]; rfl), rfl⟩),
          preRetZero := preRet_pres e16 (e17.trans (Function.update_eq_self i s.pret).symm) hInv (by intro hh; simp [earlyLoc] at hh),
          mutexEq := by omega, wtEq := by omega, gwtEq := by omega,
          regEq := by omega, teamIdEq := by omega, claimLen := by omega,
          rwtEq := by omega, pfreeNonneg := by omega, gfreeNonneg := by omega,
          fLogEq := hFL, gLogEq := hGL }
      rw [if_neg hlate] at h
      by_cases hel : 3 ≤ s.playersFree ∧ s.goaliesFree ≠ 0
      · rw [if_pos hel] at h
        have h2 := Option.some.inj h
        have e01 : s'.mutex = s.mutex := by rw [← h2]
        have e02 : s'.playersWaitTeam = s.playersWaitTeam := by rw [← h2]
        have e03 : s'.goaliesWaitTeam = s.goaliesWaitTeam := by rw [← h2]
        have e04 : s'.playerRegistered = s.playerRegistered := by rw [← h2]
        have e05 : s'.refereeWaitTeams = s.refereeWaitTeams := by rw [← h2]
        have e06 : s'.playersFree = s.playersFree - 3 := by rw [← h2]
        have e07 : s'.goaliesFree = s.goaliesFree - 1 := by rw [← h2]
        have e08 : s'.teamId = s.teamId := by rw [← h2]
        have e09 : s'.nClaims = s.nClaims := by rw [← h2]
        have e10 : s'.regUpsF = s.regUpsF := by rw [← h2]
        have e11 : s'.regUpsG = s.regUpsG := by rw [← h2]
        have e12 : s'.claimLog = s.claimLog := by rw [← h2]
        have e13 : s'.fLog = s.fLog := by rw [← h2]
        have e14 : s'.gLog = s.gLog := by rw [← h2]
        have e15 : s'.gloc = s.gloc := by rw [← h2]
        have e16 : s'.ploc = Function.update s.ploc i (PLoc.lRound 0 false) := by rw [← h2]
        have e17 : s'.pret = s.pret := by rw [← h2]
        have e18 : s'.playerStat = Function.update s.playerStat i PStat.FORMING_TEAM := by rw [← h2]
        have e19 : s'.claimLog.length = s.claimLog.length  := by rw [e12]
        obtain ⟨hp1, hp2, hp3, hp4, hp5, hp6, hp7⟩ := pcnt_upd7 e16 hloc
        simp only [pHoldW, wtUpW, regDownW, gwUpW, fReadW, fSigW, rwtPendW] at hp1 hp2 hp3 hp4 hp5 hp6 hp7
        have hgH : gcnt s' gHoldW = gcnt s gHoldW := by unfold gcnt; rw [e15]
        have hgR : gcnt s' gReadW = gcnt s gReadW := by unfold gcnt; rw [e15]
        have hgS : gcnt s' gSigW = gcnt s gSigW := by unfold gcnt; rw [e15]
        have i01 := hInv.mutexEq
        have i02 := hInv.wtEq
        have i03 := hInv.gwtEq
        have i04 := hInv.regEq
        have i05 := hInv.teamIdEq
        have i06 := hInv.claimLen
        have i07 := hInv.rwtEq
        have i08 := hInv.pfreeNonneg
        have i09 := hInv.gfreeNonneg
        obtain ⟨hel1, hel2⟩ := hel
        have hFL : ∃ pf, pf ≤ 3 ∧ s'.regUpsF + pcnt s' fSigW = 3 * s'.nClaims + pf ∧ s'.fLog = padThree s'.claimLog ++ List.replicate pf s'.teamId := by
          obtain ⟨pf, hf1, hf2, hf3⟩ := hInv.fLogEq
          exact ⟨pf, hf1, by omega, by rw [e13, e12, e08]; exact hf3⟩
        have hGL : ∃ pg, pg ≤ 1 ∧ s'.regUpsG + gcnt s' gSigW = s'.nClaims + pg ∧ s'.gLog = s'.claimLog ++ List.replicate pg s'.teamId := by
          obtain ⟨pg, hg1, hg2, hg3⟩ := hInv.gLogEq
          exact ⟨pg, hg1, by omega, by rw [e14, e12, e08]; exact hg3⟩
        exact {
          roundBound := roundBound_pres e16 hInv (by intro k b hh; injection hh with h1 h2; omega),
          lateState := lateState_pres e16 (e17.trans (Function.update_eq_self i s.pret).symm) e18 hInv (by intro hh; cases hh),
          preRetZero := preRet_pres e16 (e17.trans (Function.update_eq_self i s.pret).symm) hInv (by intro hh; simp [earlyLoc] at hh),
          mutexEq := by omega, wtEq := by omega, gwtEq := by omega,
          regEq := by omega, teamIdEq := by omega, claimLen := by omega,
          rwtEq := by omega, pfreeNonneg := by omega, gfreeNonneg := by omega,
          fLogEq := hFL, gLogEq := hGL }
      rw [if_neg hel] at h
      have h2 := Option.some.inj h
      have e01 : s'.mutex = s.mutex := by rw [← h2]
      have e02 : s'.playersWaitTeam = s.playersWaitTeam := by rw [← h2]
      have e03 : s'.goaliesWaitTeam = s.goaliesWaitTeam := by rw [← h2]
      have e04 : s'.playerRegistered = s.playerRegistered := by rw [← h2]
      have e05 : s'.refereeWaitTeams = s.refereeWaitTeams := by rw [← h2]
      have e06 : s'.playersFree = s.playersFree + 1 := by rw [← h2]
      have e07 : s'.goaliesFree = s.goaliesFree := by rw [← h2]
      have e08 : s'.teamId = s.teamId := by rw [← h2]
      have e09 : s'.nClaims = s.nClaims := by rw [← h2]
      have e10 : s'.regUpsF = s.regUpsF := by rw [← h2]
      have e11 : s'.regUpsG = s.regUpsG := by rw [← h2]
      have e12 : s'.claimLog = s.claimLog := by rw [← h2]
      have e13 : s'.fLog = s.fLog := by rw [← h2]
      have e14 : s'.gLog = s.gLog := by rw [← h2]
      have e15 : s'.gloc = s.gloc := by rw [← h2]
      have e16 : s'.ploc = Function.update s.ploc i PLoc.fUnlock := by rw [← h2]
      have e17 : s'.pret = s.pret := by rw [← h2]
      have e18 : s'.playerStat = Function.update s.playerStat i PStat.WAITING_TEAMS := by rw [← h2]
      have e19 : s'.claimLog.length = s.claimLog.length  := by rw [e12]
      obtain ⟨hp1, hp2, hp3, hp4, hp5, hp6, hp7⟩ := pcnt_upd7 e16 hloc
      simp only [pHoldW, wtUpW, regDownW, gwUpW, fReadW, fSigW, rwtPendW] at hp1 hp2 hp3 hp4 hp5 hp6 hp7
      have hgH : gcnt s' gHoldW = gcnt s gHoldW := by unfold gcnt; rw [e15]
      have hgR : gcnt s' gReadW = gcnt s gReadW := by unfold gcnt; rw [e15]
      have hgS : gcnt s' gSigW = gcnt s gSigW := by unfold gcnt; rw [e15]
      have i01 := hInv.mutexEq
      have i02 := hInv.wtEq
      have i03 := hInv.gwtEq
      have i04 := hInv.regEq
      have i05 := hInv.teamIdEq
      have i06 := hInv.claimLen
      have i07 := hInv.rwtEq
      have i08 := hInv.pfreeNonneg
      have i09 := hInv.gfreeNonneg
      have hFL : ∃ pf, pf ≤ 3 ∧ s'.regUpsF + pcnt s' fSigW = 3 * s'.nClaims + pf ∧ s'.fLog = padThree s'.claimLog ++ List.replicate pf s'.teamId := by
        obtain ⟨pf, hf1, hf2, hf3⟩ := hInv.fLogEq
        exact ⟨pf, hf1, by omega, by rw [e13, e12, e08]; exact hf3⟩
      have hGL : ∃ pg, pg ≤ 1 ∧ s'.regUpsG + gcnt s' gSigW = s'.nClaims + pg ∧ s'.gLog = s'.claimLog ++ List.replicate pg s'.teamId := by
        obtain ⟨pg, hg1, hg2, hg3⟩ := hInv.gLogEq
        exact ⟨pg, hg1, by omega, by rw [e14, e12, e08]; exact hg3⟩
      exact {
        roundBound := roundBound_pres e16 hInv (by intro k b hh; cases hh),
        lateState := lateState_pres e16 (e17.trans (Function.update_eq_self i s.pret).symm) e18 hInv (by intro hh; cases hh),
        preRetZero := preRet_pres e16 (e17.trans (Function.update_eq_self i s.pret).symm) hInv (by intro hh; simp [earlyLoc] at hh),
        mutexEq := by omega, wtEq := by omega, gwtEq := by omega,
        regEq := by omega, teamIdEq := by omega, claimLen := by omega,
        rwtEq := by omega, pfreeNonneg := by omega, gfreeNonneg := by omega,
        fLogEq := hFL, gLogEq := hGL }
    | lRound k b =>
      cases b with
      | false =>
        simp only [applyEv, hloc] at h
        have h2 := Option.some.inj h
        have e01 : s'.mutex = s.mutex := by rw [← h2]
        have e02 : s'.playersWaitTeam = s.playersWaitTeam + 1 := by rw [← h2]
        have e03 : s'.goaliesWaitTeam = s.goaliesWaitTeam := by rw [← h2]
        have e04 : s'.playerRegistered = s.playerRegistered := by rw [← h2]
        have e05 : s'.refereeWaitTeams = s.refereeWaitTeams := by rw [← h2]
        have e06 : s'.playersFree = s.playersFree := by rw [← h2]
        have e07 : s'.goaliesFree = s.goaliesFree := by rw [← h2]
        have e08 : s'.teamId = s.teamId := by rw [← h2]
        have e09 : s'.nClaims = s.nClaims := by rw [← h2]
        have e10 : s'.regUpsF = s.regUpsF := by rw [← h2]
        have e11 : s'.regUpsG = s.regUpsG := by rw [← h2]
        have e12 : s'.claimLog = s.claimLog := by rw [← h2]
        have e13 : s'.fLog = s.fLog := by rw [← h2]
        have e14 : s'.gLog = s.gLog := by rw [← h2]
        have e15 : s'.gloc = s.gloc := by rw [← h2]
        have e16 : s'.ploc = Function.update s.ploc i (PLoc.lRound k true) := by rw [← h2]
        have e17 : s'.pret = s.pret := by rw [← h2]
        have e18 : s'.playerStat = s.playerStat := by rw [← h2]
        have e19 : s'.claimLog.length = s.claimLog.length  := by rw [e12]
        obtain ⟨hp1, hp2, hp3, hp4, hp5, hp6, hp7⟩ := pcnt_upd7 e16 hloc
        simp only [pHoldW, wtUpW, regDownW, gwUpW, fReadW, fSigW, rwtPendW] at hp1 hp2 hp3 hp4 hp5 hp6 hp7
        have hgH : gcnt s' gHoldW = gcnt s gHoldW := by unfold gcnt; rw [e15]
        have hgR : gcnt s' gReadW = gcnt s gReadW := by unfold gcnt; rw [e15]
        have hgS : gcnt s' gSigW = gcnt s gSigW := by unfold gcnt; rw [e15]
        have i01 := hInv.mutexEq
        have i02 := hInv.wtEq
        have i03 := hInv.gwtEq
        have i04 := hInv.regEq
        have i05 := hInv.teamIdEq
        have i06 := hInv.claimLen
        have i07 := hInv.rwtEq
        have i08 := hInv.pfreeNonneg
        have i09 := hInv.gfreeNonneg
        have hFL : ∃ pf, pf ≤ 3 ∧ s'.regUpsF + pcnt s' fSigW = 3 * s'.nClaims + pf ∧ s'.fLog = padThree s'.claimLog ++ List.replicate pf s'.teamId := by
          obtain ⟨pf, hf1, hf2, hf3⟩ := hInv.fLogEq
          exact ⟨pf, hf1, by omega, by rw [e13, e12, e08]; exact hf3⟩
        have hGL : ∃ pg, pg ≤ 1 ∧ s'.regUpsG + gcnt s' gSigW = s'.nClaims + pg ∧ s'.gLog = s'.claimLog ++ List.replicate pg s'.teamId := by
          obtain ⟨pg, hg1, hg2, hg3⟩ := hInv.gLogEq
          exact ⟨pg, hg1, by omega, by rw [e14, e12, e08]; exact hg3⟩
        exact {
          roundBound := roundBound_pres e16 hInv (by intro k' b' hh; injection hh with hk1 hk2; subst hk1; exact hInv.roundBound i k false hloc),
          lateState := lateState_pres e16 (e17.trans (Function.update_eq_self i s.pret).symm) (e18.trans (Function.update_eq_self i s.playerStat).symm) hInv (by intro hh; cases hh),
          preRetZero := preRet_pres e16 (e17.trans (Function.update_eq_self i s.pret).symm) hInv (by intro hh; simp [earlyLoc] at hh),
          mutexEq := by omega, wtEq := by omega, gwtEq := by omega,
          regEq := by omega, teamIdEq := by omega, claimLen := by omega,
          rwtEq := by omega, pfreeNonneg := by omega, gfreeNonneg := by omega,
          fLogEq := hFL, gLogEq := hGL }
      | true =>
        simp only [applyEv, NUMTEAMPLAYERS, hloc] at h
        by_cases hm : s.playerRegistered = 0
        · rw [if_pos hm] at h; exact Option.noConfusion h
        rw [if_neg hm] at h
        by_cases hk3 : k + 1 = 3
        · rw [if_pos hk3] at h
          have h2 := Option.some.inj h
          have e01 : s'.mutex = s.mutex := by rw [← h2]
          have e02 : s'.playersWaitTeam = s.playersWaitTeam := by rw [← h2]
          have e03 : s'.goaliesWaitTeam = s.goaliesWaitTeam := by rw [← h2]
          have e04 : s'.playerRegistered = s.playerRegistered - 1 := by rw [← h2]
          have e05 : s'.refereeWaitTeams = s.refereeWaitTeams := by rw [← h2]
          have e06 : s'.playersFree = s.playersFree := by rw [← h2]
          have e07 : s'.goaliesFree = s.goaliesFree := by rw [← h2]
          have e08 : s'.teamId = s.teamId := by rw [← h2]
          have e09 : s'.nClaims = s.nClaims := by rw [← h2]
          have e10 : s'.regUpsF = s.regUpsF := by rw [← h2]
          have e11 : s'.regUpsG = s.regUpsG := by rw [← h2]
          have e12 : s'.claimLog = s.claimLog := by rw [← h2]
          have e13 : s'.fLog = s.fLog := by rw [← h2]
          have e14 : s'.gLog = s.gLog := by rw [← h2]
          have e15 : s'.gloc = s.gloc := by rw [← h2]
          have e16 : s'.ploc = Function.update s.ploc i (PLoc.lGoalie false) := by rw [← h2]
          have e17 : s'.pret = s.pret := by rw [← h2]
          have e18 : s'.playerStat = s.playerStat := by rw [← h2]
          have e19 : s'.claimLog.length = s.claimLog.length  := by rw [e12]
          obtain ⟨hp1, hp2, hp3, hp4, hp5, hp6, hp7⟩ := pcnt_upd7 e16 hloc
          simp only [pHoldW, wtUpW, regDownW, gwUpW, fReadW, fSigW, rwtPendW] at hp1 hp2 hp3 hp4 hp5 hp6 hp7
          have hgH : gcnt s' gHoldW = gcnt s gHoldW := by unfold gcnt; rw [e15]
          have hgR : gcnt s' gReadW = gcnt s gReadW := by unfold gcnt; rw [e15]
          have hgS : gcnt s' gSigW = gcnt s gSigW := by unfold gcnt; rw [e15]
          have i01 := hInv.mutexEq
          have i02 := hInv.wtEq
          have i03 := hInv.gwtEq
          have i04 := hInv.regEq
          have i05 := hInv.teamIdEq
          have i06 := hInv.claimLen
          have i07 := hInv.rwtEq
          have i08 := hInv.pfreeNonneg
          have i09 := hInv.gfreeNonneg
          have hkb := hInv.roundBound i k true hloc
          have hFL : ∃ pf, pf ≤ 3 ∧ s'.regUpsF + pcnt s' fSigW = 3 * s'.nClaims + pf ∧ s'.fLog = padThree s'.claimLog ++ List.replicate pf s'.teamId := by
            obtain ⟨pf, hf1, hf2, hf3⟩ := hInv.fLogEq
            exact ⟨pf, hf1, by omega, by rw [e13, e12, e08]; exact hf3⟩
          have hGL : ∃ pg, pg ≤ 1 ∧ s'.regUpsG + gcnt s' gSigW = s'.nClaims + pg ∧ s'.gLog = s'.claimLog ++ List.replicate pg s'.teamId := by
            obtain ⟨pg, hg1, hg2, hg3⟩ := hInv.gLogEq
            exact ⟨pg, hg1, by omega, by rw [e14, e12, e08]; exact hg3⟩
          exact {
            roundBound := roundBound_pres e16 hInv (by intro k b hh; cases hh),
            lateState := lateState_pres e16 (e17.trans (Function.update_eq_self i s.pret).symm) (e18.trans (Function.update_eq_self i s.playerStat).symm) hInv (by intro hh; cases hh),
            preRetZero := preRet_pres e16 (e17.trans (Function.update_eq_self i s.pret).symm) hInv (by intro hh; simp [earlyLoc] at hh),
            mutexEq := by omega, wtEq := by omega, gwtEq := by omega,
            regEq := by omega, teamIdEq := by omega, claimLen := by omega,
            rwtEq := by omega, pfreeNonneg := by omega, gfreeNonneg := by omega,
            fLogEq := hFL, gLogEq := hGL }
        rw [if_neg hk3] at h
        have h2 := Option.some.inj h
        have e01 : s'.mutex = s.mutex := by rw [← h2]
        have e02 : s'.playersWaitTeam = s.playersWaitTeam := by rw [← h2]
        have e03 : s'.goaliesWaitTeam = s.goaliesWaitTeam := by rw [← h2]
        have e04 : s'.playerRegistered = s.playerRegistered - 1 := by rw [← h2]
        have e05 : s'.refereeWaitTeams = s.refereeWaitTeams := by rw [← h2]
        have e06 : s'.playersFree = s.playersFree := by rw [← h2]
        have e07 : s'.goaliesFree = s.goaliesFree := by rw [← h2]
        have e08 : s'.teamId = s.teamId := by rw [← h2]
        have e09 : s'.nClaims = s.nClaims := by rw [← h2]
        have e10 : s'.regUpsF = s.regUpsF := by rw [← h2]
        have e11 : s'.regUpsG = s.regUpsG := by rw [← h2]
        have e12 : s'.claimLog = s.claimLog := by rw [← h2]
        have e13 : s'.fLog = s.fLog := by rw [← h2]
        have e14 : s'.gLog = s.gLog := by rw [← h2]
        have e15 : s'.gloc = s.gloc := by rw [← h2]
        have e16 : s'.ploc = Function.update s.ploc i (PLoc.lRound (k + 1) false) := by rw [← h2]
        have e17 : s'.pret = s.pret := by rw [← h2]
        have e18 : s'.playerStat = s.playerStat := by rw [← h2]
        have e19 : s'.claimLog.length = s.claimLog.length  := by rw [e12]
        obtain ⟨hp1, hp2, hp3, hp4, hp5, hp6, hp7⟩ := pcnt_upd7 e16 hloc
        simp only [pHoldW, wtUpW, regDownW, gwUpW, fReadW, fSigW, rwtPendW] at hp1 hp2 hp3 hp4 hp5 hp6 hp7
        have hgH : gcnt s' gHoldW = gcnt s gHoldW := by unfold gcnt; rw [e15]
        have hgR : gcnt s' gReadW = gcnt s gReadW := by unfold gcnt; rw [e15]
        have hgS : gcnt s' gSigW = gcnt s gSigW := by unfold gcnt; rw [e15]
        have i01 := hInv.mutexEq
        have i02 := hInv.wtEq
        have i03 := hInv.gwtEq
        have i04 := hInv.regEq
        have i05 := hInv.teamIdEq
        have i06 := hInv.claimLen
        have i07 := hInv.rwtEq
        have i08 := hInv.pfreeNonneg
        have i09 := hInv.gfreeNonneg
        have hkb := hInv.roundBound i k true hloc
        have hFL : ∃ pf, pf ≤ 3 ∧ s'.regUpsF + pcnt s' fSigW = 3 * s'.nClaims + pf ∧ s'.fLog = padThree s'.claimLog ++ List.replicate pf s'.teamId := by
          obtain ⟨pf, hf1, hf2, hf3⟩ := hInv.fLogEq
          exact ⟨pf, hf1, by omega, by rw [e13, e12, e08]; exact hf3⟩
        have hGL : ∃ pg, pg ≤ 1 ∧ s'.regUpsG + gcnt s' gSigW = s'.nClaims + pg ∧ s'.gLog = s'.claimLog ++ List.replicate pg s'.teamId := by
          obtain ⟨pg, hg1, hg2, hg3⟩ := hInv.gLogEq
          exact ⟨pg, hg1, by omega, by rw [e14, e12, e08]; exact hg3⟩
        exact {
          roundBound := roundBound_pres e16 hInv (by intro k' b' hh; injection hh with hk1 hk2; have hkb := hInv.roundBound i k true hloc; omega),
          lateState := lateState_pres e16 (e17.trans (Function.update_eq_self i s.pret).symm) (e18.trans (Function.update_eq_self i s.playerStat).symm) hInv (by intro hh; cases hh),
          preRetZero := preRet_pres e16 (e17.trans (Function.update_eq_self i s.pret).symm) hInv (by intro hh; simp [earlyLoc] at hh),
          mutexEq := by omega, wtEq := by omega, gwtEq := by omega,
          regEq := by omega, teamIdEq := by omega, claimLen := by omega,
          rwtEq := by omega, pfreeNonneg := by omega, gfreeNonneg := by omega,
          fLogEq := hFL, gLogEq := hGL }
    | lGoalie b =>
      cases b with
      | false =>
        simp only [applyEv, hloc] at h
        have h2 := Option.some.inj h
        have e01 : s'.mutex = s.mutex := by rw [← h2]
        have e02 : s'.playersWaitTeam = s.playersWaitTeam := by rw [← h2]
        have e03 : s'.goaliesWaitTeam = s.goaliesWaitTeam + 1 := by rw [← h2]
        have e04 : s'.playerRegistered = s.playerRegistered := by rw [← h2]
        have e05 : s'.refereeWaitTeams = s.refereeWaitTeams := by rw [← h2]
        have e06 : s'.playersFree = s.playersFree := by rw [← h2]
        have e07 : s'.goaliesFree = s.goaliesFree := by rw [← h2]
        have e08 : s'.teamId = s.teamId := by rw [← h2]
        have e09 : s'.nClaims = s.nClaims := by rw [← h2]
        have e10 : s'.regUpsF = s.regUpsF := by rw [← h2]
        have e11 : s'.regUpsG = s.regUpsG := by rw [← h2]
        have e12 : s'.claimLog = s.claimLog := by rw [← h2]
        have e13 : s'.fLog = s.fLog := by rw [← h2]
        have e14 : s'.gLog = s.gLog := by rw [← h2]
        have e15 : s'.gloc = s.gloc := by rw [← h2]
        have e16 : s'.ploc = Function.update s.ploc i (PLoc.lGoalie true) := by rw [← h2]
        have e17 : s'.pret = s.pret := by rw [← h2]
        have e18 : s'.playerStat = s.playerStat := by rw [← h2]
        have e19 : s'.claimLog.length = s.claimLog.length  := by rw [e12]
        obtain ⟨hp1, hp2, hp3, hp4, hp5, hp6, hp7⟩ := pcnt_upd7 e16 hloc
        simp only [pHoldW, wtUpW, regDownW, gwUpW, fReadW, fSigW, rwtPendW] at hp1 hp2 hp3 hp4 hp5 hp6 hp7
        have hgH : gcnt s' gHoldW = gcnt s gHoldW := by unfold gcnt; rw [e15]
        have hgR : gcnt s' gReadW = gcnt s gReadW := by unfold gcnt; rw [e15]
        have hgS : gcnt s' gSigW = gcnt s gSigW := by unfold gcnt; rw [e15]
        have i01 := hInv.mutexEq
        have i02 := hInv.wtEq
        have i03 := hInv.gwtEq
        have i04 := hInv.regEq
        have i05 := hInv.teamIdEq
        have i06 := hInv.claimLen
        have i07 := hInv.rwtEq
        have i08 := hInv.pfreeNonneg
        have i09 := hInv.gfreeNonneg
        have hFL : ∃ pf, pf ≤ 3 ∧ s'.regUpsF + pcnt s' fSigW = 3 * s'.nClaims + pf ∧ s'.fLog = padThree s'.claimLog ++ List.replicate pf s'.teamId := by
          obtain ⟨pf, hf1, hf2, hf3⟩ := hInv.fLogEq
          exact ⟨pf, hf1, by omega, by rw [e13, e12, e08]; exact hf3⟩
        have hGL : ∃ pg, pg ≤ 1 ∧ s'.regUpsG + gcnt s' gSigW = s'.nClaims + pg ∧ s'.gLog = s'.claimLog ++ List.replicate pg s'.teamId := by
          obtain ⟨pg, hg1, hg2, hg3⟩ := hInv.gLogEq
          exact ⟨pg, hg1, by omega, by rw [e14, e12, e08]; exact hg3⟩
        exact {
          roundBound := roundBound_pres e16 hInv (by intro k b hh; cases hh),
          lateState := lateState_pres e16 (e17.trans (Function.update_eq_self i s.pret).symm) (e18.trans (Function.update_eq_self i s.playerStat).symm) hInv (by intro hh; cases hh),
          preRetZero := preRet_pres e16 (e17.trans (Function.update_eq_self i s.pret).symm) hInv (by intro hh; simp [earlyLoc] at hh),
          mutexEq := by omega, wtEq := by omega, gwtEq := by omega,
          regEq := by omega, teamIdEq := by omega, claimLen := by omega,
          rwtEq := by omega, pfreeNonneg := by omega, gfreeNonneg := by omega,
          fLogEq := hFL, gLogEq := hGL }
      | true =>
        simp only [applyEv, hloc] at h
        by_cases hm : s.playerRegistered = 0
        · rw [if_pos hm] at h; exact Option.noConfusion h
        rw [if_neg hm] at h
        have h2 := Option.some.inj h
        have e01 : s'.mutex = s.mutex := by rw [← h2]
        have e02 : s'.playersWaitTeam = s.playersWaitTeam := by rw [← h2]
        have e03 : s'.goaliesWaitTeam = s.goaliesWaitTeam := by rw [← h2]
        have e04 : s'.playerRegistered = s.playerRegistered - 1 := by rw [← h2]
        have e05 : s'.refereeWaitTeams = s.refereeWaitTeams := by rw [← h2]
        have e06 : s'.playersFree = s.playersFree := by rw [← h2]
        have e07 : s'.goaliesFree = s.goaliesFree := by rw [← h2]
        have e08 : s'.teamId = s.teamId := by rw [← h2]
        have e09 : s'.nClaims = s.nClaims := by rw [← h2]
        have e10 : s'.regUpsF = s.regUpsF := by rw [← h2]
        have e11 : s'.regUpsG = s.regUpsG := by rw [← h2]
        have e12 : s'.claimLog = s.claimLog := by rw [← h2]
        have e13 : s'.fLog = s.fLog := by rw [← h2]
        have e14 : s'.gLog = s.gLog := by rw [← h2]
        have e15 : s'.gloc = s.gloc := by rw [← h2]
        have e16 : s'.ploc = Function.update s.ploc i PLoc.lClaim := by rw [← h2]
        have e17 : s'.pret = s.pret := by rw [← h2]
        have e18 : s'.playerStat = s.playerStat := by rw [← h2]
        have e19 : s'.claimLog.length = s.claimLog.length  := by rw [e12]
        obtain ⟨hp1, hp2, hp3, hp4, hp5, hp6, hp7⟩ := pcnt_upd7 e16 hloc
        simp only [pHoldW, wtUpW, regDownW, gwUpW, fReadW, fSigW, rwtPendW] at hp1 hp2 hp3 hp4 hp5 hp6 hp7
        have hgH : gcnt s' gHoldW = gcnt s gHoldW := by unfold gcnt; rw [e15]
        have hgR : gcnt s' gReadW = gcnt s gReadW := by unfold gcnt; rw [e15]
        have hgS : gcnt s' gSigW = gcnt s gSigW := by unfold gcnt; rw [e15]
        have i01 := hInv.mutexEq
        have i02 := hInv.wtEq
        have i03 := hInv.gwtEq
        have i04 := hInv.regEq
        have i05 := hInv.teamIdEq
        have i06 := hInv.claimLen
        have i07 := hInv.rwtEq
        have i08 := hInv.pfreeNonneg
        have i09 := hInv.gfreeNonneg
        have hFL : ∃ pf, pf ≤ 3 ∧ s'.regUpsF + pcnt s' fSigW = 3 * s'.nClaims + pf ∧ s'.fLog = padThree s'.claimLog ++ List.replicate pf s'.teamId := by
          obtain ⟨pf, hf1, hf2, hf3⟩ := hInv.fLogEq
          exact ⟨pf, hf1, by omega, by rw [e13, e12, e08]; exact hf3⟩
        have hGL : ∃ pg, pg ≤ 1 ∧ s'.regUpsG + gcnt s' gSigW = s'.nClaims + pg ∧ s'.gLog = s'.claimLog ++ List.replicate pg s'.teamId := by
          obtain ⟨pg, hg1, hg2, hg3⟩ := hInv.gLogEq
          exact ⟨pg, hg1, by omega, by rw [e14, e12, e08]; exact hg3⟩
        exact {
          roundBound := roundBound_pres e16 hInv (by intro k b hh; cases hh),
          lateState := lateState_pres e16 (e17.trans (Function.update_eq_self i s.pret).symm) (e18.trans (Function.update_eq_self i s.playerStat).symm) hInv (by intro hh; cases hh),
          preRetZero := preRet_pres e16 (e17.trans (Function.update_eq_self i s.pret).symm) hInv (by intro hh; simp [earlyLoc] at hh),
          mutexEq := by omega, wtEq := by omega, gwtEq := by omega,
          regEq := by omega, teamIdEq := by omega, claimLen := by omega,
          rwtEq := by omega, pfreeNonneg := by omega, gfreeNonneg := by omega,
          fLogEq := hFL, gLogEq := hGL }
    | lClaim =>
      simp only [applyEv, hloc] at h
      have h2 := Option.some.inj h
      obtain ⟨z1, z2, z3, z4, z5, z6, z7, z8, z9⟩ := claimFreeze hInv hloc
      have e01 : s'.mutex = s.mutex := by rw [← h2]
      have e02 : s'.playersWaitTeam = s.playersWaitTeam := by rw [← h2]
      have e03 : s'.goaliesWaitTeam = s.goaliesWaitTeam := by rw [← h2]
      have e04 : s'.playerRegistered = s.playerRegistered := by rw [← h2]
      have e05 : s'.refereeWaitTeams = s.refereeWaitTeams := by rw [← h2]
      have e06 : s'.playersFree = s.playersFree := by rw [← h2]
      have e07 : s'.goaliesFree = s.goaliesFree := by rw [← h2]
      have e08 : s'.teamId = s.teamId + 1 := by rw [← h2]
      have e09 : s'.nClaims = s.nClaims + 1 := by rw [← h2]
      have e10 : s'.regUpsF = s.regUpsF := by rw [← h2]
      have e11 : s'.regUpsG = s.regUpsG := by rw [← h2]
      have e12 : s'.claimLog = s.claimLog ++ [s.teamId] := by rw [← h2]
      have e13 : s'.fLog = s.fLog := by rw [← h2]
      have e14 : s'.gLog = s.gLog := by rw [← h2]
      have e15 : s'.gloc = s.gloc := by rw [← h2]
      have e16 : s'.ploc = Function.update s.ploc i PLoc.lUnlock := by rw [← h2]
      have e17 : s'.pret = Function.update s.pret i s.teamId := by rw [← h2]
      have e18 : s'.playerStat = s.playerStat := by rw [← h2]
      have e19 : s'.claimLog.length = s.claimLog.length + 1 := by rw [e12]; simp
      obtain ⟨hp1, hp2, hp3, hp4, hp5, hp6, hp7⟩ := pcnt_upd7 e16 hloc
      simp only [pHoldW, wtUpW, regDownW, gwUpW, fReadW, fSigW, rwtPendW] at hp1 hp2 hp3 hp4 hp5 hp6 hp7
      have hgH : gcnt s' gHoldW = gcnt s gHoldW := by unfold gcnt; rw [e15]
      have hgR : gcnt s' gReadW = gcnt s gReadW := by unfold gcnt; rw [e15]
      have hgS : gcnt s' gSigW = gcnt s gSigW := by unfold gcnt; rw [e15]
      have i01 := hInv.mutexEq
      have i02 := hInv.wtEq
      have i03 := hInv.gwtEq
      have i04 := hInv.regEq
      have i05 := hInv.teamIdEq
      have i06 := hInv.claimLen
      have i07 := hInv.rwtEq
      have i08 := hInv.pfreeNonneg
      have i09 := hInv.gfreeNonneg
      have hFL : ∃ pf, pf ≤ 3 ∧ s'.regUpsF + pcnt s' fSigW = 3 * s'.nClaims + pf ∧ s'.fLog = padThree s'.claimLog ++ List.replicate pf s'.teamId := by
        obtain ⟨pf, hf1, hf2, hf3⟩ := hInv.fLogEq
        have hpf : pf = 3 := by omega
        subst hpf
        refine ⟨0, by omega, by omega, ?_⟩
        rw [e13, e12, hf3, padThree_snoc]
        simp [List.replicate]
      have hGL : ∃ pg, pg ≤ 1 ∧ s'.regUpsG + gcnt s' gSigW = s'.nClaims + pg ∧ s'.gLog = s'.claimLog ++ List.replicate pg s'.teamId := by
        obtain ⟨pg, hg1, hg2, hg3⟩ := hInv.gLogEq
        have hpg : pg = 1 := by omega
        subst hpg
        refine ⟨0, by omega, by omega, ?_⟩
        rw [e14, e12, hg3]
        simp [List.replicate]
      exact {
        roundBound := roundBound_pres e16 hInv (by intro k b hh; cases hh),
        lateState := lateState_pres e16 e17 (e18.trans (Function.update_eq_self i s.playerStat).symm) hInv (by intro hh; cases hh),
        preRetZero := preRet_pres e16 e17 hInv (by intro hh; simp [earlyLoc] at hh),
        mutexEq := by omega, wtEq := by omega, gwtEq := by omega,
        regEq := by omega, teamIdEq := by omega, claimLen := by omega,
        rwtEq := by omega, pfreeNonneg := by omega, gfreeNonneg := by omega,
        fLogEq := hFL, gLogEq := hGL }
    | lUnlock =>
      simp only [applyEv, hloc] at h
      have h2 := Option.some.inj h
      have e01 : s'.mutex = s.mutex + 1 := by rw [← h2]
      have e02 : s'.playersWaitTeam = s.playersWaitTeam := by rw [← h2]
      have e03 : s'.goaliesWaitTeam = s.goaliesWaitTeam := by rw [← h2]
      have e04 : s'.playerRegistered = s.playerRegistered := by rw [← h2]
      have e05 : s'.refereeWaitTeams = s.refereeWaitTeams := by rw [← h2]
      have e06 : s'.playersFree = s.playersFree := by rw [← h2]
      have e07 : s'.goaliesFree = s.goaliesFree := by rw [← h2]
      have e08 : s'.teamId = s.teamId := by rw [← h2]
      have e09 : s'.nClaims = s.nClaims := by rw [← h2]
      have e10 : s'.regUpsF = s.regUpsF := by rw [← h2]
      have e11 : s'.regUpsG = s.regUpsG := by rw [← h2]
      have e12 : s'.claimLog = s.claimLog := by rw [← h2]
      have e13 : s'.fLog = s.fLog := by rw [← h2]
      have e14 : s'.gLog = s.gLog := by rw [← h2]
      have e15 : s'.gloc = s.gloc := by rw [← h2]
      have e16 : s'.ploc = Function.update s.ploc i PLoc.lRef := by rw [← h2]
      have e17 : s'.pret = s.pret := by rw [← h2]
      have e18 : s'.playerStat = s.playerStat := by rw [← h2]
      have e19 : s'.claimLog.length = s.claimLog.length  := by rw [e12]
      obtain ⟨hp1, hp2, hp3, hp4, hp5, hp6, hp7⟩ := pcnt_upd7 e16 hloc
      simp only [pHoldW, wtUpW, regDownW, gwUpW, fReadW, fSigW, rwtPendW] at hp1 hp2 hp3 hp4 hp5 hp6 hp7
      have hgH : gcnt s' gHoldW = gcnt s gHoldW := by unfold gcnt; rw [e15]
      have hgR : gcnt s' gReadW = gcnt s gReadW := by unfold gcnt; rw [e15]
      have hgS : gcnt s' gSigW = gcnt s gSigW := by unfold gcnt; rw [e15]
      have i01 := hInv.mutexEq
      have i02 := hInv.wtEq
      have i03 := hInv.gwtEq
      have i04 := hInv.regEq
      have i05 := hInv.teamIdEq
      have i06 := hInv.claimLen
      have i07 := hInv.rwtEq
      have i08 := hInv.pfreeNonneg
      have i09 := hInv.gfreeNonneg
      have hFL : ∃ pf, pf ≤ 3 ∧ s'.regUpsF + pcnt s' fSigW = 3 * s'.nClaims + pf ∧ s'.fLog = padThree s'.claimLog ++ List.replicate pf s'.teamId := by
        obtain ⟨pf, hf1, hf2, hf3⟩ := hInv.fLogEq
        exact ⟨pf, hf1, by omega, by rw [e13, e12, e08]; exact hf3⟩
      have hGL : ∃ pg, pg ≤ 1 ∧ s'.regUpsG + gcnt s' gSigW = s'.nClaims + pg ∧ s'.gLog = s'.claimLog ++ List.replicate pg s'.teamId := by
        obtain ⟨pg, hg1, hg2, hg3⟩ := hInv.gLogEq
        exact ⟨pg, hg1, by omega, by rw [e14, e12, e08]; exact hg3⟩
      exact {
        roundBound := roundBound_pres e16 hInv (by intro k b hh; cases hh),
        lateState := lateState_pres e16 (e17.trans (Function.update_eq_self i s.pret).symm) (e18.trans (Function.update_eq_self i s.playerStat).symm) hInv (by intro hh; cases hh),
        preRetZero := preRet_pres e16 (e17.trans (Function.update_eq_self i s.pret).symm) hInv (by intro hh; simp [earlyLoc] at hh),
        mutexEq := by omega, wtEq := by omega, gwtEq := by omega,
        regEq := by omega, teamIdEq := by omega, claimLen := by omega,
        rwtEq := by omega, pfreeNonneg := by omega, gfreeNonneg := by omega,
        fLogEq := hFL, gLogEq := hGL }
    | lRef =>
      simp only [applyEv, hloc] at h
      have h2 := Option.some.inj h
      have e01 : s'.mutex = s.mutex := by rw [← h2]
      have e02 : s'.playersWaitTeam = s.playersWaitTeam := by rw [← h2]
      have e03 : s'.goaliesWaitTeam = s.goaliesWaitTeam := by rw [← h2]
      have e04 : s'.playerRegistered = s.playerRegistered := by rw [← h2]
      have e05 : s'.refereeWaitTeams = s.refereeWaitTeams + 1 := by rw [← h2]
      have e06 : s'.playersFree = s.playersFree := by rw [← h2]
      have e07 : s'.goaliesFree = s.goaliesFree := by rw [← h2]
      have e08 : s'.teamId = s.teamId := by rw [← h2]
      have e09 : s'.nClaims = s.nClaims := by rw [← h2]
      have e10 : s'.regUpsF = s.regUpsF := by rw [← h2]
      have e11 : s'.regUpsG = s.regUpsG := by rw [← h2]
      have e12 : s'.claimLog = s.claimLog := by rw [← h2]
      have e13 : s'.fLog = s.fLog := by rw [← h2]
      have e14 : s'.gLog = s.gLog := by rw [← h2]
      have e15 : s'.gloc = s.gloc := by rw [← h2]
      have e16 : s'.ploc = Function.update s.ploc i PLoc.ctEnd := by rw [← h2]
      have e17 : s'.pret = s.pret := by rw [← h2]
      have e18 : s'.playerStat = s.playerStat := by rw [← h2]
      have e19 : s'.claimLog.length = s.claimLog.length  := by rw [e12]
      obtain ⟨hp1, hp2, hp3, hp4, hp5, hp6, hp7⟩ := pcnt_upd7 e16 hloc
      simp only [pHoldW, wtUpW, regDownW, gwUpW, fReadW, fSigW, rwtPendW] at hp1 hp2 hp3 hp4 hp5 hp6 hp7
      have hgH : gcnt s' gHoldW = gcnt s gHoldW := by unfold gcnt; rw [e15]
      have hgR : gcnt s' gReadW = gcnt s gReadW := by unfold gcnt; rw [e15]
      have hgS : gcnt s' gSigW = gcnt s gSigW := by unfold gcnt; rw [e15]
      have i01 := hInv.mutexEq
      have i02 := hInv.wtEq
      have i03 := hInv.gwtEq
      have i04 := hInv.regEq
      have i05 := hInv.teamIdEq
      have i06 := hInv.claimLen
      have i07 := hInv.rwtEq
      have i08 := hInv.pfreeNonneg
      have i09 := hInv.gfreeNonneg
      have hFL : ∃ pf, pf ≤ 3 ∧ s'.regUpsF + pcnt s' fSigW = 3 * s'.nClaims + pf ∧ s'.fLog = padThree s'.claimLog ++ List.replicate pf s'.teamId := by
        obtain ⟨pf, hf1, hf2, hf3⟩ := hInv.fLogEq
        exact ⟨pf, hf1, by omega, by rw [e13, e12, e08]; exact hf3⟩
      have hGL : ∃ pg, pg ≤ 1 ∧ s'.regUpsG + gcnt s' gSigW = s'.nClaims + pg ∧ s'.gLog = s'.claimLog ++ List.replicate pg s'.teamId := by
        obtain ⟨pg, hg1, hg2, hg3⟩ := hInv.gLogEq
        exact ⟨pg, hg1, by omega, by rw [e14, e12, e08]; exact hg3⟩
      exact {
        roundBound := roundBound_pres e16 hInv (by intro k b hh; cases hh),
        lateState := lateState_pres e16 (e17.trans (Function.update_eq_self i s.pret).symm) (e18.trans (Function.update_eq_self i s.playerStat).symm) hInv (by intro hh; cases hh),
        preRetZero := preRet_pres e16 (e17.trans (Function.update_eq_self i s.pret).symm) hInv (by intro hh; simp [earlyLoc] at hh),
        mutexEq := by omega, wtEq := by omega, gwtEq := by omega,
        regEq := by omega, teamIdEq := by omega, claimLen := by omega,
        rwtEq := by omega, pfreeNonneg := by omega, gfreeNonneg := by omega,
        fLogEq := hFL, gLogEq := hGL }
    | lateUnlock =>
      simp only [applyEv, hloc] at h
      have h2 := Option.some.inj h
      have e01 : s'.mutex = s.mutex + 1 := by rw [← h2]
      have e02 : s'.playersWaitTeam = s.playersWaitTeam := by rw [← h2]
      have e03 : s'.goaliesWaitTeam = s.goaliesWaitTeam := by rw [← h2]
      have e04 : s'.playerRegistered = s.playerRegistered := by rw [← h2]
      have e05 : s'.refereeWaitTeams = s.refereeWaitTeams := by rw [← h2]
      have e06 : s'.playersFree = s.playersFree := by rw [← h2]
      have e07 : s'.goaliesFree = s.goaliesFree := by rw [← h2]
      have e08 : s'.teamId = s.teamId := by rw [← h2]
      have e09 : s'.nClaims = s.nClaims := by rw [← h2]
      have e10 : s'.regUpsF = s.regUpsF := by rw [← h2]
      have e11 : s'.regUpsG = s.regUpsG := by rw [← h2]
      have e12 : s'.claimLog = s.claimLog := by rw [← h2]
      have e13 : s'.fLog = s.fLog := by rw [← h2]
      have e14 : s'.gLog = s.gLog := by rw [← h2]
      have e15 : s'.gloc = s.gloc := by rw [← h2]
      have e16 : s'.ploc = Function.update s.ploc i PLoc.ctEnd := by rw [← h2]
      have e17 : s'.pret = s.pret := by rw [← h2]
      have e18 : s'.playerStat = s.playerStat := by rw [← h2]
      have e19 : s'.claimLog.length = s.claimLog.length  := by rw [e12]
      obtain ⟨hp1, hp2, hp3, hp4, hp5, hp6, hp7⟩ := pcnt_upd7 e16 hloc
      simp only [pHoldW, wtUpW, regDownW, gwUpW, fReadW, fSigW, rwtPendW] at hp1 hp2 hp3 hp4 hp5 hp6 hp7
      have hgH : gcnt s' gHoldW = gcnt s gHoldW := by unfold gcnt; rw [e15]
      have hgR : gcnt s' gReadW = gcnt s gReadW := by unfold gcnt; rw [e15]
      have hgS : gcnt s' gSigW = gcnt s gSigW := by unfold gcnt; rw [e15]
      have i01 := hInv.mutexEq
      have i02 := hInv.wtEq
      have i03 := hInv.gwtEq
      have i04 := hInv.regEq
      have i05 := hInv.teamIdEq
      have i06 := hInv.claimLen
      have i07 := hInv.rwtEq
      have i08 := hInv.pfreeNonneg
      have i09 := hInv.gfreeNonneg
      have hFL : ∃ pf, pf ≤ 3 ∧ s'.regUpsF + pcnt s' fSigW = 3 * s'.nClaims + pf ∧ s'.fLog = padThree s'.claimLog ++ List.replicate pf s'.teamId := by
        obtain ⟨pf, hf1, hf2, hf3⟩ := hInv.fLogEq
        exact ⟨pf, hf1, by omega, by rw [e13, e12, e08]; exact hf3⟩
      have hGL : ∃ pg, pg ≤ 1 ∧ s'.regUpsG + gcnt s' gSigW = s'.nClaims + pg ∧ s'.gLog = s'.claimLog ++ List.replicate pg s'.teamId := by
        obtain ⟨pg, hg1, hg2, hg3⟩ := hInv.gLogEq
        exact ⟨pg, hg1, by omega, by rw [e14, e12, e08]; exact hg3⟩
      exact {
        roundBound := roundBound_pres e16 hInv (by intro k b hh; cases hh),
        lateState := lateState_pres e16 (e17.trans (Function.update_eq_self i s.pret).symm) (e18.trans (Function.update_eq_self i s.playerStat).symm) hInv (by intro hh; cases hh),
        preRetZero := preRet_pres e16 (e17.trans (Function.update_eq_self i s.pret).symm) hInv (by intro hh; simp [earlyLoc] at hh),
        mutexEq := by omega, wtEq := by omega, gwtEq := by omega,
        regEq := by omega, teamIdEq := by omega, claimLen := by omega,
        rwtEq := by omega, pfreeNonneg := by omega, gfreeNonneg := by omega,
        fLogEq := hFL, gLogEq := hGL }
    | fUnlock =>
      simp only [applyEv, hloc] at h
      have h2 := Option.some.inj h
      have e01 : s'.mutex = s.mutex + 1 := by rw [← h2]
      have e02 : s'.playersWaitTeam = s.playersWaitTeam := by rw [← h2]
      have e03 : s'.goaliesWaitTeam = s.goaliesWaitTeam := by rw [← h2]
      have e04 : s'.playerRegistered = s.playerRegistered := by rw [← h2]
      have e05 : s'.refereeWaitTeams = s.refereeWaitTeams := by rw [← h2]
      have e06 : s'.playersFree = s.playersFree := by rw [← h2]
      have e07 : s'.goaliesFree = s.goaliesFree := by rw [← h2]
      have e08 : s'.teamId = s.teamId := by rw [← h2]
      have e09 : s'.nClaims = s.nClaims := by rw [← h2]
      have e10 : s'.regUpsF = s.regUpsF := by rw [← h2]
      have e11 : s'.regUpsG = s.regUpsG := by rw [← h2]
      have e12 : s'.claimLog = s.claimLog := by rw [← h2]
      have e13 : s'.fLog = s.fLog := by rw [← h2]
      have e14 : s'.gLog = s.gLog := by rw [← h2]
      have e15 : s'.gloc = s.gloc := by rw [← h2]
      have e16 : s'.ploc = Function.update s.ploc i PLoc.fWait := by rw [← h2]
      have e17 : s'.pret = s.pret := by rw [← h2]
      have e18 : s'.playerStat = s.playerStat := by rw [← h2]
      have e19 : s'.claimLog.length = s.claimLog.length  := by rw [e12]
      obtain ⟨hp1, hp2, hp3, hp4, hp5, hp6, hp7⟩ := pcnt_upd7 e16 hloc
      simp only [pHoldW, wtUpW, regDownW, gwUpW, fReadW, fSigW, rwtPendW] at hp1 hp2 hp3 hp4 hp5 hp6 hp7
      have hgH : gcnt s' gHoldW = gcnt s gHoldW := by unfold gcnt; rw [e15]
      have hgR : gcnt s' gReadW = gcnt s gReadW := by unfold gcnt; rw [e15]
      have hgS : gcnt s' gSigW = gcnt s gSigW := by unfold gcnt; rw [e15]
      have i01 := hInv.mutexEq
      have i02 := hInv.wtEq
      have i03 := hInv.gwtEq
      have i04 := hInv.regEq
      have i05 := hInv.teamIdEq
      have i06 := hInv.claimLen
      have i07 := hInv.rwtEq
      have i08 := hInv.pfreeNonneg
      have i09 := hInv.gfreeNonneg
      have hFL : ∃ pf, pf ≤ 3 ∧ s'.regUpsF + pcnt s' fSigW = 3 * s'.nClaims + pf ∧ s'.fLog = padThree s'.claimLog ++ List.replicate pf s'.teamId := by
        obtain ⟨pf, hf1, hf2, hf3⟩ := hInv.fLogEq
        exact ⟨pf, hf1, by omega, by rw [e13, e12, e08]; exact hf3⟩
      have hGL : ∃ pg, pg ≤ 1 ∧ s'.regUpsG + gcnt s' gSigW = s'.nClaims + pg ∧ s'.gLog = s'.claimLog ++ List.replicate pg s'.teamId := by
        obtain ⟨pg, hg1, hg2, hg3⟩ := hInv.gLogEq
        exact ⟨pg, hg1, by omega, by rw [e14, e12, e08]; exact hg3⟩
      exact {
        roundBound := roundBound_pres e16 hInv (by intro k b hh; cases hh),
        lateState := lateState_pres e16 (e17.trans (Function.update_eq_self i s.pret).symm) (e18.trans (Function.update_eq_self i s.playerStat).symm) hInv (by intro hh; cases hh),
        preRetZero := preRet_pres e16 (e17.trans (Function.update_eq_self i s.pret).symm) hInv (by intro hh; simp [earlyLoc] at hh),
        mutexEq := by omega, wtEq := by omega, gwtEq := by omega,
        regEq := by omega, teamIdEq := by omega, claimLen := by omega,
        rwtEq := by omega, pfreeNonneg := by omega, gfreeNonneg := by omega,
        fLogEq := hFL, gLogEq := hGL }
    | fWait =>
      simp only [applyEv, hloc] at h
      by_cases hm : s.playersWaitTeam = 0
      · rw [if_pos hm] at h; exact Option.noConfusion h
      rw [if_neg hm] at h
      have h2 := Option.some.inj h
      have e01 : s'.mutex = s.mutex := by rw [← h2]
      have e02 : s'.playersWaitTeam = s.playersWaitTeam - 1 := by rw [← h2]
      have e03 : s'.goaliesWaitTeam = s.goaliesWaitTeam := by rw [← h2]
      have e04 : s'.playerRegistered = s.playerRegistered := by rw [← h2]
      have e05 : s'.refereeWaitTeams = s.refereeWaitTeams := by rw [← h2]
      have e06 : s'.playersFree = s.playersFree := by rw [← h2]
      have e07 : s'.goaliesFree = s.goaliesFree := by rw [← h2]
      have e08 : s'.teamId = s.teamId := by rw [← h2]
      have e09 : s'.nClaims = s.nClaims := by rw [← h2]
      have e10 : s'.regUpsF = s.regUpsF := by rw [← h2]
      have e11 : s'.regUpsG = s.regUpsG := by rw [← h2]
      have e12 : s'.claimLog = s.claimLog := by rw [← h2]
      have e13 : s'.fLog = s.fLog := by rw [← h2]
      have e14 : s'.gLog = s.gLog := by rw [← h2]
      have e15 : s'.gloc = s.gloc := by rw [← h2]
      have e16 : s'.ploc = Function.update s.ploc i PLoc.fRead := by rw [← h2]
      have e17 : s'.pret = s.pret := by rw [← h2]
      have e18 : s'.playerStat = s.playerStat := by rw [← h2]
      have e19 : s'.claimLog.length = s.claimLog.length  := by rw [e12]
      obtain ⟨hp1, hp2, hp3, hp4, hp5, hp6, hp7⟩ := pcnt_upd7 e16 hloc
      simp only [pHoldW, wtUpW, regDownW, gwUpW, fReadW, fSigW, rwtPendW] at hp1 hp2 hp3 hp4 hp5 hp6 hp7
      have hgH : gcnt s' gHoldW = gcnt s gHoldW := by unfold gcnt; rw [e15]
      have hgR : gcnt s' gReadW = gcnt s gReadW := by unfold gcnt; rw [e15]
      have hgS : gcnt s' gSigW = gcnt s gSigW := by unfold gcnt; rw [e15]
      have i01 := hInv.mutexEq
      have i02 := hInv.wtEq
      have i03 := hInv.gwtEq
      have i04 := hInv.regEq
      have i05 := hInv.teamIdEq
      have i06 := hInv.claimLen
      have i07 := hInv.rwtEq
      have i08 := hInv.pfreeNonneg
      have i09 := hInv.gfreeNonneg
      have hFL : ∃ pf, pf ≤ 3 ∧ s'.regUpsF + pcnt s' fSigW = 3 * s'.nClaims + pf ∧ s'.fLog = padThree s'.claimLog ++ List.replicate pf s'.teamId := by
        obtain ⟨pf, hf1, hf2, hf3⟩ := hInv.fLogEq
        exact ⟨pf, hf1, by omega, by rw [e13, e12, e08]; exact hf3⟩
      have hGL : ∃ pg, pg ≤ 1 ∧ s'.regUpsG + gcnt s' gSigW = s'.nClaims + pg ∧ s'.gLog = s'.claimLog ++ List.replicate pg s'.teamId := by
        obtain ⟨pg, hg1, hg2, hg3⟩ := hInv.gLogEq
        exact ⟨pg, hg1, by omega, by rw [e14, e12, e08]; exact hg3⟩
      exact {
        roundBound := roundBound_pres e16 hInv (by intro k b hh; cases hh),
        lateState := lateState_pres e16 (e17.trans (Function.update_eq_self i s.pret).symm) (e18.trans (Function.update_eq_self i s.playerStat).symm) hInv (by intro hh; cases hh),
        preRetZero := preRet_pres e16 (e17.trans (Function.update_eq_self i s.pret).symm) hInv (by intro hh; simp [earlyLoc] at hh),
        mutexEq := by omega, wtEq := by omega, gwtEq := by omega,
        regEq := by omega, teamIdEq := by omega, claimLen := by omega,
        rwtEq := by omega, pfreeNonneg := by omega, gfreeNonneg := by omega,
        fLogEq := hFL, gLogEq := hGL }
    | fRead =>
      simp only [applyEv, hloc] at h
      have h2 := Option.some.inj h
      have hcap3 : pcnt s wtUpW ≤ 3 := pcnt_wtUpW_le hInv
      have hone : (1 : Nat) ≤ pcnt s fReadW := by
        have := single_le_pcnt s fReadW i
        rw [hloc] at this; simpa [fReadW] using this
      have e01 : s'.mutex = s.mutex := by rw [← h2]
      have e02 : s'.playersWaitTeam = s.playersWaitTeam := by rw [← h2]
      have e03 : s'.goaliesWaitTeam = s.goaliesWaitTeam := by rw [← h2]
      have e04 : s'.playerRegistered = s.playerRegistered := by rw [← h2]
      have e05 : s'.refereeWaitTeams = s.refereeWaitTeams := by rw [← h2]
      have e06 : s'.playersFree = s.playersFree := by rw [← h2]
      have e07 : s'.goaliesFree = s.goaliesFree := by rw [← h2]
      have e08 : s'.teamId = s.teamId := by rw [← h2]
      have e09 : s'.nClaims = s.nClaims := by rw [← h2]
      have e10 : s'.regUpsF = s.regUpsF := by rw [← h2]
      have e11 : s'.regUpsG = s.regUpsG := by rw [← h2]
      have e12 : s'.claimLog = s.claimLog := by rw [← h2]
      have e13 : s'.fLog = s.fLog ++ [s.teamId] := by rw [← h2]
      have e14 : s'.gLog = s.gLog := by rw [← h2]
      have e15 : s'.gloc = s.gloc := by rw [← h2]
      have e16 : s'.ploc = Function.update s.ploc i PLoc.fSig := by rw [← h2]
      have e17 : s'.pret = Function.update s.pret i s.teamId := by rw [← h2]
      have e18 : s'.playerStat = s.playerStat := by rw [← h2]
      have e19 : s'.claimLog.length = s.claimLog.length  := by rw [e12]
      obtain ⟨hp1, hp2, hp3, hp4, hp5, hp6, hp7⟩ := pcnt_upd7 e16 hloc
      simp only [pHoldW, wtUpW, regDownW, gwUpW, fReadW, fSigW, rwtPendW] at hp1 hp2 hp3 hp4 hp5 hp6 hp7
      have hgH : gcnt s' gHoldW = gcnt s gHoldW := by unfold gcnt; rw [e15]
      have hgR : gcnt s' gReadW = gcnt s gReadW := by unfold gcnt; rw [e15]
      have hgS : gcnt s' gSigW = gcnt s gSigW := by unfold gcnt; rw [e15]
      have i01 := hInv.mutexEq
      have i02 := hInv.wtEq
      have i03 := hInv.gwtEq
      have i04 := hInv.regEq
      have i05 := hInv.teamIdEq
      have i06 := hInv.claimLen
      have i07 := hInv.rwtEq
      have i08 := hInv.pfreeNonneg
      have i09 := hInv.gfreeNonneg
      have hFL : ∃ pf, pf ≤ 3 ∧ s'.regUpsF + pcnt s' fSigW = 3 * s'.nClaims + pf ∧ s'.fLog = padThree s'.claimLog ++ List.replicate pf s'.teamId := by
        obtain ⟨pf, hf1, hf2, hf3⟩ := hInv.fLogEq
        refine ⟨pf + 1, by omega, by omega, ?_⟩
        rw [e13, e12, e08, hf3, List.append_assoc, ← List.replicate_succ']
      have hGL : ∃ pg, pg ≤ 1 ∧ s'.regUpsG + gcnt s' gSigW = s'.nClaims + pg ∧ s'.gLog = s'.claimLog ++ List.replicate pg s'.teamId := by
        obtain ⟨pg, hg1, hg2, hg3⟩ := hInv.gLogEq
        exact ⟨pg, hg1, by omega, by rw [e14, e12, e08]; exact hg3⟩
      exact {
        roundBound := roundBound_pres e16 hInv (by intro k b hh; cases hh),
        lateState := lateState_pres e16 e17 (e18.trans (Function.update_eq_self i s.playerStat).symm) hInv (by intro hh; cases hh),
        preRetZero := preRet_pres e16 e17 hInv (by intro hh; simp [earlyLoc] at hh),
        mutexEq := by omega, wtEq := by omega, gwtEq := by omega,
        regEq := by omega, teamIdEq := by omega, claimLen := by omega,
        rwtEq := by omega, pfreeNonneg := by omega, gfreeNonneg := by omega,
        fLogEq := hFL, gLogEq := hGL }
    | fSig =>
      simp only [applyEv, hloc] at h
      have h2 := Option.some.inj h
      have e01 : s'.mutex = s.mutex := by rw [← h2]
      have e02 : s'.playersWaitTeam = s.playersWaitTeam := by rw [← h2]
      have e03 : s'.goaliesWaitTeam = s.goaliesWaitTeam := by rw [← h2]
      have e04 : s'.playerRegistered = s.playerRegistered + 1 := by rw [← h2]
      have e05 : s'.refereeWaitTeams = s.refereeWaitTeams := by rw [← h2]
      have e06 : s'.playersFree = s.playersFree := by rw [← h2]
      have e07 : s'.goaliesFree = s.goaliesFree := by rw [← h2]
      have e08 : s'.teamId = s.teamId := by rw [← h2]
      have e09 : s'.nClaims = s.nClaims := by rw [← h2]
      have e10 : s'.regUpsF = s.regUpsF + 1 := by rw [← h2]
      have e11 : s'.regUpsG = s.regUpsG := by rw [← h2]
      have e12 : s'.claimLog = s.claimLog := by rw [← h2]
      have e13 : s'.fLog = s.fLog := by rw [← h2]
      have e14 : s'.gLog = s.gLog := by rw [← h2]
      have e15 : s'.gloc = s.gloc := by rw [← h2]
      have e16 : s'.ploc = Function.update s.ploc i PLoc.ctEnd := by rw [← h2]
      have e17 : s'.pret = s.pret := by rw [← h2]
      have e18 : s'.playerStat = s.playerStat := by rw [← h2]
      have e19 : s'.claimLog.length = s.claimLog.length  := by rw [e12]
      obtain ⟨hp1, hp2, hp3, hp4, hp5, hp6, hp7⟩ := pcnt_upd7 e16 hloc
      simp only [pHoldW, wtUpW, regDownW, gwUpW, fReadW, fSigW, rwtPendW] at hp1 hp2 hp3 hp4 hp5 hp6 hp7
      have hgH : gcnt s' gHoldW = gcnt s gHoldW := by unfold gcnt; rw [e15]
      have hgR : gcnt s' gReadW = gcnt s gReadW := by unfold gcnt; rw [e15]
      have hgS : gcnt s' gSigW = gcnt s gSigW := by unfold gcnt; rw [e15]
      have i01 := hInv.mutexEq
      have i02 := hInv.wtEq
      have i03 := hInv.gwtEq
      have i04 := hInv.regEq
      have i05 := hInv.teamIdEq
      have i06 := hInv.claimLen
      have i07 := hInv.rwtEq
      have i08 := hInv.pfreeNonneg
      have i09 := hInv.gfreeNonneg
      have hFL : ∃ pf, pf ≤ 3 ∧ s'.regUpsF + pcnt s' fSigW = 3 * s'.nClaims + pf ∧ s'.fLog = padThree s'.claimLog ++ List.replicate pf s'.teamId := by
        obtain ⟨pf, hf1, hf2, hf3⟩ := hInv.fLogEq
        exact ⟨pf, hf1, by omega, by rw [e13, e12, e08]; exact hf3⟩
      have hGL : ∃ pg, pg ≤ 1 ∧ s'.regUpsG + gcnt s' gSigW = s'.nClaims + pg ∧ s'.gLog = s'.claimLog ++ List.replicate pg s'.teamId := by
        obtain ⟨pg, hg1, hg2, hg3⟩ := hInv.gLogEq
        exact ⟨pg, hg1, by omega, by rw [e14, e12, e08]; exact hg3⟩
      exact {
        roundBound := roundBound_pres e16 hInv (by intro k b hh; cases hh),
        lateState := lateState_pres e16 (e17.trans (Function.update_eq_self i s.pret).symm) (e18.trans (Function.update_eq_self i s.playerStat).symm) hInv (by intro hh; cases hh),
        preRetZero := preRet_pres e16 (e17.trans (Function.update_eq_self i s.pret).symm) hInv (by intro hh; simp [earlyLoc] at hh),
        mutexEq := by omega, wtEq := by omega, gwtEq := by omega,
        regEq := by omega, teamIdEq := by omega, claimLen := by omega,
        rwtEq := by omega, pfreeNonneg := by omega, gfreeNonneg := by omega,
        fLogEq := hFL, gLogEq := hGL }
    | ctEnd =>
      simp only [applyEv, hloc] at h
      by_cases hr : s.pret i = 0
      · rw [if_pos hr] at h
        have h2 := Option.some.inj h
        have e01 : s'.mutex = s.mutex := by rw [← h2]
        have e02 : s'.playersWaitTeam = s.playersWaitTeam := by rw [← h2]
        have e03 : s'.goaliesWaitTeam = s.goaliesWaitTeam := by rw [← h2]
        have e04 : s'.playerRegistered = s.playerRegistered := by rw [← h2]
        have e05 : s'.refereeWaitTeams = s.refereeWaitTeams := by rw [← h2]
        have e06 : s'.playersFree = s.playersFree := by rw [← h2]
        have e07 : s'.goaliesFree = s.goaliesFree := by rw [← h2]
        have e08 : s'.teamId = s.teamId := by rw [← h2]
        have e09 : s'.nClaims = s.nClaims := by rw [← h2]
        have e10 : s'.regUpsF = s.regUpsF := by rw [← h2]
        have e11 : s'.regUpsG = s.regUpsG := by rw [← h2]
        have e12 : s'.claimLog = s.claimLog := by rw [← h2]
        have e13 : s'.fLog = s.fLog := by rw [← h2]
        have e14 : s'.gLog = s.gLog := by rw [← h2]
        have e15 : s'.gloc = s.gloc := by rw [← h2]
        have e16 : s'.ploc = Function.update s.ploc i PLoc.fin := by rw [← h2]
        have e17 : s'.pret = s.pret := by rw [← h2]
        have e18 : s'.playerStat = s.playerStat := by rw [← h2]
        have e19 : s'.claimLog.length = s.claimLog.length  := by rw [e12]
        obtain ⟨hp1, hp2, hp3, hp4, hp5, hp6, hp7⟩ := pcnt_upd7 e16 hloc
        simp only [pHoldW, wtUpW, regDownW, gwUpW, fReadW, fSigW, rwtPendW] at hp1 hp2 hp3 hp4 hp5 hp6 hp7
        have hgH : gcnt s' gHoldW = gcnt s gHoldW := by unfold gcnt; rw [e15]
        have hgR : gcnt s' gReadW = gcnt s gReadW := by unfold gcnt; rw [e15]
        have hgS : gcnt s' gSigW = gcnt s gSigW := by unfold gcnt; rw [e15]
        have i01 := hInv.mutexEq
        have i02 := hInv.wtEq
        have i03 := hInv.gwtEq
        have i04 := hInv.regEq
        have i05 := hInv.teamIdEq
        have i06 := hInv.claimLen
        have i07 := hInv.rwtEq
        have i08 := hInv.pfreeNonneg
        have i09 := hInv.gfreeNonneg
        have hFL : ∃ pf, pf ≤ 3 ∧ s'.regUpsF + pcnt s' fSigW = 3 * s'.nClaims + pf ∧ s'.fLog = padThree s'.claimLog ++ List.replicate pf s'.teamId := by
          obtain ⟨pf, hf1, hf2, hf3⟩ := hInv.fLogEq
          exact ⟨pf, hf1, by omega, by rw [e13, e12, e08]; exact hf3⟩
        have hGL : ∃ pg, pg ≤ 1 ∧ s'.regUpsG + gcnt s' gSigW = s'.nClaims + pg ∧ s'.gLog = s'.claimLog ++ List.replicate pg s'.teamId := by
          obtain ⟨pg, hg1, hg2, hg3⟩ := hInv.gLogEq
          exact ⟨pg, hg1, by omega, by rw [e14, e12, e08]; exact hg3⟩
        exact {
          roundBound := roundBound_pres e16 hInv (by intro k b hh; cases hh),
          lateState := lateState_pres e16 (e17.trans (Function.update_eq_self i s.pret).symm) (e18.trans (Function.update_eq_self i s.playerStat).symm) hInv (by intro hh; cases hh),
          preRetZero := preRet_pres e16 (e17.trans (Function.update_eq_self i s.pret).symm) hInv (by intro hh; simp [earlyLoc] at hh),
          mutexEq := by omega, wtEq := by omega, gwtEq := by omega,
          regEq := by omega, teamIdEq := by omega, claimLen := by omega,
          rwtEq := by omega, pfreeNonneg := by omega, gfreeNonneg := by omega,
          fLogEq := hFL, gLogEq := hGL }
      rw [if_neg hr] at h
      have h2 := Option.some.inj h
      have e01 : s'.mutex = s.mutex := by rw [← h2]
      have e02 : s'.playersWaitTeam = s.playersWaitTeam := by rw [← h2]
      have e03 : s'.goaliesWaitTeam = s.goaliesWaitTeam := by rw [← h2]
      have e04 : s'.playerRegistered = s.playerRegistered := by rw [← h2]
      have e05 : s'.refereeWaitTeams = s.refereeWaitTeams := by rw [← h2]
      have e06 : s'.playersFree = s.playersFree := by rw [← h2]
      have e07 : s'.goaliesFree = s.goaliesFree := by rw [← h2]
      have e08 : s'.teamId = s.teamId := by rw [← h2]
      have e09 : s'.nClaims = s.nClaims := by rw [← h2]
      have e10 : s'.regUpsF = s.regUpsF := by rw [← h2]
      have e11 : s'.regUpsG = s.regUpsG := by rw [← h2]
      have e12 : s'.claimLog = s.claimLog := by rw [← h2]
      have e13 : s'.fLog = s.fLog := by rw [← h2]
      have e14 : s'.gLog = s.gLog := by rw [← h2]
      have e15 : s'.gloc = s.gloc := by rw [← h2]
      have e16 : s'.ploc = Function.update s.ploc i PLoc.wrPre := by rw [← h2]
      have e17 : s'.pret = s.pret := by rw [← h2]
      have e18 : s'.playerStat = s.playerStat := by rw [← h2]
      have e19 : s'.claimLog.length = s.claimLog.length  := by rw [e12]
      obtain ⟨hp1, hp2, hp3, hp4, hp5, hp6, hp7⟩ := pcnt_upd7 e16 hloc
      simp only [pHoldW, wtUpW, regDownW, gwUpW, fReadW, fSigW, rwtPendW] at hp1 hp2 hp3 hp4 hp5 hp6 hp7
      have hgH : gcnt s' gHoldW = gcnt s gHoldW := by unfold gcnt; rw [e15]
      have hgR : gcnt s' gReadW = gcnt s gReadW := by unfold gcnt; rw [e15]
      have hgS : gcnt s' gSigW = gcnt s gSigW := by unfold gcnt; rw [e15]
      have i01 := hInv.mutexEq
      have i02 := hInv.wtEq
      have i03 := hInv.gwtEq
      have i04 := hInv.regEq
      have i05 := hInv.teamIdEq
      have i06 := hInv.claimLen
      have i07 := hInv.rwtEq
      have i08 := hInv.pfreeNonneg
      have i09 := hInv.gfreeNonneg
      have hFL : ∃ pf, pf ≤ 3 ∧ s'.regUpsF + pcnt s' fSigW = 3 * s'.nClaims + pf ∧ s'.fLog = padThree s'.claimLog ++ List.replicate pf s'.teamId := by
        obtain ⟨pf, hf1, hf2, hf3⟩ := hInv.fLogEq
        exact ⟨pf, hf1, by omega, by rw [e13, e12, e08]; exact hf3⟩
      have hGL : ∃ pg, pg ≤ 1 ∧ s'.regUpsG + gcnt s' gSigW = s'.nClaims + pg ∧ s'.gLog = s'.claimLog ++ List.replicate pg s'.teamId := by
        obtain ⟨pg, hg1, hg2, hg3⟩ := hInv.gLogEq
        exact ⟨pg, hg1, by omega, by rw [e14, e12, e08]; exact hg3⟩
      exact {
        roundBound := roundBound_pres e16 hInv (by intro k b hh; cases hh),
        lateState := lateState_pres e16 (e17.trans (Function.update_eq_self i s.pret).symm) (e18.trans (Function.update_eq_self i s.playerStat).symm) hInv (by intro hh; cases hh),
        preRetZero := preRet_pres e16 (e17.trans (Function.update_eq_self i s.pret).symm) hInv (by intro hh; simp [earlyLoc] at hh),
        mutexEq := by omega, wtEq := by omega, gwtEq := by omega,
        regEq := by omega, teamIdEq := by omega, claimLen := by omega,
        rwtEq := by omega, pfreeNonneg := by omega, gfreeNonneg := by omega,
        fLogEq := hFL, gLogEq := hGL }
    | wrPre =>
      simp only [applyEv, hloc] at h
      by_cases hm : s.mutex = 0
      · rw [if_pos hm] at h; exact Option.noConfusion h
      rw [if_neg hm] at h
      have h2 := Option.some.inj h
      have e01 : s'.mutex = s.mutex - 1 := by rw [← h2]
      have e02 : s'.playersWaitTeam = s.playersWaitTeam := by rw [← h2]
      have e03 : s'.goaliesWaitTeam = s.goaliesWaitTeam := by rw [← h2]
      have e04 : s'.playerRegistered = s.playerRegistered := by rw [← h2]
      have e05 : s'.refereeWaitTeams = s.refereeWaitTeams := by rw [← h2]
      have e06 : s'.playersFree = s.playersFree := by rw [← h2]
      have e07 : s'.goaliesFree = s.goaliesFree := by rw [← h2]
      have e08 : s'.teamId = s.teamId := by rw [← h2]
      have e09 : s'.nClaims = s.nClaims := by rw [← h2]
      have e10 : s'.regUpsF = s.regUpsF := by rw [← h2]
      have e11 : s'.regUpsG = s.regUpsG := by rw [← h2]
      have e12 : s'.claimLog = s.claimLog := by rw [← h2]
      have e13 : s'.fLog = s.fLog := by rw [← h2]
      have e14 : s'.gLog = s.gLog := by rw [← h2]
      have e15 : s'.gloc = s.gloc := by rw [← h2]
      have e16 : s'.ploc = Function.update s.ploc i PLoc.wrCrit := by rw [← h2]
      have e17 : s'.pret = s.pret := by rw [← h2]
      have e18 : s'.playerStat = s.playerStat := by rw [← h2]
      have e19 : s'.claimLog.length = s.claimLog.length  := by rw [e12]
      obtain ⟨hp1, hp2, hp3, hp4, hp5, hp6, hp7⟩ := pcnt_upd7 e16 hloc
      simp only [pHoldW, wtUpW, regDownW, gwUpW, fReadW, fSigW, rwtPendW] at hp1 hp2 hp3 hp4 hp5 hp6 hp7
      have hgH : gcnt s' gHoldW = gcnt s gHoldW := by unfold gcnt; rw [e15]
      have hgR : gcnt s' gReadW = gcnt s gReadW := by unfold gcnt; rw [e15]
      have hgS : gcnt s' gSigW = gcnt s gSigW := by unfold gcnt; rw [e15]
      have i01 := hInv.mutexEq
      have i02 := hInv.wtEq
      have i03 := hInv.gwtEq
      have i04 := hInv.regEq
      have i05 := hInv.teamIdEq
      have i06 := hInv.claimLen
      have i07 := hInv.rwtEq
      have i08 := hInv.pfreeNonneg
      have i09 := hInv.gfreeNonneg
      have hFL : ∃ pf, pf ≤ 3 ∧ s'.regUpsF + pcnt s' fSigW = 3 * s'.nClaims + pf ∧ s'.fLog = padThree s'.claimLog ++ List.replicate pf s'.teamId := by
        obtain ⟨pf, hf1, hf2, hf3⟩ := hInv.fLogEq
        exact ⟨pf, hf1, by omega, by rw [e13, e12, e08]; exact hf3⟩
      have hGL : ∃ pg, pg ≤ 1 ∧ s'.regUpsG + gcnt s' gSigW = s'.nClaims + pg ∧ s'.gLog = s'.claimLog ++ List.replicate pg s'.teamId := by
        obtain ⟨pg, hg1, hg2, hg3⟩ := hInv.gLogEq
        exact ⟨pg, hg1, by omega, by rw [e14, e12, e08]; exact hg3⟩
      exact {
        roundBound := roundBound_pres e16 hInv (by intro k b hh; cases hh),
        lateState := lateState_pres e16 (e17.trans (Function.update_eq_self i s.pret).symm) (e18.trans (Function.update_eq_self i s.playerStat).symm) hInv (by intro hh; cases hh),
        preRetZero := preRet_pres e16 (e17.trans (Function.update_eq_self i s.pret).symm) hInv (by intro hh; simp [earlyLoc] at hh),
        mutexEq := by omega, wtEq := by omega, gwtEq := by omega,
        regEq := by omega, teamIdEq := by omega, claimLen := by omega,
        rwtEq := by omega, pfreeNonneg := by omega, gfreeNonneg := by omega,
        fLogEq := hFL, gLogEq := hGL }
    | wrCrit =>
      simp only [applyEv, hloc] at h
      have h2 := Option.some.inj h
      have e01 : s'.mutex = s.mutex := by rw [← h2]
      have e02 : s'.playersWaitTeam = s.playersWaitTeam := by rw [← h2]
      have e03 : s'.goaliesWaitTeam = s.goaliesWaitTeam := by rw [← h2]
      have e04 : s'.playerRegistered = s.playerRegistered := by rw [← h2]
      have e05 : s'.refereeWaitTeams = s.refereeWaitTeams := by rw [← h2]
      have e06 : s'.playersFree = s.playersFree := by rw [← h2]
      have e07 : s'.goaliesFree = s.goaliesFree := by rw [← h2]
      have e08 : s'.teamId = s.teamId := by rw [← h2]
      have e09 : s'.nClaims = s.nClaims := by rw [← h2]
      have e10 : s'.regUpsF = s.regUpsF := by rw [← h2]
      have e11 : s'.regUpsG = s.regUpsG := by rw [← h2]
      have e12 : s'.claimLog = s.claimLog := by rw [← h2]
      have e13 : s'.fLog = s.fLog := by rw [← h2]
      have e14 : s'.gLog = s.gLog := by rw [← h2]
      have e15 : s'.gloc = s.gloc := by rw [← h2]
      have e16 : s'.ploc = Function.update s.ploc i PLoc.wrUnlock := by rw [← h2]
      have e17 : s'.pret = s.pret := by rw [← h2]
      have e18 : s'.playerStat = Function.update s.playerStat i (if s.pret i = 1 then PStat.WAITING_START_1 else PStat.WAITING_START_2) := by rw [← h2]
      have e19 : s'.claimLog.length = s.claimLog.length  := by rw [e12]
      obtain ⟨hp1, hp2, hp3, hp4, hp5, hp6, hp7⟩ := pcnt_upd7 e16 hloc
      simp only [pHoldW, wtUpW, regDownW, gwUpW, fReadW, fSigW, rwtPendW] at hp1 hp2 hp3 hp4 hp5 hp6 hp7
      have hgH : gcnt s' gHoldW = gcnt s gHoldW := by unfold gcnt; rw [e15]
      have hgR : gcnt s' gReadW = gcnt s gReadW := by unfold gcnt; rw [e15]
      have hgS : gcnt s' gSigW = gcnt s gSigW := by unfold gcnt; rw [e15]
      have i01 := hInv.mutexEq
      have i02 := hInv.wtEq
      have i03 := hInv.gwtEq
      have i04 := hInv.regEq
      have i05 := hInv.teamIdEq
      have i06 := hInv.claimLen
      have i07 := hInv.rwtEq
      have i08 := hInv.pfreeNonneg
      have i09 := hInv.gfreeNonneg
      have hFL : ∃ pf, pf ≤ 3 ∧ s'.regUpsF + pcnt s' fSigW = 3 * s'.nClaims + pf ∧ s'.fLog = padThree s'.claimLog ++ List.replicate pf s'.teamId := by
        obtain ⟨pf, hf1, hf2, hf3⟩ := hInv.fLogEq
        exact ⟨pf, hf1, by omega, by rw [e13, e12, e08]; exact hf3⟩
      have hGL : ∃ pg, pg ≤ 1 ∧ s'.regUpsG + gcnt s' gSigW = s'.nClaims + pg ∧ s'.gLog = s'.claimLog ++ List.replicate pg s'.teamId := by
        obtain ⟨pg, hg1, hg2, hg3⟩ := hInv.gLogEq
        exact ⟨pg, hg1, by omega, by rw [e14, e12, e08]; exact hg3⟩
      exact {
        roundBound := roundBound_pres e16 hInv (by intro k b hh; cases hh),
        lateState := lateState_pres e16 (e17.trans (Function.update_eq_self i s.pret).symm) e18 hInv (by intro hh; cases hh),
        preRetZero := preRet_pres e16 (e17.trans (Function.update_eq_self i s.pret).symm) hInv (by intro hh; simp [earlyLoc] at hh),
        mutexEq := by omega, wtEq := by omega, gwtEq := by omega,
        regEq := by omega, teamIdEq := by omega, claimLen := by omega,
        rwtEq := by omega, pfreeNonneg := by omega, gfreeNonneg := by omega,
        fLogEq := hFL, gLogEq := hGL }
    | wrUnlock =>
      simp only [applyEv, hloc] at h
      have h2 := Option.some.inj h
      have e01 : s'.mutex = s.mutex + 1 := by rw [← h2]
      have e02 : s'.playersWaitTeam = s.playersWaitTeam := by rw [← h2]
      have e03 : s'.goaliesWaitTeam = s.goaliesWaitTeam := by rw [← h2]
      have e04 : s'.playerRegistered = s.playerRegistered := by rw [← h2]
      have e05 : s'.refereeWaitTeams = s.refereeWaitTeams := by rw [← h2]
      have e06 : s'.playersFree = s.playersFree := by rw [← h2]
      have e07 : s'.goaliesFree = s.goaliesFree := by rw [← h2]
      have e08 : s'.teamId = s.teamId := by rw [← h2]
      have e09 : s'.nClaims = s.nClaims := by rw [← h2]
      have e10 : s'.regUpsF = s.regUpsF := by rw [← h2]
      have e11 : s'.regUpsG = s.regUpsG := by rw [← h2]
      have e12 : s'.claimLog = s.claimLog := by rw [← h2]
      have e13 : s'.fLog = s.fLog := by rw [← h2]
      have e14 : s'.gLog = s.gLog := by rw [← h2]
      have e15 : s'.gloc = s.gloc := by rw [← h2]
      have e16 : s'.ploc = Function.update s.ploc i PLoc.wrWait := by rw [← h2]
      have e17 : s'.pret = s.pret := by rw [← h2]
      have e18 : s'.playerStat = s.playerStat := by rw [← h2]
      have e19 : s'.claimLog.length = s.claimLog.length  := by rw [e12]
      obtain ⟨hp1, hp2, hp3, hp4, hp5, hp6, hp7⟩ := pcnt_upd7 e16 hloc
      simp only [pHoldW, wtUpW, regDownW, gwUpW, fReadW, fSigW, rwtPendW] at hp1 hp2 hp3 hp4 hp5 hp6 hp7
      have hgH : gcnt s' gHoldW = gcnt s gHoldW := by unfold gcnt; rw [e15]
      have hgR : gcnt s' gReadW = gcnt s gReadW := by unfold gcnt; rw [e15]
      have hgS : gcnt s' gSigW = gcnt s gSigW := by unfold gcnt; rw [e15]
      have i01 := hInv.mutexEq
      have i02 := hInv.wtEq
      have i03 := hInv.gwtEq
      have i04 := hInv.regEq
      have i05 := hInv.teamIdEq
      have i06 := hInv.claimLen
      have i07 := hInv.rwtEq
      have i08 := hInv.pfreeNonneg
      have i09 := hInv.gfreeNonneg
      have hFL : ∃ pf, pf ≤ 3 ∧ s'.regUpsF + pcnt s' fSigW = 3 * s'.nClaims + pf ∧ s'.fLog = padThree s'.claimLog ++ List.replicate pf s'.teamId := by
        obtain ⟨pf, hf1, hf2, hf3⟩ := hInv.fLogEq
        exact ⟨pf, hf1, by omega, by rw [e13, e12, e08]; exact hf3⟩
      have hGL : ∃ pg, pg ≤ 1 ∧ s'.regUpsG + gcnt s' gSigW = s'.nClaims + pg ∧ s'.gLog = s'.claimLog ++ List.replicate pg s'.teamId := by
        obtain ⟨pg, hg1, hg2, hg3⟩ := hInv.gLogEq
        exact ⟨pg, hg1, by omega, by rw [e14, e12, e08]; exact hg3⟩
      exact {
        roundBound := roundBound_pres e16 hInv (by intro k b hh; cases hh),
        lateState := lateState_pres e16 (e17.trans (Function.update_eq_self i s.pret).symm) (e18.trans (Function.update_eq_self i s.playerStat).symm) hInv (by intro hh; cases hh),
        preRetZero := preRet_pres e16 (e17.trans (Function.update_eq_self i s.pret).symm) hInv (by intro hh; simp [earlyLoc] at hh),
        mutexEq := by omega, wtEq := by omega, gwtEq := by omega,
        regEq := by omega, teamIdEq := by omega, claimLen := by omega,
        rwtEq := by omega, pfreeNonneg := by omega, gfreeNonneg := by omega,
        fLogEq := hFL, gLogEq := hGL }
    | wrWait =>
      simp only [applyEv, hloc] at h
      by_cases hm : s.playersWaitReferee = 0
      · rw [if_pos hm] at h; exact Option.noConfusion h
      rw [if_neg hm] at h
      have h2 := Option.some.inj h
      have e01 : s'.mutex = s.mutex := by rw [← h2]
      have e02 : s'.playersWaitTeam = s.playersWaitTeam := by rw [← h2]
      have e03 : s'.goaliesWaitTeam = s.goaliesWaitTeam := by rw [← h2]
      have e04 : s'.playerRegistered = s.playerRegistered := by rw [← h2]
      have e05 : s'.refereeWaitTeams = s.refereeWaitTeams := by rw [← h2]
      have e06 : s'.playersFree = s.playersFree := by rw [← h2]
      have e07 : s'.goaliesFree = s.goaliesFree := by rw [← h2]
      have e08 : s'.teamId = s.teamId := by rw [← h2]
      have e09 : s'.nClaims = s.nClaims := by rw [← h2]
      have e10 : s'.regUpsF = s.regUpsF := by rw [← h2]
      have e11 : s'.regUpsG = s.regUpsG := by rw [← h2]
      have e12 : s'.claimLog = s.claimLog := by rw [← h2]
      have e13 : s'.fLog = s.fLog := by rw [← h2]
      have e14 : s'.gLog = s.gLog := by rw [← h2]
      have e15 : s'.gloc = s.gloc := by rw [← h2]
      have e16 : s'.ploc = Function.update s.ploc i PLoc.puPre := by rw [← h2]
      have e17 : s'.pret = s.pret := by rw [← h2]
      have e18 : s'.playerStat = s.playerStat := by rw [← h2]
      have e19 : s'.claimLog.length = s.claimLog.length  := by rw [e12]
      obtain ⟨hp1, hp2, hp3, hp4, hp5, hp6, hp7⟩ := pcnt_upd7 e16 hloc
      simp only [pHoldW, wtUpW, regDownW, gwUpW, fReadW, fSigW, rwtPendW] at hp1 hp2 hp3 hp4 hp5 hp6 hp7
      have hgH : gcnt s' gHoldW = gcnt s gHoldW := by unfold gcnt; rw [e15]
      have hgR : gcnt s' gReadW = gcnt s gReadW := by unfold gcnt; rw [e15]
      have hgS : gcnt s' gSigW = gcnt s gSigW := by unfold gcnt; rw [e15]
      have i01 := hInv.mutexEq
      have i02 := hInv.wtEq
      have i03 := hInv.gwtEq
      have i04 := hInv.regEq
      have i05 := hInv.teamIdEq
      have i06 := hInv.claimLen
      have i07 := hInv.rwtEq
      have i08 := hInv.pfreeNonneg
      have i09 := hInv.gfreeNonneg
      have hFL : ∃ pf, pf ≤ 3 ∧ s'.regUpsF + pcnt s' fSigW = 3 * s'.nClaims + pf ∧ s'.fLog = padThree s'.claimLog ++ List.replicate pf s'.teamId := by
        obtain ⟨pf, hf1, hf2, hf3⟩ := hInv.fLogEq
        exact ⟨pf, hf1, by omega, by rw [e13, e12, e08]; exact hf3⟩
      have hGL : ∃ pg, pg ≤ 1 ∧ s'.regUpsG + gcnt s' gSigW = s'.nClaims + pg ∧ s'.gLog = s'.claimLog ++ List.replicate pg s'.teamId := by
        obtain ⟨pg, hg1, hg2, hg3⟩ := hInv.gLogEq
        exact ⟨pg, hg1, by omega, by rw [e14, e12, e08]; exact hg3⟩
      exact {
        roundBound := roundBound_pres e16 hInv (by intro k b hh; cases hh),
        lateState := lateState_pres e16 (e17.trans (Function.update_eq_self i s.pret).symm) (e18.trans (Function.update_eq_self i s.playerStat).symm) hInv (by intro hh; cases hh),
        preRetZero := preRet_pres e16 (e17.trans (Function.update_eq_self i s.pret).symm) hInv (by intro hh; simp [earlyLoc] at hh),
        mutexEq := by omega, wtEq := by omega, gwtEq := by omega,
        regEq := by omega, teamIdEq := by omega, claimLen := by omega,
        rwtEq := by omega, pfreeNonneg := by omega, gfreeNonneg := by omega,
        fLogEq := hFL, gLogEq := hGL }
    | puPre =>
      simp only [applyEv, hloc] at h
      by_cases hm : s.mutex = 0
      · rw [if_pos hm] at h; exact Option.noConfusion h
      rw [if_neg hm] at h
      have h2 := Option.some.inj h
      have e01 : s'.mutex = s.mutex - 1 := by rw [← h2]
      have e02 : s'.playersWaitTeam = s.playersWaitTeam := by rw [← h2]
      have e03 : s'.goaliesWaitTeam = s.goaliesWaitTeam := by rw [← h2]
      have e04 : s'.playerRegistered = s.playerRegistered := by rw [← h2]
      have e05 : s'.refereeWaitTeams = s.refereeWaitTeams := by rw [← h2]
      have e06 : s'.playersFree = s.playersFree := by rw [← h2]
      have e07 : s'.goaliesFree = s.goaliesFree := by rw [← h2]
      have e08 : s'.teamId = s.teamId := by rw [← h2]
      have e09 : s'.nClaims = s.nClaims := by rw [← h2]
      have e10 : s'.regUpsF = s.regUpsF := by rw [← h2]
      have e11 : s'.regUpsG = s.regUpsG := by rw [← h2]
      have e12 : s'.claimLog = s.claimLog := by rw [← h2]
      have e13 : s'.fLog = s.fLog := by rw [← h2]
      have e14 : s'.gLog = s.gLog := by rw [← h2]
      have e15 : s'.gloc = s.gloc := by rw [← h2]
      have e16 : s'.ploc = Function.update s.ploc i PLoc.puCrit := by rw [← h2]
      have e17 : s'.pret = s.pret := by rw [← h2]
      have e18 : s'.playerStat = s.playerStat := by rw [← h2]
      have e19 : s'.claimLog.length = s.claimLog.length  := by rw [e12]
      obtain ⟨hp1, hp2, hp3, hp4, hp5, hp6, hp7⟩ := pcnt_upd7 e16 hloc
      simp only [pHoldW, wtUpW, regDownW, gwUpW, fReadW, fSigW, rwtPendW] at hp1 hp2 hp3 hp4 hp5 hp6 hp7
      have hgH : gcnt s' gHoldW = gcnt s gHoldW := by unfold gcnt; rw [e15]
      have hgR : gcnt s' gReadW = gcnt s gReadW := by unfold gcnt; rw [e15]
      have hgS : gcnt s' gSigW = gcnt s gSigW := by unfold gcnt; rw [e15]
      have i01 := hInv.mutexEq
      have i02 := hInv.wtEq
      have i03 := hInv.gwtEq
      have i04 := hInv.regEq
      have i05 := hInv.teamIdEq
      have i06 := hInv.claimLen
      have i07 := hInv.rwtEq
      have i08 := hInv.pfreeNonneg
      have i09 := hInv.gfreeNonneg
      have hFL : ∃ pf, pf ≤ 3 ∧ s'.regUpsF + pcnt s' fSigW = 3 * s'.nClaims + pf ∧ s'.fLog = padThree s'.claimLog ++ List.replicate pf s'.teamId := by
        obtain ⟨pf, hf1, hf2, hf3⟩ := hInv.fLogEq
        exact ⟨pf, hf1, by omega, by rw [e13, e12, e08]; exact hf3⟩
      have hGL : ∃ pg, pg ≤ 1 ∧ s'.regUpsG + gcnt s' gSigW = s'.nClaims + pg ∧ s'.gLog = s'.claimLog ++ List.replicate pg s'.teamId := by
        obtain ⟨pg, hg1, hg2, hg3⟩ := hInv.gLogEq
        exact ⟨pg, hg1, by omega, by rw [e14, e12, e08]; exact hg3⟩
      exact {
        roundBound := roundBound_pres e16 hInv (by intro k b hh; cases hh),
        lateState := lateState_pres e16 (e17.trans (Function.update_eq_self i s.pret).symm) (e18.trans (Function.update_eq_self i s.playerStat).symm) hInv (by intro hh; cases hh),
        preRetZero := preRet_pres e16 (e17.trans (Function.update_eq_self i s.pret).symm) hInv (by intro hh; simp [earlyLoc] at hh),
        mutexEq := by omega, wtEq := by omega, gwtEq := by omega,
        regEq := by omega, teamIdEq := by omega, claimLen := by omega,
        rwtEq := by omega, pfreeNonneg := by omega, gfreeNonneg := by omega,
        fLogEq := hFL, gLogEq := hGL }
    | puCrit =>
      simp only [applyEv, hloc] at h
      have h2 := Option.some.inj h
      have e01 : s'.mutex = s.mutex := by rw [← h2]
      have e02 : s'.playersWaitTeam = s.playersWaitTeam := by rw [← h2]
      have e03 : s'.goaliesWaitTeam = s.goaliesWaitTeam := by rw [← h2]
      have e04 : s'.playerRegistered = s.playerRegistered := by rw [← h2]
      have e05 : s'.refereeWaitTeams = s.refereeWaitTeams := by rw [← h2]
      have e06 : s'.playersFree = s.playersFree := by rw [← h2]
      have e07 : s'.goaliesFree = s.goaliesFree := by rw [← h2]
      have e08 : s'.teamId = s.teamId := by rw [← h2]
      have e09 : s'.nClaims = s.nClaims := by rw [← h2]
      have e10 : s'.regUpsF = s.regUpsF := by rw [← h2]
      have e11 : s'.regUpsG = s.regUpsG := by rw [← h2]
      have e12 : s'.claimLog = s.claimLog := by rw [← h2]
      have e13 : s'.fLog = s.fLog := by rw [← h2]
      have e14 : s'.gLog = s.gLog := by rw [← h2]
      have e15 : s'.gloc = s.gloc := by rw [← h2]
      have e16 : s'.ploc = Function.update s.ploc i PLoc.puSig := by rw [← h2]
      have e17 : s'.pret = s.pret := by rw [← h2]
      have e18 : s'.playerStat = Function.update s.playerStat i (if s.pret i = 1 then PStat.PLAYING_1 else PStat.PLAYING_2) := by rw [← h2]
      have e19 : s'.claimLog.length = s.claimLog.length  := by rw [e12]
      obtain ⟨hp1, hp2, hp3, hp4, hp5, hp6, hp7⟩ := pcnt_upd7 e16 hloc
      simp only [pHoldW, wtUpW, regDownW, gwUpW, fReadW, fSigW, rwtPendW] at hp1 hp2 hp3 hp4 hp5 hp6 hp7
      have hgH : gcnt s' gHoldW = gcnt s gHoldW := by unfold gcnt; rw [e15]
      have hgR : gcnt s' gReadW = gcnt s gReadW := by unfold gcnt; rw [e15]
      have hgS : gcnt s' gSigW = gcnt s gSigW := by unfold gcnt; rw [e15]
      have i01 := hInv.mutexEq
      have i02 := hInv.wtEq
      have i03 := hInv.gwtEq
      have i04 := hInv.regEq
      have i05 := hInv.teamIdEq
      have i06 := hInv.claimLen
      have i07 := hInv.rwtEq
      have i08 := hInv.pfreeNonneg
      have i09 := hInv.gfreeNonneg
      have hFL : ∃ pf, pf ≤ 3 ∧ s'.regUpsF + pcnt s' fSigW = 3 * s'.nClaims + pf ∧ s'.fLog = padThree s'.claimLog ++ List.replicate pf s'.teamId := by
        obtain ⟨pf, hf1, hf2, hf3⟩ := hInv.fLogEq
        exact ⟨pf, hf1, by omega, by rw [e13, e12, e08]; exact hf3⟩
      have hGL : ∃ pg, pg ≤ 1 ∧ s'.regUpsG + gcnt s' gSigW = s'.nClaims + pg ∧ s'.gLog = s'.claimLog ++ List.replicate pg s'.teamId := by
        obtain ⟨pg, hg1, hg2, hg3⟩ := hInv.gLogEq
        exact ⟨pg, hg1, by omega, by rw [e14, e12, e08]; exact hg3⟩
      exact {
        roundBound := roundBound_pres e16 hInv (by intro k b hh; cases hh),
        lateState := lateState_pres e16 (e17.trans (Function.update_eq_self i s.pret).symm) e18 hInv (by intro hh; cases hh),
        preRetZero := preRet_pres e16 (e17.trans (Function.update_eq_self i s.pret).symm) hInv (by intro hh; simp [earlyLoc] at hh),
        mutexEq := by omega, wtEq := by omega, gwtEq := by omega,
        regEq := by omega, teamIdEq := by omega, claimLen := by omega,
        rwtEq := by omega, pfreeNonneg := by omega, gfreeNonneg := by omega,
        fLogEq := hFL, gLogEq := hGL }
    | puSig =>
      simp only [applyEv, hloc] at h
      have h2 := Option.some.inj h
      have e01 : s'.mutex = s.mutex := by rw [← h2]
      have e02 : s'.playersWaitTeam = s.playersWaitTeam := by rw [← h2]
      have e03 : s'.goaliesWaitTeam = s.goaliesWaitTeam := by rw [← h2]
      have e04 : s'.playerRegistered = s.playerRegistered := by rw [← h2]
      have e05 : s'.refereeWaitTeams = s.refereeWaitTeams := by rw [← h2]
      have e06 : s'.playersFree = s.playersFree := by rw [← h2]
      have e07 : s'.goaliesFree = s.goaliesFree := by rw [← h2]
      have e08 : s'.teamId = s.teamId := by rw [← h2]
      have e09 : s'.nClaims = s.nClaims := by rw [← h2]
      have e10 : s'.regUpsF = s.regUpsF := by rw [← h2]
      have e11 : s'.regUpsG = s.regUpsG := by rw [← h2]
      have e12 : s'.claimLog = s.claimLog := by rw [← h2]
      have e13 : s'.fLog = s.fLog := by rw [← h2]
      have e14 : s'.gLog = s.gLog := by rw [← h2]
      have e15 : s'.gloc = s.gloc := by rw [← h2]
      have e16 : s'.ploc = Function.update s.ploc i PLoc.puUnlock := by rw [← h2]
      have e17 : s'.pret = s.pret := by rw [← h2]
      have e18 : s'.playerStat = s.playerStat := by rw [← h2]
      have e19 : s'.claimLog.length = s.claimLog.length  := by rw [e12]
      obtain ⟨hp1, hp2, hp3, hp4, hp5, hp6, hp7⟩ := pcnt_upd7 e16 hloc
      simp only [pHoldW, wtUpW, regDownW, gwUpW, fReadW, fSigW, rwtPendW] at hp1 hp2 hp3 hp4 hp5 hp6 hp7
      have hgH : gcnt s' gHoldW = gcnt s gHoldW := by unfold gcnt; rw [e15]
      have hgR : gcnt s' gReadW = gcnt s gReadW := by unfold gcnt; rw [e15]
      have hgS : gcnt s' gSigW = gcnt s gSigW := by unfold gcnt; rw [e15]
      have i01 := hInv.mutexEq
      have i02 := hInv.wtEq
      have i03 := hInv.gwtEq
      have i04 := hInv.regEq
      have i05 := hInv.teamIdEq
      have i06 := hInv.claimLen
      have i07 := hInv.rwtEq
      have i08 := hInv.pfreeNonneg
      have i09 := hInv.gfreeNonneg
      have hFL : ∃ pf, pf ≤ 3 ∧ s'.regUpsF + pcnt s' fSigW = 3 * s'.nClaims + pf ∧ s'.fLog = padThree s'.claimLog ++ List.replicate pf s'.teamId := by
        obtain ⟨pf, hf1, hf2, hf3⟩ := hInv.fLogEq
        exact ⟨pf, hf1, by omega, by rw [e13, e12, e08]; exact hf3⟩
      have hGL : ∃ pg, pg ≤ 1 ∧ s'.regUpsG + gcnt s' gSigW = s'.nClaims + pg ∧ s'.gLog = s'.claimLog ++ List.replicate pg s'.teamId := by
        obtain ⟨pg, hg1, hg2, hg3⟩ := hInv.gLogEq
        exact ⟨pg, hg1, by omega, by rw [e14, e12, e08]; exact hg3⟩
      exact {
        roundBound := roundBound_pres e16 hInv (by intro k b hh; cases hh),
        lateState := lateState_pres e16 (e17.trans (Function.update_eq_self i s.pret).symm) (e18.trans (Function.update_eq_self i s.playerStat).symm) hInv (by intro hh; cases hh),
        preRetZero := preRet_pres e16 (e17.trans (Function.update_eq_self i s.pret).symm) hInv (by intro hh; simp [earlyLoc] at hh),
        mutexEq := by omega, wtEq := by omega, gwtEq := by omega,
        regEq := by omega, teamIdEq := by omega, claimLen := by omega,
        rwtEq := by omega, pfreeNonneg := by omega, gfreeNonneg := by omega,
        fLogEq := hFL, gLogEq := hGL }
    | puUnlock =>
      simp only [applyEv, hloc] at h
      have h2 := Option.some.inj h
      have e01 : s'.mutex = s.mutex + 1 := by rw [← h2]
      have e02 : s'.playersWaitTeam = s.playersWaitTeam := by rw [← h2]
      have e03 : s'.goaliesWaitTeam = s.goaliesWaitTeam := by rw [← h2]
      have e04 : s'.playerRegistered = s.playerRegistered := by rw [← h2]
      have e05 : s'.refereeWaitTeams = s.refereeWaitTeams := by rw [← h2]
      have e06 : s'.playersFree = s.playersFree := by rw [← h2]
      have e07 : s'.goaliesFree = s.goaliesFree := by rw [← h2]
      have e08 : s'.teamId = s.teamId := by rw [← h2]
      have e09 : s'.nClaims = s.nClaims := by rw [← h2]
      have e10 : s'.regUpsF = s.regUpsF := by rw [← h2]
      have e11 : s'.regUpsG = s.regUpsG := by rw [← h2]
      have e12 : s'.claimLog = s.claimLog := by rw [← h2]
      have e13 : s'.fLog = s.fLog := by rw [← h2]
      have e14 : s'.gLog = s.gLog := by rw [← h2]
      have e15 : s'.gloc = s.gloc := by rw [← h2]
      have e16 : s'.ploc = Function.update s.ploc i PLoc.puWait := by rw [← h2]
      have e17 : s'.pret = s.pret := by rw [← h2]
      have e18 : s'.playerStat = s.playerStat := by rw [← h2]
      have e19 : s'.claimLog.length = s.claimLog.length  := by rw [e12]
      obtain ⟨hp1, hp2, hp3, hp4, hp5, hp6, hp7⟩ := pcnt_upd7 e16 hloc
      simp only [pHoldW, wtUpW, regDownW, gwUpW, fReadW, fSigW, rwtPendW] at hp1 hp2 hp3 hp4 hp5 hp6 hp7
      have hgH : gcnt s' gHoldW = gcnt s gHoldW := by unfold gcnt; rw [e15]
      have hgR : gcnt s' gReadW = gcnt s gReadW := by unfold gcnt; rw [e15]
      have hgS : gcnt s' gSigW = gcnt s gSigW := by unfold gcnt; rw [e15]
      have i01 := hInv.mutexEq
      have i02 := hInv.wtEq
      have i03 := hInv.gwtEq
      have i04 := hInv.regEq
      have i05 := hInv.teamIdEq
      have i06 := hInv.claimLen
      have i07 := hInv.rwtEq
      have i08 := hInv.pfreeNonneg
      have i09 := hInv.gfreeNonneg
      have hFL : ∃ pf, pf ≤ 3 ∧ s'.regUpsF + pcnt s' fSigW = 3 * s'.nClaims + pf ∧ s'.fLog = padThree s'.claimLog ++ List.replicate pf s'.teamId := by
        obtain ⟨pf, hf1, hf2, hf3⟩ := hInv.fLogEq
        exact ⟨pf, hf1, by omega, by rw [e13, e12, e08]; exact hf3⟩
      have hGL : ∃ pg, pg ≤ 1 ∧ s'.regUpsG + gcnt s' gSigW = s'.nClaims + pg ∧ s'.gLog = s'.claimLog ++ List.replicate pg s'.teamId := by
        obtain ⟨pg, hg1, hg2, hg3⟩ := hInv.gLogEq
        exact ⟨pg, hg1, by omega, by rw [e14, e12, e08]; exact hg3⟩
      exact {
        roundBound := roundBound_pres e16 hInv (by intro k b hh; cases hh),
        lateState := lateState_pres e16 (e17.trans (Function.update_eq_self i s.pret).symm) (e18.trans (Function.update_eq_self i s.playerStat).symm) hInv (by intro hh; cases hh),
        preRetZero := preRet_pres e16 (e17.trans (Function.update_eq_self i s.pret).symm) hInv (by intro hh; simp [earlyLoc] at hh),
        mutexEq := by omega, wtEq := by omega, gwtEq := by omega,
        regEq := by omega, teamIdEq := by omega, claimLen := by omega,
        rwtEq := by omega, pfreeNonneg := by omega, gfreeNonneg := by omega,
        fLogEq := hFL, gLogEq := hGL }
    | puWait =>
      simp only [applyEv, hloc] at h
      by_cases hm : s.playersWaitEnd = 0
      · rw [if_pos hm] at h; exact Option.noConfusion h
      rw [if_neg hm] at h
      have h2 := Option.some.inj h
      have e01 : s'.mutex = s.mutex := by rw [← h2]
      have e02 : s'.playersWaitTeam = s.playersWaitTeam := by rw [← h2]
      have e03 : s'.goaliesWaitTeam = s.goaliesWaitTeam := by rw [← h2]
      have e04 : s'.playerRegistered = s.playerRegistered := by rw [← h2]
      have e05 : s'.refereeWaitTeams = s.refereeWaitTeams := by rw [← h2]
      have e06 : s'.playersFree = s.playersFree := by rw [← h2]
      have e07 : s'.goaliesFree = s.goaliesFree := by rw [← h2]
      have e08 : s'.teamId = s.teamId := by rw [← h2]
      have e09 : s'.nClaims = s.nClaims := by rw [← h2]
      have e10 : s'.regUpsF = s.regUpsF := by rw [← h2]
      have e11 : s'.regUpsG = s.regUpsG := by rw [← h2]
      have e12 : s'.claimLog = s.claimLog := by rw [← h2]
      have e13 : s'.fLog = s.fLog := by rw [← h2]
      have e14 : s'.gLog = s.gLog := by rw [← h2]
      have e15 : s'.gloc = s.gloc := by rw [← h2]
      have e16 : s'.ploc = Function.update s.ploc i PLoc.fin := by rw [← h2]
      have e17 : s'.pret = s.pret := by rw [← h2]
      have e18 : s'.playerStat = s.playerStat := by rw [← h2]
      have e19 : s'.claimLog.length = s.claimLog.length  := by rw [e12]
      obtain ⟨hp1, hp2, hp3, hp4, hp5, hp6, hp7⟩ := pcnt_upd7 e16 hloc
      simp only [pHoldW, wtUpW, regDownW, gwUpW, fReadW, fSigW, rwtPendW] at hp1 hp2 hp3 hp4 hp5 hp6 hp7
      have hgH : gcnt s' gHoldW = gcnt s gHoldW := by unfold gcnt; rw [e15]
      have hgR : gcnt s' gReadW = gcnt s gReadW := by unfold gcnt; rw [e15]
      have hgS : gcnt s' gSigW = gcnt s gSigW := by unfold gcnt; rw [e15]
      have i01 := hInv.mutexEq
      have i02 := hInv.wtEq
      have i03 := hInv.gwtEq
      have i04 := hInv.regEq
      have i05 := hInv.teamIdEq
      have i06 := hInv.claimLen
      have i07 := hInv.rwtEq
      have i08 := hInv.pfreeNonneg
      have i09 := hInv.gfreeNonneg
      have hFL : ∃ pf, pf ≤ 3 ∧ s'.regUpsF + pcnt s' fSigW = 3 * s'.nClaims + pf ∧ s'.fLog = padThree s'.claimLog ++ List.replicate pf s'.teamId := by
        obtain ⟨pf, hf1, hf2, hf3⟩ := hInv.fLogEq
        exact ⟨pf, hf1, by omega, by rw [e13, e12, e08]; exact hf3⟩
      have hGL : ∃ pg, pg ≤ 1 ∧ s'.regUpsG + gcnt s' gSigW = s'.nClaims + pg ∧ s'.gLog = s'.claimLog ++ List.replicate pg s'.teamId := by
        obtain ⟨pg, hg1, hg2, hg3⟩ := hInv.gLogEq
        exact ⟨pg, hg1, by omega, by rw [e14, e12, e08]; exact hg3⟩
      exact {
        roundBound := roundBound_pres e16 hInv (by intro k b hh; cases hh),
        lateState := lateState_pres e16 (e17.trans (Function.update_eq_self i s.pret).symm) (e18.trans (Function.update_eq_self i s.playerStat).symm) hInv (by intro hh; cases hh),
        preRetZero := preRet_pres e16 (e17.trans (Function.update_eq_self i s.pret).symm) hInv (by intro hh; simp [earlyLoc] at hh),
        mutexEq := by omega, wtEq := by omega, gwtEq := by omega,
        regEq := by omega, teamIdEq := by omega, claimLen := by omega,
        rwtEq := by omega, pfreeNonneg := by omega, gfreeNonneg := by omega,
        fLogEq := hFL, gLogEq := hGL }
    | fin =>
      simp only [applyEv, hloc] at h
      exact Option.noConfusion h
  | gstep j =>
    cases hloc : s.gloc j with
    | gStart =>
      simp only [applyEv, hloc] at h
      by_cases hm : s.mutex = 0
      · rw [if_pos hm] at h; exact Option.noConfusion h
      rw [if_neg hm] at h
      have h2 := Option.some.inj h
      have e01 : s'.mutex = s.mutex - 1 := by rw [← h2]
      have e02 : s'.playersWaitTeam = s.playersWaitTeam := by rw [← h2]
      have e03 : s'.goaliesWaitTeam = s.goaliesWaitTeam := by rw [← h2]
      have e04 : s'.playerRegistered = s.playerRegistered := by rw [← h2]
      have e05 : s'.refereeWaitTeams = s.refereeWaitTeams := by rw [← h2]
      have e06 : s'.playersFree = s.playersFree := by rw [← h2]
      have e07 : s'.goaliesFree = s.goaliesFree := by rw [← h2]
      have e08 : s'.teamId = s.teamId := by rw [← h2]
      have e09 : s'.nClaims = s.nClaims := by rw [← h2]
      have e10 : s'.regUpsF = s.regUpsF := by rw [← h2]
      have e11 : s'.regUpsG = s.regUpsG := by rw [← h2]
      have e12 : s'.claimLog = s.claimLog := by rw [← h2]
      have e13 : s'.fLog = s.fLog := by rw [← h2]
      have e14 : s'.gLog = s.gLog := by rw [← h2]
      have e15 : s'.gloc = Function.update s.gloc j GLoc.gCrit := by rw [← h2]
      have e16 : s'.ploc = s.ploc := by rw [← h2]
      have e17 : s'.pret = s.pret := by rw [← h2]
      have e18 : s'.playerStat = s.playerStat := by rw [← h2]
      have e19 : s'.claimLog.length = s.claimLog.length := by rw [e12]
      obtain ⟨hg1W, hg2W, hg3W⟩ := gcnt_upd3 e15 hloc
      simp only [gHoldW, gReadW, gSigW] at hg1W hg2W hg3W
      have hpcpHoldW : pcnt s' pHoldW = pcnt s pHoldW := by unfold pcnt; rw [e16]
      have hpcwtUpW : pcnt s' wtUpW = pcnt s wtUpW := by unfold pcnt; rw [e16]
      have hpcregDownW : pcnt s' regDownW = pcnt s regDownW := by unfold pcnt; rw [e16]
      have hpcgwUpW : pcnt s' gwUpW = pcnt s gwUpW := by unfold pcnt; rw [e16]
      have hpcfReadW : pcnt s' fReadW = pcnt s fReadW := by unfold pcnt; rw [e16]
      have hpcfSigW : pcnt s' fSigW = pcnt s fSigW := by unfold pcnt; rw [e16]
      have hpcrwtPendW : pcnt s' rwtPendW = pcnt s rwtPendW := by unfold pcnt; rw [e16]
      have i01 := hInv.mutexEq
      have i02 := hInv.wtEq
      have i03 := hInv.gwtEq
      have i04 := hInv.regEq
      have i05 := hInv.teamIdEq
      have i06 := hInv.claimLen
      have i07 := hInv.rwtEq
      have i08 := hInv.pfreeNonneg
      have i09 := hInv.gfreeNonneg
      have hFL : ∃ pf, pf ≤ 3 ∧ s'.regUpsF + pcnt s' fSigW = 3 * s'.nClaims + pf ∧ s'.fLog = padThree s'.claimLog ++ List.replicate pf s'.teamId := by
        obtain ⟨pf, hf1, hf2, hf3⟩ := hInv.fLogEq
        exact ⟨pf, hf1, by omega, by rw [e13, e12, e08]; exact hf3⟩
      have hGL : ∃ pg, pg ≤ 1 ∧ s'.regUpsG + gcnt s' gSigW = s'.nClaims + pg ∧ s'.gLog = s'.claimLog ++ List.replicate pg s'.teamId := by
        obtain ⟨pg, hg1, hg2, hg3⟩ := hInv.gLogEq
        exact ⟨pg, hg1, by omega, by rw [e14, e12, e08]; exact hg3⟩
      exact {
        roundBound := by intro j k b hj; rw [e16] at hj; exact hInv.roundBound j k b hj,
        lateState := by intro j hj; rw [e16] at hj; rw [e17, e18]; exact hInv.lateState j hj,
        preRetZero := by intro j hj; rw [e16] at hj; rw [e17]; exact hInv.preRetZero j hj,
        mutexEq := by omega, wtEq := by omega, gwtEq := by omega,
        regEq := by omega, teamIdEq := by omega, claimLen := by omega,
        rwtEq := by omega, pfreeNonneg := by omega, gfreeNonneg := by omega,
        fLogEq := hFL, gLogEq := hGL }
    | gCrit =>
      simp only [applyEv, hloc] at h
      have h2 := Option.some.inj h
      have e01 : s'.mutex = s.mutex := by rw [← h2]
      have e02 : s'.playersWaitTeam = s.playersWaitTeam := by rw [← h2]
      have e03 : s'.goaliesWaitTeam = s.goaliesWaitTeam := by rw [← h2]
      have e04 : s'.playerRegistered = s.playerRegistered := by rw [← h2]
      have e05 : s'.refereeWaitTeams = s.refereeWaitTeams := by rw [← h2]
      have e06 : s'.playersFree = s.playersFree := by rw [← h2]
      have e07 : s'.goaliesFree = s.goaliesFree + 1 := by rw [← h2]
      have e08 : s'.teamId = s.teamId := by rw [← h2]
      have e09 : s'.nClaims = s.nClaims := by rw [← h2]
      have e10 : s'.regUpsF = s.regUpsF := by rw [← h2]
      have e11 : s'.regUpsG = s.regUpsG := by rw [← h2]
      have e12 : s'.claimLog = s.claimLog := by rw [← h2]
      have e13 : s'.fLog = s.fLog := by rw [← h2]
      have e14 : s'.gLog = s.gLog := by rw [← h2]
      have e15 : s'.gloc = Function.update s.gloc j GLoc.gUnlock := by rw [← h2]
      have e16 : s'.ploc = s.ploc := by rw [← h2]
      have e17 : s'.pret = s.pret := by rw [← h2]
      have e18 : s'.playerStat = s.playerStat := by rw [← h2]
      have e19 : s'.claimLog.length = s.claimLog.length := by rw [e12]
      obtain ⟨hg1W, hg2W, hg3W⟩ := gcnt_upd3 e15 hloc
      simp only [gHoldW, gReadW, gSigW] at hg1W hg2W hg3W
      have hpcpHoldW : pcnt s' pHoldW = pcnt s pHoldW := by unfold pcnt; rw [e16]
      have hpcwtUpW : pcnt s' wtUpW = pcnt s wtUpW := by unfold pcnt; rw [e16]
      have hpcregDownW : pcnt s' regDownW = pcnt s regDownW := by unfold pcnt; rw [e16]
      have hpcgwUpW : pcnt s' gwUpW = pcnt s gwUpW := by unfold pcnt; rw [e16]
      have hpcfReadW : pcnt s' fReadW = pcnt s fReadW := by unfold pcnt; rw [e16]
      have hpcfSigW : pcnt s' fSigW = pcnt s fSigW := by unfold pcnt; rw [e16]
      have hpcrwtPendW : pcnt s' rwtPendW = pcnt s rwtPendW := by unfold pcnt; rw [e16]
      have i01 := hInv.mutexEq
      have i02 := hInv.wtEq
      have i03 := hInv.gwtEq
      have i04 := hInv.regEq
      have i05 := hInv.teamIdEq
      have i06 := hInv.claimLen
      have i07 := hInv.rwtEq
      have i08 := hInv.pfreeNonneg
      have i09 := hInv.gfreeNonneg
      have hFL : ∃ pf, pf ≤ 3 ∧ s'.regUpsF + pcnt s' fSigW = 3 * s'.nClaims + pf ∧ s'.fLog = padThree s'.claimLog ++ List.replicate pf s'.teamId := by
        obtain ⟨pf, hf1, hf2, hf3⟩ := hInv.fLogEq
        exact ⟨pf, hf1, by omega, by rw [e13, e12, e08]; exact hf3⟩
      have hGL : ∃ pg, pg ≤ 1 ∧ s'.regUpsG + gcnt s' gSigW = s'.nClaims + pg ∧ s'.gLog = s'.claimLog ++ List.replicate pg s'.teamId := by
        obtain ⟨pg, hg1, hg2, hg3⟩ := hInv.gLogEq
        exact ⟨pg, hg1, by omega, by rw [e14, e12, e08]; exact hg3⟩
      exact {
        roundBound := by intro j k b hj; rw [e16] at hj; exact hInv.roundBound j k b hj,
        lateState := by intro j hj; rw [e16] at hj; rw [e17, e18]; exact hInv.lateState j hj,
        preRetZero := by intro j hj; rw [e16] at hj; rw [e17]; exact hInv.preRetZero j hj,
        mutexEq := by omega, wtEq := by omega, gwtEq := by omega,
        regEq := by omega, teamIdEq := by omega, claimLen := by omega,
        rwtEq := by omega, pfreeNonneg := by omega, gfreeNonneg := by omega,
        fLogEq := hFL, gLogEq := hGL }
    | gUnlock =>
      simp only [applyEv, hloc] at h
      have h2 := Option.some.inj h
      have e01 : s'.mutex = s.mutex + 1 := by rw [← h2]
      have e02 : s'.playersWaitTeam = s.playersWaitTeam := by rw [← h2]
      have e03 : s'.goaliesWaitTeam = s.goaliesWaitTeam := by rw [← h2]
      have e04 : s'.playerRegistered = s.playerRegistered := by rw [← h2]
      have e05 : s'.refereeWaitTeams = s.refereeWaitTeams := by rw [← h2]
      have e06 : s'.playersFree = s.playersFree := by rw [← h2]
      have e07 : s'.goaliesFree = s.goaliesFree := by rw [← h2]
      have e08 : s'.teamId = s.teamId := by rw [← h2]
      have e09 : s'.nClaims = s.nClaims := by rw [← h2]
      have e10 : s'.regUpsF = s.regUpsF := by rw [← h2]
      have e11 : s'.regUpsG = s.regUpsG := by rw [← h2]
      have e12 : s'.claimLog = s.claimLog := by rw [← h2]
      have e13 : s'.fLog = s.fLog := by rw [← h2]
      have e14 : s'.gLog = s.gLog := by rw [← h2]
      have e15 : s'.gloc = Function.update s.gloc j GLoc.gWait := by rw [← h2]
      have e16 : s'.ploc = s.ploc := by rw [← h2]
      have e17 : s'.pret = s.pret := by rw [← h2]
      have e18 : s'.playerStat = s.playerStat := by rw [← h2]
      have e19 : s'.claimLog.length = s.claimLog.length := by rw [e12]
      obtain ⟨hg1W, hg2W, hg3W⟩ := gcnt_upd3 e15 hloc
      simp only [gHoldW, gReadW, gSigW] at hg1W hg2W hg3W
      have hpcpHoldW : pcnt s' pHoldW = pcnt s pHoldW := by unfold pcnt; rw [e16]
      have hpcwtUpW : pcnt s' wtUpW = pcnt s wtUpW := by unfold pcnt; rw [e16]
      have hpcregDownW : pcnt s' regDownW = pcnt s regDownW := by unfold pcnt; rw [e16]
      have hpcgwUpW : pcnt s' gwUpW = pcnt s gwUpW := by unfold pcnt; rw [e16]
      have hpcfReadW : pcnt s' fReadW = pcnt s fReadW := by unfold pcnt; rw [e16]
      have hpcfSigW : pcnt s' fSigW = pcnt s fSigW := by unfold pcnt; rw [e16]
      have hpcrwtPendW : pcnt s' rwtPendW = pcnt s rwtPendW := by unfold pcnt; rw [e16]
      have i01 := hInv.mutexEq
      have i02 := hInv.wtEq
      have i03 := hInv.gwtEq
      have i04 := hInv.regEq
      have i05 := hInv.teamIdEq
      have i06 := hInv.claimLen
      have i07 := hInv.rwtEq
      have i08 := hInv.pfreeNonneg
      have i09 := hInv.gfreeNonneg
      have hFL : ∃ pf, pf ≤ 3 ∧ s'.regUpsF + pcnt s' fSigW = 3 * s'.nClaims + pf ∧ s'.fLog = padThree s'.claimLog ++ List.replicate pf s'.teamId := by
        obtain ⟨pf, hf1, hf2, hf3⟩ := hInv.fLogEq
        exact ⟨pf, hf1, by omega, by rw [e13, e12, e08]; exact hf3⟩
      have hGL : ∃ pg, pg ≤ 1 ∧ s'.regUpsG + gcnt s' gSigW = s'.nClaims + pg ∧ s'.gLog = s'.claimLog ++ List.replicate pg s'.teamId := by
        obtain ⟨pg, hg1, hg2, hg3⟩ := hInv.gLogEq
        exact ⟨pg, hg1, by omega, by rw [e14, e12, e08]; exact hg3⟩
      exact {
        roundBound := by intro j k b hj; rw [e16] at hj; exact hInv.roundBound j k b hj,
        lateState := by intro j hj; rw [e16] at hj; rw [e17, e18]; exact hInv.lateState j hj,
        preRetZero := by intro j hj; rw [e16] at hj; rw [e17]; exact hInv.preRetZero j hj,
        mutexEq := by omega, wtEq := by omega, gwtEq := by omega,
        regEq := by omega, teamIdEq := by omega, claimLen := by omega,
        rwtEq := by omega, pfreeNonneg := by omega, gfreeNonneg := by omega,
        fLogEq := hFL, gLogEq := hGL }
    | gWait =>
      simp only [applyEv, hloc] at h
      by_cases hm : s.goaliesWaitTeam = 0
      · rw [if_pos hm] at h; exact Option.noConfusion h
      rw [if_neg hm] at h
      have h2 := Option.some.inj h
      have e01 : s'.mutex = s.mutex := by rw [← h2]
      have e02 : s'.playersWaitTeam = s.playersWaitTeam := by rw [← h2]
      have e03 : s'.goaliesWaitTeam = s.goaliesWaitTeam - 1 := by rw [← h2]
      have e04 : s'.playerRegistered = s.playerRegistered := by rw [← h2]
      have e05 : s'.refereeWaitTeams = s.refereeWaitTeams := by rw [← h2]
      have e06 : s'.playersFree = s.playersFree := by rw [← h2]
      have e07 : s'.goaliesFree = s.goaliesFree := by rw [← h2]
      have e08 : s'.teamId = s.teamId := by rw [← h2]
      have e09 : s'.nClaims = s.nClaims := by rw [← h2]
      have e10 : s'.regUpsF = s.regUpsF := by rw [← h2]
      have e11 : s'.regUpsG = s.regUpsG := by rw [← h2]
      have e12 : s'.claimLog = s.claimLog := by rw [← h2]
      have e13 : s'.fLog = s.fLog := by rw [← h2]
      have e14 : s'.gLog = s.gLog := by rw [← h2]
      have e15 : s'.gloc = Function.update s.gloc j GLoc.gRead := by rw [← h2]
      have e16 : s'.ploc = s.ploc := by rw [← h2]
      have e17 : s'.pret = s.pret := by rw [← h2]
      have e18 : s'.playerStat = s.playerStat := by rw [← h2]
      have e19 : s'.claimLog.length = s.claimLog.length := by rw [e12]
      obtain ⟨hg1W, hg2W, hg3W⟩ := gcnt_upd3 e15 hloc
      simp only [gHoldW, gReadW, gSigW] at hg1W hg2W hg3W
      have hpcpHoldW : pcnt s' pHoldW = pcnt s pHoldW := by unfold pcnt; rw [e16]
      have hpcwtUpW : pcnt s' wtUpW = pcnt s wtUpW := by unfold pcnt; rw [e16]
      have hpcregDownW : pcnt s' regDownW = pcnt s regDownW := by unfold pcnt; rw [e16]
      have hpcgwUpW : pcnt s' gwUpW = pcnt s gwUpW := by unfold pcnt; rw [e16]
      have hpcfReadW : pcnt s' fReadW = pcnt s fReadW := by unfold pcnt; rw [e16]
      have hpcfSigW : pcnt s' fSigW = pcnt s fSigW := by unfold pcnt; rw [e16]
      have hpcrwtPendW : pcnt s' rwtPendW = pcnt s rwtPendW := by unfold pcnt; rw [e16]
      have i01 := hInv.mutexEq
      have i02 := hInv.wtEq
      have i03 := hInv.gwtEq
      have i04 := hInv.regEq
      have i05 := hInv.teamIdEq
      have i06 := hInv.claimLen
      have i07 := hInv.rwtEq
      have i08 := hInv.pfreeNonneg
      have i09 := hInv.gfreeNonneg
      have hFL : ∃ pf, pf ≤ 3 ∧ s'.regUpsF + pcnt s' fSigW = 3 * s'.nClaims + pf ∧ s'.fLog = padThree s'.claimLog ++ List.replicate pf s'.teamId := by
        obtain ⟨pf, hf1, hf2, hf3⟩ := hInv.fLogEq
        exact ⟨pf, hf1, by omega, by rw [e13, e12, e08]; exact hf3⟩
      have hGL : ∃ pg, pg ≤ 1 ∧ s'.regUpsG + gcnt s' gSigW = s'.nClaims + pg ∧ s'.gLog = s'.claimLog ++ List.replicate pg s'.teamId := by
        obtain ⟨pg, hg1, hg2, hg3⟩ := hInv.gLogEq
        exact ⟨pg, hg1, by omega, by rw [e14, e12, e08]; exact hg3⟩
      exact {
        roundBound := by intro j k b hj; rw [e16] at hj; exact hInv.roundBound j k b hj,
        lateState := by intro j hj; rw [e16] at hj; rw [e17, e18]; exact hInv.lateState j hj,
        preRetZero := by intro j hj; rw [e16] at hj; rw [e17]; exact hInv.preRetZero j hj,
        mutexEq := by omega, wtEq := by omega, gwtEq := by omega,
        regEq := by omega, teamIdEq := by omega, claimLen := by omega,
        rwtEq := by omega, pfreeNonneg := by omega, gfreeNonneg := by omega,
        fLogEq := hFL, gLogEq := hGL }
    | gRead =>
      simp only [applyEv, hloc] at h
      have h2 := Option.some.inj h
      have hcap1 : pcnt s gwUpW ≤ 1 := pcnt_gwUpW_le hInv
      have hone : (1 : Nat) ≤ gcnt s gReadW := by
        have := single_le_gcnt s gReadW j
        rw [hloc] at this; simpa [gReadW] using this
      have e01 : s'.mutex = s.mutex := by rw [← h2]
      have e02 : s'.playersWaitTeam = s.playersWaitTeam := by rw [← h2]
      have e03 : s'.goaliesWaitTeam = s.goaliesWaitTeam := by rw [← h2]
      have e04 : s'.playerRegistered = s.playerRegistered := by rw [← h2]
      have e05 : s'.refereeWaitTeams = s.refereeWaitTeams := by rw [← h2]
      have e06 : s'.playersFree = s.playersFree := by rw [← h2]
      have e07 : s'.goaliesFree = s.goaliesFree := by rw [← h2]
      have e08 : s'.teamId = s.teamId := by rw [← h2]
      have e09 : s'.nClaims = s.nClaims := by rw [← h2]
      have e10 : s'.regUpsF = s.regUpsF := by rw [← h2]
      have e11 : s'.regUpsG = s.regUpsG := by rw [← h2]
      have e12 : s'.claimLog = s.claimLog := by rw [← h2]
      have e13 : s'.fLog = s.fLog := by rw [← h2]
      have e14 : s'.gLog = s.gLog ++ [s.teamId] := by rw [← h2]
      have e15 : s'.gloc = Function.update s.gloc j GLoc.gSig := by rw [← h2]
      have e16 : s'.ploc = s.ploc := by rw [← h2]
      have e17 : s'.pret = s.pret := by rw [← h2]
      have e18 : s'.playerStat = s.playerStat := by rw [← h2]
      have e19 : s'.claimLog.length = s.claimLog.length := by rw [e12]
      obtain ⟨hg1W, hg2W, hg3W⟩ := gcnt_upd3 e15 hloc
      simp only [gHoldW, gReadW, gSigW] at hg1W hg2W hg3W
      have hpcpHoldW : pcnt s' pHoldW = pcnt s pHoldW := by unfold pcnt; rw [e16]
      have hpcwtUpW : pcnt s' wtUpW = pcnt s wtUpW := by unfold pcnt; rw [e16]
      have hpcregDownW : pcnt s' regDownW = pcnt s regDownW := by unfold pcnt; rw [e16]
      have hpcgwUpW : pcnt s' gwUpW = pcnt s gwUpW := by unfold pcnt; rw [e16]
      have hpcfReadW : pcnt s' fReadW = pcnt s fReadW := by unfold pcnt; rw [e16]
      have hpcfSigW : pcnt s' fSigW = pcnt s fSigW := by unfold pcnt; rw [e16]
      have hpcrwtPendW : pcnt s' rwtPendW = pcnt s rwtPendW := by unfold pcnt; rw [e16]
      have i01 := hInv.mutexEq
      have i02 := hInv.wtEq
      have i03 := hInv.gwtEq
      have i04 := hInv.regEq
      have i05 := hInv.teamIdEq
      have i06 := hInv.claimLen
      have i07 := hInv.rwtEq
      have i08 := hInv.pfreeNonneg
      have i09 := hInv.gfreeNonneg
      have hFL : ∃ pf, pf ≤ 3 ∧ s'.regUpsF + pcnt s' fSigW = 3 * s'.nClaims + pf ∧ s'.fLog = padThree s'.claimLog ++ List.replicate pf s'.teamId := by
        obtain ⟨pf, hf1, hf2, hf3⟩ := hInv.fLogEq
        exact ⟨pf, hf1, by omega, by rw [e13, e12, e08]; exact hf3⟩
      have hGL : ∃ pg, pg ≤ 1 ∧ s'.regUpsG + gcnt s' gSigW = s'.nClaims + pg ∧ s'.gLog = s'.claimLog ++ List.replicate pg s'.teamId := by
        obtain ⟨pg, hg1, hg2, hg3⟩ := hInv.gLogEq
        have hpg : pg = 0 := by omega
        subst hpg
        refine ⟨1, by omega, by omega, ?_⟩
        rw [e14, e12, e08, hg3]
        simp [List.replicate]
      exact {
        roundBound := by intro j k b hj; rw [e16] at hj; exact hInv.roundBound j k b hj,
        lateState := by intro j hj; rw [e16] at hj; rw [e17, e18]; exact hInv.lateState j hj,
        preRetZero := by intro j hj; rw [e16] at hj; rw [e17]; exact hInv.preRetZero j hj,
        mutexEq := by omega, wtEq := by omega, gwtEq := by omega,
        regEq := by omega, teamIdEq := by omega, claimLen := by omega,
        rwtEq := by omega, pfreeNonneg := by omega, gfreeNonneg := by omega,
        fLogEq := hFL, gLogEq := hGL }
    | gSig =>
      simp only [applyEv, hloc] at h
      have h2 := Option.some.inj h
      have e01 : s'.mutex = s.mutex := by rw [← h2]
      have e02 : s'.playersWaitTeam = s.playersWaitTeam := by rw [← h2]
      have e03 : s'.goaliesWaitTeam = s.goaliesWaitTeam := by rw [← h2]
      have e04 : s'.playerRegistered = s.playerRegistered + 1 := by rw [← h2]
      have e05 : s'.refereeWaitTeams = s.refereeWaitTeams := by rw [← h2]
      have e06 : s'.playersFree = s.playersFree := by rw [← h2]
      have e07 : s'.goaliesFree = s.goaliesFree := by rw [← h2]
      have e08 : s'.teamId = s.teamId := by rw [← h2]
      have e09 : s'.nClaims = s.nClaims := by rw [← h2]
      have e10 : s'.regUpsF = s.regUpsF := by rw [← h2]
      have e11 : s'.regUpsG = s.regUpsG + 1 := by rw [← h2]
      have e12 : s'.claimLog = s.claimLog := by rw [← h2]
      have e13 : s'.fLog = s.fLog := by rw [← h2]
      have e14 : s'.gLog = s.gLog := by rw [← h2]
      have e15 : s'.gloc = Function.update s.gloc j GLoc.gEnd := by rw [← h2]
      have e16 : s'.ploc = s.ploc := by rw [← h2]
      have e17 : s'.pret = s.pret := by rw [← h2]
      have e18 : s'.playerStat = s.playerStat := by rw [← h2]
      have e19 : s'.claimLog.length = s.claimLog.length := by rw [e12]
      obtain ⟨hg1W, hg2W, hg3W⟩ := gcnt_upd3 e15 hloc
      simp only [gHoldW, gReadW, gSigW] at hg1W hg2W hg3W
      have hpcpHoldW : pcnt s' pHoldW = pcnt s pHoldW := by unfold pcnt; rw [e16]
      have hpcwtUpW : pcnt s' wtUpW = pcnt s wtUpW := by unfold pcnt; rw [e16]
      have hpcregDownW : pcnt s' regDownW = pcnt s regDownW := by unfold pcnt; rw [e16]
      have hpcgwUpW : pcnt s' gwUpW = pcnt s gwUpW := by unfold pcnt; rw [e16]
      have hpcfReadW : pcnt s' fReadW = pcnt s fReadW := by unfold pcnt; rw [e16]
      have hpcfSigW : pcnt s' fSigW = pcnt s fSigW := by unfold pcnt; rw [e16]
      have hpcrwtPendW : pcnt s' rwtPendW = pcnt s rwtPendW := by unfold pcnt; rw [e16]
      have i01 := hInv.mutexEq
      have i02 := hInv.wtEq
      have i03 := hInv.gwtEq
      have i04 := hInv.regEq
      have i05 := hInv.teamIdEq
      have i06 := hInv.claimLen
      have i07 := hInv.rwtEq
      have i08 := hInv.pfreeNonneg
      have i09 := hInv.gfreeNonneg
      have hFL : ∃ pf, pf ≤ 3 ∧ s'.regUpsF + pcnt s' fSigW = 3 * s'.nClaims + pf ∧ s'.fLog = padThree s'.claimLog ++ List.replicate pf s'.teamId := by
        obtain ⟨pf, hf1, hf2, hf3⟩ := hInv.fLogEq
        exact ⟨pf, hf1, by omega, by rw [e13, e12, e08]; exact hf3⟩
      have hGL : ∃ pg, pg ≤ 1 ∧ s'.regUpsG + gcnt s' gSigW = s'.nClaims + pg ∧ s'.gLog = s'.claimLog ++ List.replicate pg s'.teamId := by
        obtain ⟨pg, hg1, hg2, hg3⟩ := hInv.gLogEq
        exact ⟨pg, hg1, by omega, by rw [e14, e12, e08]; exact hg3⟩
      exact {
        roundBound := by intro j k b hj; rw [e16] at hj; exact hInv.roundBound j k b hj,
        lateState := by intro j hj; rw [e16] at hj; rw [e17, e18]; exact hInv.lateState j hj,
        preRetZero := by intro j hj; rw [e16] at hj; rw [e17]; exact hInv.preRetZero j hj,
        mutexEq := by omega, wtEq := by omega, gwtEq := by omega,
        regEq := by omega, teamIdEq := by omega, claimLen := by omega,
        rwtEq := by omega, pfreeNonneg := by omega, gfreeNonneg := by omega,
        fLogEq := hFL, gLogEq := hGL }
    | gEnd =>
      simp only [applyEv, hloc] at h
      exact Option.noConfusion h

/-- Every reachable state satisfies the invariant. -/
theorem invReach {NP NG : Nat} {s : Sys NP NG} (h : Reach (initSys NP NG) s) :
    Inv s := by
  induction h with
  | refl => exact invInit NP NG
  | tail _ hstep ih =>
    obtain ⟨e, happ⟩ := hstep
    exact invStep ih e happ

set_option maxHeartbeats 1600000 in
/-- Exhaustive classification of how a single step can touch `teamId`,
`playersFree`, `goaliesFree`, `claimLog` and `refereeWaitTeams`: the only
step changing `teamId` is a leader executing `ret = teamId++` at `lClaim`;
the only decrements of the free counters are the guarded leader
reservation; the only increments are follower/goalie registration; the
only `refereeWaitTeams` signal is the leader at `lRef`. -/
theorem stepEffects {NP NG : Nat} {s s' : Sys NP NG} {e : Event NP NG}
    (h : applyEv e s = some s') :
    (∃ i, e = Event.pstep i ∧ s.ploc i = PLoc.lClaim ∧ s'.teamId = s.teamId + 1 ∧
       s'.pret i = s.teamId ∧ s'.claimLog = s.claimLog ++ [s.teamId] ∧
       s'.playersFree = s.playersFree ∧ s'.goaliesFree = s.goaliesFree ∧
       s'.refereeWaitTeams = s.refereeWaitTeams) ∨
    (∃ i, e = Event.pstep i ∧ s.ploc i = PLoc.cCrit ∧ ¬ s.playersArrived + 1 > 8 ∧
       3 ≤ s.playersFree ∧ s.goaliesFree ≠ 0 ∧
       s'.playersFree = s.playersFree - 3 ∧ s'.goaliesFree = s.goaliesFree - 1 ∧
       s'.teamId = s.teamId ∧ s'.claimLog = s.claimLog ∧
       s'.refereeWaitTeams = s.refereeWaitTeams) ∨
    (∃ i, e = Event.pstep i ∧ s.ploc i = PLoc.cCrit ∧
       s'.playersFree = s.playersFree + 1 ∧ s'.goaliesFree = s.goaliesFree ∧
       s'.teamId = s.teamId ∧ s'.claimLog = s.claimLog ∧
       s'.refereeWaitTeams = s.refereeWaitTeams) ∨
    (∃ j, e = Event.gstep j ∧ s.gloc j = GLoc.gCrit ∧
       s'.goaliesFree = s.goaliesFree + 1 ∧ s'.playersFree = s.playersFree ∧
       s'.teamId = s.teamId ∧ s'.claimLog = s.claimLog ∧
       s'.refereeWaitTeams = s.refereeWaitTeams) ∨
    (∃ i, e = Event.pstep i ∧ s.ploc i = PLoc.lRef ∧
       s'.refereeWaitTeams = s.refereeWaitTeams + 1 ∧ s'.teamId = s.teamId ∧
       s'.playersFree = s.playersFree ∧ s'.goaliesFree = s.goaliesFree ∧
       s'.claimLog = s.claimLog) ∨
    (s'.teamId = s.teamId ∧ s'.playersFree = s.playersFree ∧
     s'.goaliesFree = s.goaliesFree ∧ s'.claimLog = s.claimLog ∧
     s'.refereeWaitTeams = s.refereeWaitTeams) := by
  cases e with
  | pstep i =>
    cases hloc : s.ploc i with
    | start =>
      simp only [applyEv, hloc] at h
      by_cases hm : s.mutex = 0
      · rw [if_pos hm] at h; exact Option.noConfusion h
      rw [if_neg hm] at h
      have h2 := Option.some.inj h
      exact Or.inr (Or.inr (Or.inr (Or.inr (Or.inr ⟨by rw [← h2], by rw [← h2], by rw [← h2], by rw [← h2], by rw [← h2]⟩))))
    | aCrit =>
      simp only [applyEv, hloc] at h
      have h2 := Option.some.inj h
      exact Or.inr (Or.inr (Or.inr (Or.inr (Or.inr ⟨by rw [← h2], by rw [← h2], by rw [← h2], by rw [← h2], by rw [← h2]⟩))))
    | aUnlock =>
      simp only [applyEv, hloc] at h
      have h2 := Option.some.inj h
      exact Or.inr (Or.inr (Or.inr (Or.inr (Or.inr ⟨by rw [← h2], by rw [← h2], by rw [← h2], by rw [← h2], by rw [← h2]⟩))))
    | cPre =>
      simp only [applyEv, hloc] at h
      by_cases hm : s.mutex = 0
      · rw [if_pos hm] at h; exact Option.noConfusion h
      rw [if_neg hm] at h
      have h2 := Option.some.inj h
      exact Or.inr (Or.inr (Or.inr (Or.inr (Or.inr ⟨by rw [← h2], by rw [← h2], by rw [← h2], by rw [← h2], by rw [← h2]⟩))))
    | cCrit =>
      simp only [applyEv, hloc] at h
      by_cases hlate : s.playersArrived + 1 > 8
      · rw [if_pos hlate] at h
        have h2 := Option.some.inj h
        exact Or.inr (Or.inr (Or.inr (Or.inr (Or.inr ⟨by rw [← h2], by rw [← h2], by rw [← h2], by rw [← h2], by rw [← h2]⟩))))
      rw [if_neg hlate] at h
      by_cases hel : 3 ≤ s.playersFree ∧ s.goaliesFree ≠ 0
      · rw [if_pos hel] at h
        have h2 := Option.some.inj h
        exact Or.inr (Or.inl ⟨i, rfl, hloc, hlate, hel.1, hel.2, by rw [← h2],
          by rw [← h2], by rw [← h2], by rw [← h2], by rw [← h2]⟩)
      rw [if_neg hel] at h
      have h2 := Option.some.inj h
      exact Or.inr (Or.inr (Or.inl ⟨i, rfl, hloc, by rw [← h2], by rw [← h2],
        by rw [← h2], by rw [← h2], by rw [← h2]⟩))
    | lRound k b =>
      cases b with
      | false =>
        simp only [applyEv, hloc] at h
        have h2 := Option.some.inj h
        exact Or.inr (Or.inr (Or.inr (Or.inr (Or.inr ⟨by rw [← h2], by rw [← h2], by rw [← h2], by rw [← h2], by rw [← h2]⟩))))
      | true =>
        simp only [applyEv, NUMTEAMPLAYERS, hloc] at h
        by_cases hm : s.playerRegistered = 0
        · rw [if_pos hm] at h; exact Option.noConfusion h
        rw [if_neg hm] at h
        have h2 := Option.some.inj h
        exact Or.inr (Or.inr (Or.inr (Or.inr (Or.inr ⟨by rw [← h2], by rw [← h2], by rw [← h2], by rw [← h2], by rw [← h2]⟩))))
    | lGoalie b =>
      cases b with
      | false =>
        simp only [applyEv, hloc] at h
        have h2 := Option.some.inj h
        exact Or.inr (Or.inr (Or.inr (Or.inr (Or.inr ⟨by rw [← h2], by rw [← h2], by rw [← h2], by rw [← h2], by rw [← h2]⟩))))
      | true =>
        simp only [applyEv, hloc] at h
        by_cases hm : s.playerRegistered = 0
        · rw [if_pos hm] at h; exact Option.noConfusion h
        rw [if_neg hm] at h
        have h2 := Option.some.inj h
        exact Or.inr (Or.inr (Or.inr (Or.inr (Or.inr ⟨by rw [← h2], by rw [← h2], by rw [← h2], by rw [← h2], by rw [← h2]⟩))))
    | lClaim =>
      simp only [applyEv, hloc] at h
      have h2 := Option.some.inj h
      exact Or.inl ⟨i, rfl, hloc, by rw [← h2], by rw [← h2]; simp,
        by rw [← h2], by rw [← h2], by rw [← h2], by rw [← h2]⟩
    | lUnlock =>
      simp only [applyEv, hloc] at h
      have h2 := Option.some.inj h
      exact Or.inr (Or.inr (Or.inr (Or.inr (Or.inr ⟨by rw [← h2], by rw [← h2], by rw [← h2], by rw [← h2], by rw [← h2]⟩))))
    | lRef =>
      simp only [applyEv, hloc] at h
      have h2 := Option.some.inj h
      exact Or.inr (Or.inr (Or.inr (Or.inr (Or.inl ⟨i, rfl, hloc, by rw [← h2],
        by rw [← h2], by rw [← h2], by rw [← h2], by rw [← h2]⟩))))
    | lateUnlock =>
      simp only [applyEv, hloc] at h
      have h2 := Option.some.inj h
      exact Or.inr (Or.inr (Or.inr (Or.inr (Or.inr ⟨by rw [← h2], by rw [← h2], by rw [← h2], by rw [← h2], by rw [← h2]⟩))))
    | fUnlock =>
      simp only [applyEv, hloc] at h
      have h2 := Option.some.inj h
      exact Or.inr (Or.inr (Or.inr (Or.inr (Or.inr ⟨by rw [← h2], by rw [← h2], by rw [← h2], by rw [← h2], by rw [← h2]⟩))))
    | fWait =>
      simp only [applyEv, hloc] at h
      by_cases hm : s.playersWaitTeam = 0
      · rw [if_pos hm] at h; exact Option.noConfusion h
      rw [if_neg hm] at h
      have h2 := Option.some.inj h
      exact Or.inr (Or.inr (Or.inr (Or.inr (Or.inr ⟨by rw [← h2], by rw [← h2], by rw [← h2], by rw [← h2], by rw [← h2]⟩))))
    | fRead =>
      simp only [applyEv, hloc] at h
      have h2 := Option.some.inj h
      exact Or.inr (Or.inr (Or.inr (Or.inr (Or.inr ⟨by rw [← h2], by rw [← h2], by rw [← h2], by rw [← h2], by rw [← h2]⟩))))
    | fSig =>
      simp only [applyEv, hloc] at h
      have h2 := Option.some.inj h
      exact Or.inr (Or.inr (Or.inr (Or.inr (Or.inr ⟨by rw [← h2], by rw [← h2], by rw [← h2], by rw [← h2], by rw [← h2]⟩))))
    | ctEnd =>
      simp only [applyEv, hloc] at h
      by_cases hr : s.pret i = 0
      · rw [if_pos hr] at h
        have h2 := Option.some.inj h
        exact Or.inr (Or.inr (Or.inr (Or.inr (Or.inr ⟨by rw [← h2], by rw [← h2], by rw [← h2], by rw [← h2], by rw [← h2]⟩))))
      rw [if_neg hr] at h
      have h2 := Option.some.inj h
      exact Or.inr (Or.inr (Or.inr (Or.inr (Or.inr ⟨by rw [← h2], by rw [← h2], by rw [← h2], by rw [← h2], by rw [← h2]⟩))))
    | wrPre =>
      simp only [applyEv, hloc] at h
      by_cases hm : s.mutex = 0
      · rw [if_pos hm] at h; exact Option.noConfusion h
      rw [if_neg hm] at h
      have h2 := Option.some.inj h
      exact Or.inr (Or.inr (Or.inr (Or.inr (Or.inr ⟨by rw [← h2], by rw [← h2], by rw [← h2], by rw [← h2], by rw [← h2]⟩))))
    | wrCrit =>
      simp only [applyEv, hloc] at h
      have h2 := Option.some.inj h
      exact Or.inr (Or.inr (Or.inr (Or.inr (Or.inr ⟨by rw [← h2], by rw [← h2], by rw [← h2], by rw [← h2], by rw [← h2]⟩))))
    | wrUnlock =>
      simp only [applyEv, hloc] at h
      have h2 := Option.some.inj h
      exact Or.inr (Or.inr (Or.inr (Or.inr (Or.inr ⟨by rw [← h2], by rw [← h2], by rw [← h2], by rw [← h2], by rw [← h2]⟩))))
    | wrWait =>
      simp only [applyEv, hloc] at h
      by_cases hm : s.playersWaitReferee = 0
      · rw [if_pos hm] at h; exact Option.noConfusion h
      rw [if_neg hm] at h
      have h2 := Option.some.inj h
      exact Or.inr (Or.inr (Or.inr (Or.inr (Or.inr ⟨by rw [← h2], by rw [← h2], by rw [← h2], by rw [← h2], by rw [← h2]⟩))))
    | puPre =>
      simp only [applyEv, hloc] at h
      by_cases hm : s.mutex = 0
      · rw [if_pos hm] at h; exact Option.noConfusion h
      rw [if_neg hm] at h
      have h2 := Option.some.inj h
      exact Or.inr (Or.inr (Or.inr (Or.inr (Or.inr ⟨by rw [← h2], by rw [← h2], by rw [← h2], by rw [← h2], by rw [← h2]⟩))))
    | puCrit =>
      simp only [applyEv, hloc] at h
      have h2 := Option.some.inj h
      exact Or.inr (Or.inr (Or.inr (Or.inr (Or.inr ⟨by rw [← h2], by rw [← h2], by rw [← h2], by rw [← h2], by rw [← h2]⟩))))
    | puSig =>
      simp only [applyEv, hloc] at h
      have h2 := Option.some.inj h
      exact Or.inr (Or.inr (Or.inr (Or.inr (Or.inr ⟨by rw [← h2], by rw [← h2], by rw [← h2], by rw [← h2], by rw [← h2]⟩))))
    | puUnlock =>
      simp only [applyEv, hloc] at h
      have h2 := Option.some.inj h
      exact Or.inr (Or.inr (Or.inr (Or.inr (Or.inr ⟨by rw [← h2], by rw [← h2], by rw [← h2], by rw [← h2], by rw [← h2]⟩))))
    | puWait =>
      simp only [applyEv, hloc] at h
      by_cases hm : s.playersWaitEnd = 0
      · rw [if_pos hm] at h; exact Option.noConfusion h
      rw [if_neg hm] at h
      have h2 := Option.some.inj h
      exact Or.inr (Or.inr (Or.inr (Or.inr (Or.inr ⟨by rw [← h2], by rw [← h2], by rw [← h2], by rw [← h2], by rw [← h2]⟩))))
    | fin =>
      simp only [applyEv, hloc] at h
      exact Option.noConfusion h
  | gstep j =>
    cases hloc : s.gloc j with
    | gStart =>
      simp only [applyEv, hloc] at h
      by_cases hm : s.mutex = 0
      · rw [if_pos hm] at h; exact Option.noConfusion h
      rw [if_neg hm] at h
      have h2 := Option.some.inj h
      exact Or.inr (Or.inr (Or.inr (Or.inr (Or.inr ⟨by rw [← h2], by rw [← h2], by rw [← h2], by rw [← h2], by rw [← h2]⟩))))
    | gCrit =>
      simp only [applyEv, hloc] at h
      have h2 := Option.some.inj h
      exact Or.inr (Or.inr (Or.inr (Or.inl ⟨j, rfl, hloc, by rw [← h2],
        by rw [← h2], by rw [← h2], by rw [← h2], by rw [← h2]⟩)))
    | gUnlock =>
      simp only [applyEv, hloc] at h
      have h2 := Option.some.inj h
      exact Or.inr (Or.inr (Or.inr (Or.inr (Or.inr ⟨by rw [← h2], by rw [← h2], by rw [← h2], by rw [← h2], by rw [← h2]⟩))))
    | gWait =>
      simp only [applyEv, hloc] at h
      by_cases hm : s.goaliesWaitTeam = 0
      · rw [if_pos hm] at h; exact Option.noConfusion h
      rw [if_neg hm] at h
      have h2 := Option.some.inj h
      exact Or.inr (Or.inr (Or.inr (Or.inr (Or.inr ⟨by rw [← h2], by rw [← h2], by rw [← h2], by rw [← h2], by rw [← h2]⟩))))
    | gRead =>
      simp only [applyEv, hloc] at h
      have h2 := Option.some.inj h
      exact Or.inr (Or.inr (Or.inr (Or.inr (Or.inr ⟨by rw [← h2], by rw [← h2], by rw [← h2], by rw [← h2], by rw [← h2]⟩))))
    | gSig =>
      simp only [applyEv, hloc] at h
      have h2 := Option.some.inj h
      exact Or.inr (Or.inr (Or.inr (Or.inr (Or.inr ⟨by rw [← h2], by rw [← h2], by rw [← h2], by rw [← h2], by rw [← h2]⟩))))
    | gEnd =>
      simp only [applyEv, hloc] at h
      exact Option.noConfusion h

set_option maxRecDepth 10000 in
theorem c4State_run : runList c4Sched (initSys 4 1) = some c4State := rfl

set_option maxRecDepth 10000 in
theorem c4Mid_run : runList (c4Sched.take 25) (initSys 4 1) = some c4Mid := rfl

set_option maxRecDepth 10000 in
theorem c5State_run : runList c5Sched (initSys 4 1) = some c5State := rfl

set_option maxRecDepth 10000 in
theorem c3State_run : runList c3Sched (initSys 9 1) = some c3State := rfl

set_option maxRecDepth 10000 in
theorem c7Final_run : runList c7Sched (initSys 9 2) = some c7Final := rfl

set_option maxRecDepth 10000 in
theorem c7Late_run : runList (c7Sched.take 135) (initSys 9 2) = some c7Late := rfl

theorem c4State_reach : Reach (initSys 4 1) c4State :=
  runList_reach _ _ _ c4State_run

theorem c4Mid_reach : Reach (initSys 4 1) c4Mid :=
  runList_reach _ _ _ c4Mid_run

theorem c5State_reach : Reach (initSys 4 1) c5State :=
  runList_reach _ _ _ c5State_run

theorem c3State_reach : Reach (initSys 9 1) c3State :=
  runList_reach _ _ _ c3State_run

theorem c7Final_reach : Reach (initSys 9 2) c7Final :=
  runList_reach _ _ _ c7Final_run

theorem c7Late_reach : Reach (initSys 9 2) c7Late :=
  runList_reach _ _ _ c7Late_run

/-- C1: For every completed team formation, exactly one leader
increments `teamId`; the increment happens only after all
`teamSize - 1 = 3` player handshakes and the goalie handshake have
completed; `refereeWaitTeams` is signalled exactly once per formation;
and the id returned by the leader (the pre-increment `teamId`) equals
the id read by every follower recruited in that batch.

Formally: (1) on every reachable state, `teamId` is the initial `1`
plus the number of claimed formations; `refereeWaitTeams` carries one
signal per claimed formation (minus those a leader is about to send,
`rwtPendW`); the follower read log is exactly three copies of each
claimed id in claim order plus at most three reads of the current
`teamId` by the batch in progress, and the goalie read log is one copy
of each claimed id likewise; and a leader standing at `ret = teamId++`
has already collected all `3 + 1` acknowledgements (`playerRegistered`
drained, all three follower handshakes and the goalie handshake
accounted).  (2) The only step that changes `teamId` is a leader at
`lClaim`, it increments by exactly one, returns the pre-increment value
and appends that value to the claim log. -/
theorem claim1_team_formation_protocol {NP NG : Nat} :
    (∀ s : Sys NP NG, Reach (initSys NP NG) s →
      s.teamId = 1 + (s.claimLog.length : Int) ∧
      s.refereeWaitTeams + pcnt s rwtPendW = s.claimLog.length ∧
      (∃ pf ≤ 3, s.fLog = padThree s.claimLog ++ List.replicate pf s.teamId) ∧
      (∃ pg ≤ 1, s.gLog = s.claimLog ++ List.replicate pg s.teamId) ∧
      (∀ i, s.ploc i = PLoc.lClaim →
        s.playerRegistered = 0 ∧ s.playersWaitTeam = 0 ∧ s.goaliesWaitTeam = 0 ∧
        s.regUpsF = 3 * s.claimLog.length + 3 ∧ s.regUpsG = s.claimLog.length + 1)) ∧
    (∀ (s s' : Sys NP NG) (e : Event NP NG), applyEv e s = some s' →
      s'.teamId ≠ s.teamId →
      ∃ i, e = Event.pstep i ∧ s.ploc i = PLoc.lClaim ∧
        s'.teamId = s.teamId + 1 ∧ s'.pret i = s.teamId ∧
        s'.claimLog = s.claimLog ++ [s.teamId]) := by
  constructor
  · intro s hs
    have hI := invReach hs
    have hlen := hI.claimLen
    refine ⟨by rw [hlen]; exact hI.teamIdEq, by rw [hlen]; exact hI.rwtEq, ?_, ?_, ?_⟩
    · obtain ⟨pf, h1, _, h3⟩ := hI.fLogEq
      exact ⟨pf, h1, h3⟩
    · obtain ⟨pg, h1, _, h3⟩ := hI.gLogEq
      exact ⟨pg, h1, h3⟩
    · intro i hi
      obtain ⟨z1, z2, z3, z4, z5, z6, z7, z8, z9⟩ := claimFreeze hI hi
      exact ⟨z3, z1, z2, by rw [hlen]; exact z8, by rw [hlen]; exact z9⟩
  · intro s s' e h hne
    rcases stepEffects h with
        ⟨i, he, hl, h1, h2, h3, _, _, _⟩ |
        ⟨i, _, _, _, _, _, _, _, ht, _, _⟩ |
        ⟨i, _, _, _, _, ht, _, _⟩ |
        ⟨j, _, _, _, _, ht, _, _⟩ |
        ⟨i, _, _, _, ht, _, _, _⟩ |
        ⟨ht, _, _, _, _⟩
    · exact ⟨i, he, hl, h1, h2, h3⟩
    all_goals exact absurd ht hne

/-- C2: an arrival that finds more than 8 players arrived (after its
own increment) is marked `LATE`, a snapshot is recorded, and the
function returns `0` having performed no signal or wait on any
rendezvous channel: the late branch touches no channel counter, the
subsequent step only releases the mutex, a late player still holds
`ret = 0` at the return, `main` then skips `waitReferee`/`playUntilEnd`
(location `fin`), and a finished player takes no further step. -/
theorem claim2_late_arrival {NP NG : Nat} :
    (∀ (s : Sys NP NG) (i : Fin NP), s.ploc i = PLoc.cCrit →
      s.playersArrived + 1 > 8 →
      ∃ s', applyEv (Event.pstep i) s = some s' ∧
        s'.playerStat i = PStat.LATE ∧ s'.snaps = s.snaps + 1 ∧
        s'.ploc i = PLoc.lateUnlock ∧ s'.playersArrived = s.playersArrived + 1 ∧
        s'.pret i = s.pret i ∧ s'.mutex = s.mutex ∧
        s'.playersWaitTeam = s.playersWaitTeam ∧
        s'.goaliesWaitTeam = s.goaliesWaitTeam ∧
        s'.playerRegistered = s.playerRegistered ∧
        s'.refereeWaitTeams = s.refereeWaitTeams ∧
        s'.playersWaitReferee = s.playersWaitReferee ∧
        s'.playing = s.playing ∧ s'.playersWaitEnd = s.playersWaitEnd) ∧
    (∀ (s : Sys NP NG) (i : Fin NP), s.ploc i = PLoc.lateUnlock →
      ∃ s', applyEv (Event.pstep i) s = some s' ∧
        s'.ploc i = PLoc.ctEnd ∧ s'.mutex = s.mutex + 1 ∧ s'.pret i = s.pret i ∧
        s'.playersWaitTeam = s.playersWaitTeam ∧
        s'.goaliesWaitTeam = s.goaliesWaitTeam ∧
        s'.playerRegistered = s.playerRegistered ∧
        s'.refereeWaitTeams = s.refereeWaitTeams ∧
        s'.playersWaitReferee = s.playersWaitReferee ∧
        s'.playing = s.playing ∧ s'.playersWaitEnd = s.playersWaitEnd) ∧
    (∀ s : Sys NP NG, Reach (initSys NP NG) s → ∀ i, s.ploc i = PLoc.lateUnlock →
      s.pret i = 0 ∧ s.playerStat i = PStat.LATE) ∧
    (∀ (s : Sys NP NG) (i : Fin NP), s.ploc i = PLoc.ctEnd → s.pret i = 0 →
      ∃ s', applyEv (Event.pstep i) s = some s' ∧ s'.ploc i = PLoc.fin) ∧
    (∀ (s : Sys NP NG) (i : Fin NP), s.ploc i = PLoc.fin →
      applyEv (Event.pstep i) s = none) := by
  refine ⟨?_, ?_, ?_, ?_, ?_⟩
  · intro s i hloc hlate
    simp only [applyEv, hloc]
    rw [if_pos hlate]
    exact ⟨_, rfl, by simp, rfl, by simp, rfl, rfl, rfl, rfl, rfl, rfl, rfl, rfl, rfl, rfl⟩
  · intro s i hloc
    simp only [applyEv, hloc]
    exact ⟨_, rfl, by simp, rfl, rfl, rfl, rfl, rfl, rfl, rfl, rfl, rfl⟩
  · intro s hs i hloc
    exact (invReach hs).lateState i hloc
  · intro s i hloc hret
    simp only [applyEv, hloc]
    rw [if_pos hret]
    exact ⟨_, rfl, by simp⟩
  · intro s i hloc
    simp only [applyEv, hloc]

/-- C3 (amended): an arrival that reaches the branch with at most 8
total arrivals (its own included) and finds at least 3 free players
and a nonzero free-goalie count becomes the leader: in the same atomic
critical-section step, `playersFree` drops by exactly 3, `goaliesFree`
by exactly 1, its status becomes `FORMING_TEAM` and a snapshot is
recorded, all before the mutex is released (the leader is still at a
mutex-holding location and the mutex counter is unchanged); and under
the mutex discipline at most one process is ever inside a critical
region, so no two concurrently-eligible arrivals can both take the
reservation. -/
theorem claim3_leader_reservation {NP NG : Nat} :
    (∀ (s : Sys NP NG) (i : Fin NP), s.ploc i = PLoc.cCrit →
      ¬ s.playersArrived + 1 > 8 → 3 ≤ s.playersFree → s.goaliesFree ≠ 0 →
      ∃ s', applyEv (Event.pstep i) s = some s' ∧
        s'.ploc i = PLoc.lRound 0 false ∧ pHoldW (s'.ploc i) = 1 ∧
        s'.mutex = s.mutex ∧
        s'.playersFree = s.playersFree - 3 ∧ s'.goaliesFree = s.goaliesFree - 1 ∧
        s'.playerStat i = PStat.FORMING_TEAM ∧ s'.snaps = s.snaps + 1) ∧
    (∀ s : Sys NP NG, Reach (initSys NP NG) s →
      (∀ i j : Fin NP, pHoldW (s.ploc i) = 1 → pHoldW (s.ploc j) = 1 → i = j) ∧
      (∀ (i : Fin NP) (j : Fin NG), pHoldW (s.ploc i) = 1 →
        gHoldW (s.gloc j) = 0)) := by
  constructor
  · intro s i hloc hlate hpf hgf
    simp only [applyEv, hloc]
    rw [if_neg hlate, if_pos (And.intro hpf hgf)]
    exact ⟨_, rfl, by simp, by simp [pHoldW], rfl, rfl, rfl, by simp, rfl⟩
  · intro s hs
    have hI := invReach hs
    constructor
    · intro i j hi hj
      by_contra hij
      have h0 := (onlyHolder hI hi).2.1 j (fun hji => hij hji.symm)
      omega
    · intro i j hi
      exact (onlyHolder hI hi).2.2 j

/-- C4 (amended): classification of all rendezvous-channel waits
against mutex possession.  The follower/`waitReferee`/`playUntilEnd`
waits (`playersWaitTeam`, `playersWaitReferee`, `playersWaitEnd`) and
the goalie's `goaliesWaitTeam` wait all happen with the mutex released;
the single exception to the spec's rule is the leader: its
`teamSize - 1` player-handshake waits and its goalie-handshake wait on
`playerRegistered` (lines 197, 207) happen while it still holds the
mutex, which is released only at line 223.  On reachable states a
leader at such a wait really owns the lock (`mutex = 0`) and really
blocks when no acknowledgement is pending. -/
theorem claim4_waits_outside_lock :
    (∀ l : PLoc, isChanWaitP l = true → (pHoldW l = 1 ↔ leaderRegWait l = true)) ∧
    (∀ g : GLoc, isChanWaitG g = true → gHoldW g = 0) ∧
    (∀ (NP NG : Nat) (s : Sys NP NG), Reach (initSys NP NG) s →
      ∀ i, leaderRegWait (s.ploc i) = true →
        isChanWaitP (s.ploc i) = true ∧ pHoldW (s.ploc i) = 1 ∧ s.mutex = 0 ∧
        (s.playerRegistered = 0 → applyEv (Event.pstep i) s = none)) := by
  refine ⟨?_, ?_, ?_⟩
  · intro l hl
    cases l <;>
      first
        | (rename_i b; cases b <;> simp_all [isChanWaitP, pHoldW, leaderRegWait])
        | simp_all [isChanWaitP, pHoldW, leaderRegWait]
  · intro g hg
    cases g <;> simp_all [isChanWaitG, gHoldW]
  · intro NP NG s hs i hl
    have hI := invReach hs
    cases hloc : s.ploc i with
    | lRound k b =>
      cases b with
      | false => rw [hloc] at hl; simp [leaderRegWait] at hl
      | true =>
        have hhold : pHoldW (s.ploc i) = 1 := by rw [hloc]; rfl
        refine ⟨rfl, rfl, (onlyHolder hI hhold).1, ?_⟩
        intro hreg
        simp only [applyEv, hloc]
        rw [if_pos hreg]
    | lGoalie b =>
      cases b with
      | false => rw [hloc] at hl; simp [leaderRegWait] at hl
      | true =>
        have hhold : pHoldW (s.ploc i) = 1 := by rw [hloc]; rfl
        refine ⟨rfl, rfl, (onlyHolder hI hhold).1, ?_⟩
        intro hreg
        simp only [applyEv, hloc]
        rw [if_pos hreg]
    | start => rw [hloc] at hl; simp [leaderRegWait] at hl
    | aCrit => rw [hloc] at hl; simp [leaderRegWait] at hl
    | aUnlock => rw [hloc] at hl; simp [leaderRegWait] at hl
    | cPre => rw [hloc] at hl; simp [leaderRegWait] at hl
    | cCrit => rw [hloc] at hl; simp [leaderRegWait] at hl
    | lClaim => rw [hloc] at hl; simp [leaderRegWait] at hl
    | lUnlock => rw [hloc] at hl; simp [leaderRegWait] at hl
    | lRef => rw [hloc] at hl; simp [leaderRegWait] at hl
    | lateUnlock => rw [hloc] at hl; simp [leaderRegWait] at hl
    | fUnlock => rw [hloc] at hl; simp [leaderRegWait] at hl
    | fWait => rw [hloc] at hl; simp [leaderRegWait] at hl
    | fRead => rw [hloc] at hl; simp [leaderRegWait] at hl
    | fSig => rw [hloc] at hl; simp [leaderRegWait] at hl
    | ctEnd => rw [hloc] at hl; simp [leaderRegWait] at hl
    | wrPre => rw [hloc] at hl; simp [leaderRegWait] at hl
    | wrCrit => rw [hloc] at hl; simp [leaderRegWait] at hl
    | wrUnlock => rw [hloc] at hl; simp [leaderRegWait] at hl
    | wrWait => rw [hloc] at hl; simp [leaderRegWait] at hl
    | puPre => rw [hloc] at hl; simp [leaderRegWait] at hl
    | puCrit => rw [hloc] at hl; simp [leaderRegWait] at hl
    | puSig => rw [hloc] at hl; simp [leaderRegWait] at hl
    | puUnlock => rw [hloc] at hl; simp [leaderRegWait] at hl
    | puWait => rw [hloc] at hl; simp [leaderRegWait] at hl
    | fin => rw [hloc] at hl; simp [leaderRegWait] at hl

/-- C6: on every reachable state `playersFree ≥ 0` and
`goaliesFree ≥ 0`; the only step that decreases either counter is the
leader reservation at the branch point, taken under the mutex in the
same critical-section step as the `playersFree ≥ 3` and
`goaliesFree ≠ 0` checks, decrementing exactly 3 and 1; every other
player step leaves `playersFree` unchanged or increments it by 1. -/
theorem claim6_free_counters {NP NG : Nat} :
    (∀ s : Sys NP NG, Reach (initSys NP NG) s →
      0 ≤ s.playersFree ∧ 0 ≤ s.goaliesFree) ∧
    (∀ (s s' : Sys NP NG) (e : Event NP NG), applyEv e s = some s' →
      s'.playersFree < s.playersFree ∨ s'.goaliesFree < s.goaliesFree →
      ∃ i, e = Event.pstep i ∧ s.ploc i = PLoc.cCrit ∧ pHoldW (s.ploc i) = 1 ∧
        ¬ s.playersArrived + 1 > 8 ∧ 3 ≤ s.playersFree ∧ s.goaliesFree ≠ 0 ∧
        s'.playersFree = s.playersFree - 3 ∧ s'.goaliesFree = s.goaliesFree - 1) ∧
    (∀ (s s' : Sys NP NG) (i : Fin NP), applyEv (Event.pstep i) s = some s' →
      s'.playersFree = s.playersFree ∨ s'.playersFree = s.playersFree + 1 ∨
        (3 ≤ s.playersFree ∧ s'.playersFree = s.playersFree - 3)) := by
  refine ⟨?_, ?_, ?_⟩
  · intro s hs
    have hI := invReach hs
    exact ⟨hI.pfreeNonneg, hI.gfreeNonneg⟩
  · intro s s' e h hlt
    rcases stepEffects h with
        ⟨i, he, hl, _, _, _, hpf, hgf, _⟩ |
        ⟨i, he, hl, h1, h2, h3, h4, h5, _, _, _⟩ |
        ⟨i, _, _, hpf, hgf, _, _, _⟩ |
        ⟨j, _, _, hgf, hpf, _, _, _⟩ |
        ⟨i, _, _, _, _, hpf, hgf, _⟩ |
        ⟨_, hpf, hgf, _, _⟩
    · omega
    · exact ⟨i, he, hl, by rw [hl]; rfl, h1, h2, h3, h4, h5⟩
    · omega
    · omega
    · omega
    · omega
  · intro s s' i h
    rcases stepEffects h with
        ⟨i', _, _, _, _, _, hpf, _, _⟩ |
        ⟨i', _, _, _, h2, _, hpf, _, _, _, _⟩ |
        ⟨i', _, _, hpf, _, _, _, _⟩ |
        ⟨j, he, _, _, _, _, _, _⟩ |
        ⟨i', _, _, _, _, hpf, _, _⟩ |
        ⟨_, hpf, _, _, _⟩
    · exact Or.inl hpf
    · exact Or.inr (Or.inr ⟨h2, hpf⟩)
    · exact Or.inr (Or.inl hpf)
    · exact Event.noConfusion he
    · exact Or.inl hpf
    · exact Or.inl hpf

/-- C10: a zero return from `playerConstituteTeam` is the only
condition under which `main` skips `waitReferee` and `playUntilEnd`
(the `ctEnd` test sends the player to `fin` exactly when its `ret` is
`0`, and to `wrPre` otherwise); a leader returns the pre-increment
`teamId`; hence a leader that claims while `teamId` holds `0` returns
`0` and, at the `main` test, takes the same transition to `fin` as a
`LATE` player, never entering the match lifecycle (and a finished
player takes no step at all). -/
theorem claim10_zero_return {NP NG : Nat} :
    (∀ (s : Sys NP NG) (i : Fin NP), s.ploc i = PLoc.ctEnd →
      ∃ s', applyEv (Event.pstep i) s = some s' ∧
        s'.ploc i = (if s.pret i = 0 then PLoc.fin else PLoc.wrPre) ∧
        s'.pret = s.pret ∧ s'.teamId = s.teamId) ∧
    (∀ (s : Sys NP NG) (i : Fin NP), s.ploc i = PLoc.lClaim →
      ∃ s', applyEv (Event.pstep i) s = some s' ∧
        s'.pret i = s.teamId ∧ s'.teamId = s.teamId + 1) ∧
    (∀ (s : Sys NP NG) (i : Fin NP), s.ploc i = PLoc.lClaim → s.teamId = 0 →
      ∃ s', applyEv (Event.pstep i) s = some s' ∧ s'.pret i = 0) ∧
    (∀ (s : Sys NP NG) (i : Fin NP), s.ploc i = PLoc.ctEnd → s.pret i = 0 →
      ∃ s', applyEv (Event.pstep i) s = some s' ∧ s'.ploc i = PLoc.fin) ∧
    (∀ (s : Sys NP NG) (i : Fin NP), s.ploc i = PLoc.fin →
      applyEv (Event.pstep i) s = none) := by
  refine ⟨?_, ?_, ?_, ?_, ?_⟩
  · intro s i hloc
    simp only [applyEv, hloc]
    exact ⟨_, rfl, by simp, rfl, rfl⟩
  · intro s i hloc
    simp only [applyEv, hloc]
    exact ⟨_, rfl, by simp, rfl⟩
  · intro s i hloc ht
    simp only [applyEv, hloc]
    exact ⟨_, rfl, by simp [ht]⟩
  · intro s i hloc hret
    simp only [applyEv, hloc]
    rw [if_pos hret]
    exact ⟨_, rfl, by simp⟩
  · intro s i hloc
    simp only [applyEv, hloc]

set_option maxHeartbeats 1600000 in
/-- C5 (amended): every write to the shared record happens under the
mutex, and every step taken without the mutex — except the follower's
`ret = teamId` read at line 242 and the goalie's mirrored read — neither
reads nor writes the shared record (it commutes with an arbitrary
replacement of the record).  The excepted reads really do read `teamId`
without holding the mutex. -/
theorem claim5_lock_discipline (NP NG : Nat) :
    (∀ (s s' : Sys NP NG) (i : Fin NP), applyEv (Event.pstep i) s = some s' →
      pHoldW (s.ploc i) = 0 →
      s'.playersArrived = s.playersArrived ∧ s'.playersFree = s.playersFree ∧
      s'.goaliesFree = s.goaliesFree ∧ s'.teamId = s.teamId ∧
      s'.playerStat = s.playerStat ∧ s'.goalieStat = s.goalieStat) ∧
    (∀ (s s' : Sys NP NG) (j : Fin NG), applyEv (Event.gstep j) s = some s' →
      gHoldW (s.gloc j) = 0 →
      s'.playersArrived = s.playersArrived ∧ s'.playersFree = s.playersFree ∧
      s'.goaliesFree = s.goaliesFree ∧ s'.teamId = s.teamId ∧
      s'.playerStat = s.playerStat ∧ s'.goalieStat = s.goalieStat) ∧
    (∀ (s : Sys NP NG) (i : Fin NP) pa pf gf ti ps gs, pHoldW (s.ploc i) = 0 →
      s.ploc i ≠ PLoc.fRead →
      applyEv (Event.pstep i) (withShared s pa pf gf ti ps gs)
        = (applyEv (Event.pstep i) s).map (fun t => withShared t pa pf gf ti ps gs)) ∧
    (∀ (s : Sys NP NG) (j : Fin NG) pa pf gf ti ps gs, gHoldW (s.gloc j) = 0 →
      s.gloc j ≠ GLoc.gRead →
      applyEv (Event.gstep j) (withShared s pa pf gf ti ps gs)
        = (applyEv (Event.gstep j) s).map (fun t => withShared t pa pf gf ti ps gs)) ∧
    (∀ (s : Sys NP NG) (i : Fin NP), s.ploc i = PLoc.fRead →
      pHoldW (s.ploc i) = 0 ∧
      (applyEv (Event.pstep i) s).map (fun t => t.pret i) = some s.teamId) ∧
    (∀ (s : Sys NP NG) (j : Fin NG), s.gloc j = GLoc.gRead →
      gHoldW (s.gloc j) = 0 ∧
      (applyEv (Event.gstep j) s).map (fun t => t.gret j) = some s.teamId) := by
  refine ⟨?_, ?_, ?_, ?_, ?_, ?_⟩
  · intro s s' i h hnh
    cases hloc : s.ploc i with
    | aCrit => rw [hloc] at hnh; simp [pHoldW] at hnh
    | aUnlock => rw [hloc] at hnh; simp [pHoldW] at hnh
    | cCrit => rw [hloc] at hnh; simp [pHoldW] at hnh
    | lClaim => rw [hloc] at hnh; simp [pHoldW] at hnh
    | lUnlock => rw [hloc] at hnh; simp [pHoldW] at hnh
    | lateUnlock => rw [hloc] at hnh; simp [pHoldW] at hnh
    | fUnlock => rw [hloc] at hnh; simp [pHoldW] at hnh
    | wrCrit => rw [hloc] at hnh; simp [pHoldW] at hnh
    | wrUnlock => rw [hloc] at hnh; simp [pHoldW] at hnh
    | puCrit => rw [hloc] at hnh; simp [pHoldW] at hnh
    | puSig => rw [hloc] at hnh; simp [pHoldW] at hnh
    | puUnlock => rw [hloc] at hnh; simp [pHoldW] at hnh
    | lRound k b => rw [hloc] at hnh; simp [pHoldW] at hnh
    | lGoalie b => rw [hloc] at hnh; simp [pHoldW] at hnh
    | start =>
      simp only [applyEv, hloc] at h
      by_cases hm : s.mutex = 0
      · rw [if_pos hm] at h; exact Option.noConfusion h
      rw [if_neg hm] at h
      have h2 := Option.some.inj h
      exact ⟨by rw [← h2], by rw [← h2], by rw [← h2], by rw [← h2], by rw [← h2], by rw [← h2]⟩
    | cPre =>
      simp only [applyEv, hloc] at h
      by_cases hm : s.mutex = 0
      · rw [if_pos hm] at h; exact Option.noConfusion h
      rw [if_neg hm] at h
      have h2 := Option.some.inj h
      exact ⟨by rw [← h2], by rw [← h2], by rw [← h2], by rw [← h2], by rw [← h2], by rw [← h2]⟩
    | lRef =>
      simp only [applyEv, hloc] at h
      have h2 := Option.some.inj h
      exact ⟨by rw [← h2], by rw [← h2], by rw [← h2], by rw [← h2], by rw [← h2], by rw [← h2]⟩
    | fWait =>
      simp only [applyEv, hloc] at h
      by_cases hm : s.playersWaitTeam = 0
      · rw [if_pos hm] at h; exact Option.noConfusion h
      rw [if_neg hm] at h
      have h2 := Option.some.inj h
      exact ⟨by rw [← h2], by rw [← h2], by rw [← h2], by rw [← h2], by rw [← h2], by rw [← h2]⟩
    | fSig =>
      simp only [applyEv, hloc] at h
      have h2 := Option.some.inj h
      exact ⟨by rw [← h2], by rw [← h2], by rw [← h2], by rw [← h2], by rw [← h2], by rw [← h2]⟩
    | ctEnd =>
      simp only [applyEv, hloc] at h
      have h2 := Option.some.inj h
      exact ⟨by rw [← h2], by rw [← h2], by rw [← h2], by rw [← h2], by rw [← h2], by rw [← h2]⟩
    | wrPre =>
      simp only [applyEv, hloc] at h
      by_cases hm : s.mutex = 0
      · rw [if_pos hm] at h; exact Option.noConfusion h
      rw [if_neg hm] at h
      have h2 := Option.some.inj h
      exact ⟨by rw [← h2], by rw [← h2], by rw [← h2], by rw [← h2], by rw [← h2], by rw [← h2]⟩
    | wrWait =>
      simp only [applyEv, hloc] at h
      by_cases hm : s.playersWaitReferee = 0
      · rw [if_pos hm] at h; exact Option.noConfusion h
      rw [if_neg hm] at h
      have h2 := Option.some.inj h
      exact ⟨by rw [← h2], by rw [← h2], by rw [← h2], by rw [← h2], by rw [← h2], by rw [← h2]⟩
    | puPre =>
      simp only [applyEv, hloc] at h
      by_cases hm : s.mutex = 0
      · rw [if_pos hm] at h; exact Option.noConfusion h
      rw [if_neg hm] at h
      have h2 := Option.some.inj h
      exact ⟨by rw [← h2], by rw [← h2], by rw [← h2], by rw [← h2], by rw [← h2], by rw [← h2]⟩
    | puWait =>
      simp only [applyEv, hloc] at h
      by_cases hm : s.playersWaitEnd = 0
      · rw [if_pos hm] at h; exact Option.noConfusion h
      rw [if_neg hm] at h
      have h2 := Option.some.inj h
      exact ⟨by rw [← h2], by rw [← h2], by rw [← h2], by rw [← h2], by rw [← h2], by rw [← h2]⟩
    | fRead =>
      simp only [applyEv, hloc] at h
      have h2 := Option.some.inj h
      exact ⟨by rw [← h2], by rw [← h2], by rw [← h2], by rw [← h2], by rw [← h2], by rw [← h2]⟩
    | fin =>
      simp only [applyEv, hloc] at h
      exact Option.noConfusion h
  · intro s s' j h hnh
    cases hloc : s.gloc j with
    | gCrit => rw [hloc] at hnh; simp [gHoldW] at hnh
    | gUnlock => rw [hloc] at hnh; simp [gHoldW] at hnh
    | gStart =>
      simp only [applyEv, hloc] at h
      by_cases hm : s.mutex = 0
      · rw [if_pos hm] at h; exact Option.noConfusion h
      rw [if_neg hm] at h
      have h2 := Option.some.inj h
      exact ⟨by rw [← h2], by rw [← h2], by rw [← h2], by rw [← h2], by rw [← h2], by rw [← h2]⟩
    | gWait =>
      simp only [applyEv, hloc] at h
      by_cases hm : s.goaliesWaitTeam = 0
      · rw [if_pos hm] at h; exact Option.noConfusion h
      rw [if_neg hm] at h
      have h2 := Option.some.inj h
      exact ⟨by rw [← h2], by rw [← h2], by rw [← h2], by rw [← h2], by rw [← h2], by rw [← h2]⟩
    | gRead =>
      simp only [applyEv, hloc] at h
      have h2 := Option.some.inj h
      exact ⟨by rw [← h2], by rw [← h2], by rw [← h2], by rw [← h2], by rw [← h2], by rw [← h2]⟩
    | gSig =>
      simp only [applyEv, hloc] at h
      have h2 := Option.some.inj h
      exact ⟨by rw [← h2], by rw [← h2], by rw [← h2], by rw [← h2], by rw [← h2], by rw [← h2]⟩
    | gEnd =>
      simp only [applyEv, hloc] at h
      exact Option.noConfusion h
  · intro s i pa pf gf ti ps gs hnh hnr
    cases hloc : s.ploc i with
    | aCrit => rw [hloc] at hnh; simp [pHoldW] at hnh
    | aUnlock => rw [hloc] at hnh; simp [pHoldW] at hnh
    | cCrit => rw [hloc] at hnh; simp [pHoldW] at hnh
    | lClaim => rw [hloc] at hnh; simp [pHoldW] at hnh
    | lUnlock => rw [hloc] at hnh; simp [pHoldW] at hnh
    | lateUnlock => rw [hloc] at hnh; simp [pHoldW] at hnh
    | fUnlock => rw [hloc] at hnh; simp [pHoldW] at hnh
    | wrCrit => rw [hloc] at hnh; simp [pHoldW] at hnh
    | wrUnlock => rw [hloc] at hnh; simp [pHoldW] at hnh
    | puCrit => rw [hloc] at hnh; simp [pHoldW] at hnh
    | puSig => rw [hloc] at hnh; simp [pHoldW] at hnh
    | puUnlock => rw [hloc] at hnh; simp [pHoldW] at hnh
    | lRound k b => rw [hloc] at hnh; simp [pHoldW] at hnh
    | lGoalie b => rw [hloc] at hnh; simp [pHoldW] at hnh
    | fRead => rw [hloc] at hnr; simp at hnr
    | start =>
      have hw : (withShared s pa pf gf ti ps gs).ploc i = PLoc.start := hloc
      simp only [applyEv, hloc, hw]
      have hmx : (withShared s pa pf gf ti ps gs).mutex = s.mutex := rfl
      rw [hmx]
      by_cases hm : s.mutex = 0
      · rw [if_pos hm, if_pos hm]; rfl
      · rw [if_neg hm, if_neg hm]; rfl
    | cPre =>
      have hw : (withShared s pa pf gf ti ps gs).ploc i = PLoc.cPre := hloc
      simp only [applyEv, hloc, hw]
      have hmx : (withShared s pa pf gf ti ps gs).mutex = s.mutex := rfl
      rw [hmx]
      by_cases hm : s.mutex = 0
      · rw [if_pos hm, if_pos hm]; rfl
      · rw [if_neg hm, if_neg hm]; rfl
    | lRef =>
      have hw : (withShared s pa pf gf ti ps gs).ploc i = PLoc.lRef := hloc
      simp only [applyEv, hloc, hw]
      rfl
    | fWait =>
      have hw : (withShared s pa pf gf ti ps gs).ploc i = PLoc.fWait := hloc
      simp only [applyEv, hloc, hw]
      have hmx : (withShared s pa pf gf ti ps gs).playersWaitTeam = s.playersWaitTeam := rfl
      rw [hmx]
      by_cases hm : s.playersWaitTeam = 0
      · rw [if_pos hm, if_pos hm]; rfl
      · rw [if_neg hm, if_neg hm]; rfl
    | fSig =>
      have hw : (withShared s pa pf gf ti ps gs).ploc i = PLoc.fSig := hloc
      simp only [applyEv, hloc, hw]
      rfl
    | ctEnd =>
      have hw : (withShared s pa pf gf ti ps gs).ploc i = PLoc.ctEnd := hloc
      simp only [applyEv, hloc, hw]
      have hmx : (withShared s pa pf gf ti ps gs).pret = s.pret := rfl
      rw [hmx]
      by_cases hm : s.pret i = 0
      · rw [if_pos hm]; rfl
      · rw [if_neg hm]; rfl
    | wrPre =>
      have hw : (withShared s pa pf gf ti ps gs).ploc i = PLoc.wrPre := hloc
      simp only [applyEv, hloc, hw]
      have hmx : (withShared s pa pf gf ti ps gs).mutex = s.mutex := rfl
      rw [hmx]
      by_cases hm : s.mutex = 0
      · rw [if_pos hm, if_pos hm]; rfl
      · rw [if_neg hm, if_neg hm]; rfl
    | wrWait =>
      have hw : (withShared s pa pf gf ti ps gs).ploc i = PLoc.wrWait := hloc
      simp only [applyEv, hloc, hw]
      have hmx : (withShared s pa pf gf ti ps gs).playersWaitReferee = s.playersWaitReferee := rfl
      rw [hmx]
      by_cases hm : s.playersWaitReferee = 0
      · rw [if_pos hm, if_pos hm]; rfl
      · rw [if_neg hm, if_neg hm]; rfl
    | puPre =>
      have hw : (withShared s pa pf gf ti ps gs).ploc i = PLoc.puPre := hloc
      simp only [applyEv, hloc, hw]
      have hmx : (withShared s pa pf gf ti ps gs).mutex = s.mutex := rfl
      rw [hmx]
      by_cases hm : s.mutex = 0
      · rw [if_pos hm, if_pos hm]; rfl
      · rw [if_neg hm, if_neg hm]; rfl
    | puWait =>
      have hw : (withShared s pa pf gf ti ps gs).ploc i = PLoc.puWait := hloc
      simp only [applyEv, hloc, hw]
      have hmx : (withShared s pa pf gf ti ps gs).playersWaitEnd = s.playersWaitEnd := rfl
      rw [hmx]
      by_cases hm : s.playersWaitEnd = 0
      · rw [if_pos hm, if_pos hm]; rfl
      · rw [if_neg hm, if_neg hm]; rfl
    | fin =>
      have hw : (withShared s pa pf gf ti ps gs).ploc i = PLoc.fin := hloc
      simp only [applyEv, hloc, hw]
      rfl
  · intro s j pa pf gf ti ps gs hnh hnr
    cases hloc : s.gloc j with
    | gCrit => rw [hloc] at hnh; simp [gHoldW] at hnh
    | gUnlock => rw [hloc] at hnh; simp [gHoldW] at hnh
    | gRead => rw [hloc] at hnr; simp at hnr
    | gStart =>
      have hw : (withShared s pa pf gf ti ps gs).gloc j = GLoc.gStart := hloc
      simp only [applyEv, hloc, hw]
      have hmx : (withShared s pa pf gf ti ps gs).mutex = s.mutex := rfl
      rw [hmx]
      by_cases hm : s.mutex = 0
      · rw [if_pos hm, if_pos hm]; rfl
      · rw [if_neg hm, if_neg hm]; rfl
    | gWait =>
      have hw : (withShared s pa pf gf ti ps gs).gloc j = GLoc.gWait := hloc
      simp only [applyEv, hloc, hw]
      have hmx : (withShared s pa pf gf ti ps gs).goaliesWaitTeam = s.goaliesWaitTeam := rfl
      rw [hmx]
      by_cases hm : s.goaliesWaitTeam = 0
      · rw [if_pos hm, if_pos hm]; rfl
      · rw [if_neg hm, if_neg hm]; rfl
    | gSig =>
      have hw : (withShared s pa pf gf ti ps gs).gloc j = GLoc.gSig := hloc
      simp only [applyEv, hloc, hw]
      rfl
    | gEnd =>
      have hw : (withShared s pa pf gf ti ps gs).gloc j = GLoc.gEnd := hloc
      simp only [applyEv, hloc, hw]
      rfl
  · intro s i hloc
    refine ⟨by rw [hloc]; rfl, ?_⟩
    simp only [applyEv, hloc]
    simp [Function.update_same]
  · intro s j hloc
    refine ⟨by rw [hloc]; rfl, ?_⟩
    simp only [applyEv, hloc]
    simp [Function.update_same]

/-- C8 (counterexample): the argument vector with id string `"-1"`
(parsed value `-1`, fully consumed) and 4 arguments passes `main`'s
validation although `-1` lies outside `[0, NUMPLAYERS)` — the
validation checks only the upper bound, so the claim that an id
outside `[0, NUMPLAYERS)` is a fatal startup error is false.
(`NUMPLAYERS` instantiated at 10; any positive value behaves the
same.) -/
theorem claim8_counterexample :
    argsAccepted 4 (-1) true 10 = true ∧ storedId (-1) = -1 ∧
    ¬ 0 ≤ storedId (-1) := by
  refine ⟨by decide, by decide, by decide⟩

/-- C8 (amended): an incorrect argument count, an id string not fully
consumed by `strtol`, or a stored id `≥ NUMPLAYERS` is rejected before
the protocol runs, and every argument vector that passes validation
has a stored id `< NUMPLAYERS`; negative ids, however, pass. -/
theorem claim8_arg_validation :
    (∀ (argc : Nat) (v : Int) (e : Bool) (np : Int),
      argsAccepted argc v e np = true → argc = 4 ∧ e = true ∧ storedId v < np) ∧
    (∀ (argc : Nat) (v : Int) (e : Bool) (np : Int), argc ≠ 4 →
      argsAccepted argc v e np = false) ∧
    (∀ (argc : Nat) (v : Int) (np : Int), argsAccepted argc v false np = false) ∧
    (∀ (argc : Nat) (v : Int) (e : Bool) (np : Int), np ≤ storedId v →
      argsAccepted argc v e np = false) := by
  refine ⟨?_, ?_, ?_, ?_⟩
  · intro argc v e np h
    simp only [argsAccepted, Bool.and_eq_true, decide_eq_true_eq] at h
    exact ⟨h.1.1, h.1.2, h.2⟩
  · intro argc v e np h
    simp [argsAccepted, h]
  · intro argc v np
    simp [argsAccepted]
  · intro argc v e np h
    simp [argsAccepted]
    intro h4 he
    omega

/-- Witness for C8 (amended): the theorem applied to the accepted
argument vector `(4, "5", NUMPLAYERS = 10)`. -/
theorem claim8_witness : 4 = 4 ∧ true = true ∧ storedId 5 < 10 :=
  claim8_arg_validation.1 4 5 true 10 (by decide)

/-- C9 (code bug): an unrecognized `player_type` reaching the
post-lock switch is NOT fatal in the code: the `default` arm reports
the diagnostic but performs no `exit`, and the function returns
normally — contradicting spec §7(b), which makes protocol-invariant
violations fatal, and the uniform `perror`-then-`exit` pattern of
every other error path in this file.  Evaluated at the failing input
`player_type = 3`. -/
theorem claim9_default_no_exit :
    postLockSwitch 3 = { signalsRefereeWaitTeams := false,
                         waitsPlayersWaitTeam := false,
                         readsTeamIdAndRegisters := false,
                         reportsInvalidType := true,
                         exitsProcess := false,
                         returnsNormally := true } ∧
    (postLockSwitch 3).reportsInvalidType = true ∧
    (postLockSwitch 3).exitsProcess = false ∧
    (postLockSwitch 3).returnsNormally = true :=
  ⟨rfl, rfl, rfl, rfl⟩

set_option maxRecDepth 10000 in
/-- C3 (counterexample): in the reachable state `c3State`, player 8
reaches the branch finding `playersFree = 8 ≥ 3` and
`goaliesFree = 1 ≥ 1`, yet — being the 9th arrival — its step marks it
`LATE` and reserves nothing: the claim "every arrival that finds at
least 3 free players and at least 1 free goalie becomes the leader" is
false as stated (the late check at line 182 takes precedence). -/
theorem claim3_counterexample :
    Reach (initSys 9 1) c3State ∧ c3State.ploc 8 = PLoc.cCrit ∧
    c3State.playersFree = 8 ∧ c3State.goaliesFree = 1 ∧
    c3State.playersArrived = 8 ∧
    (applyEv (Event.pstep 8) c3State).map
        (fun t => (t.playerStat 8, t.ploc 8, t.playersFree, t.goaliesFree))
      = some (PStat.LATE, PLoc.lateUnlock, 8, 1) :=
  ⟨c3State_reach, rfl, rfl, rfl, rfl, rfl⟩

set_option maxRecDepth 10000 in
/-- Witness for C3 (amended): the theorem applied at the reachable
state `c4Mid` (player 3 at the branch with 3 free players, 1 free
goalie and only 3 prior arrivals) yields the leader reservation. -/
theorem claim3_witness :
    (applyEv (Event.pstep 3) c4Mid).map
        (fun t => (t.ploc 3, t.playersFree, t.goaliesFree, t.playerStat 3))
      = some (PLoc.lRound 0 false, 0, 0, PStat.FORMING_TEAM) := by
  obtain ⟨s', happ, h1, h2, h3, h4, h5, h6, h7⟩ :=
    (@claim3_leader_reservation 4 1).1 c4Mid 3 rfl (by decide)
      (by decide) (by decide)
  rw [happ]
  simp only [Option.map_some']
  rw [h1, h4, h5, h6]
  decide

set_option maxRecDepth 10000 in
/-- C4 (counterexample): in the reachable state `c4State` the leader
(player 3) is at its first handshake wait on `playerRegistered` while
holding the mutex (`mutex = 0`), and it is genuinely blocked — so the
claim that no rendezvous wait ever occurs while the mutex is held is
false on the code: the leader's handshake loop (lines 191–210) runs
inside the critical region, before the release at line 223. -/
theorem claim4_counterexample :
    Reach (initSys 4 1) c4State ∧
    c4State.ploc 3 = PLoc.lRound 0 true ∧
    isChanWaitP (PLoc.lRound 0 true) = true ∧
    pHoldW (PLoc.lRound 0 true) = 1 ∧
    c4State.mutex = 0 ∧ c4State.playerRegistered = 0 ∧
    applyEv (Event.pstep 3) c4State = none :=
  ⟨c4State_reach, rfl, rfl, rfl, rfl, rfl, rfl⟩

set_option maxRecDepth 10000 in
/-- Witness for C4 (amended): the theorem applied at `c4State` and
player 3. -/
theorem claim4_witness :
    isChanWaitP (c4State.ploc 3) = true ∧ pHoldW (c4State.ploc 3) = 1 ∧
    c4State.mutex = 0 ∧ applyEv (Event.pstep 3) c4State = none := by
  obtain ⟨h1, h2, h3, h4⟩ :=
    claim4_waits_outside_lock.2.2 4 1 c4State c4State_reach 3 rfl
  exact ⟨h1, h2, h3, h4 rfl⟩

set_option maxRecDepth 10000 in
/-- C5 (counterexample): in the reachable state `c5State`, follower
player 0 performs `ret = teamId` (line 242) while not holding the mutex
— indeed while the leader (player 3) is inside the critical region —
so the claim that every read of the shared counters happens inside the
critical region is false; the read genuinely depends on the shared
`teamId` (replacing `teamId` by 99 changes the value read). -/
theorem claim5_counterexample :
    Reach (initSys 4 1) c5State ∧
    c5State.ploc 0 = PLoc.fRead ∧ pHoldW PLoc.fRead = 0 ∧
    c5State.mutex = 0 ∧ c5State.ploc 3 = PLoc.lRound 0 true ∧
    pHoldW (PLoc.lRound 0 true) = 1 ∧
    (applyEv (Event.pstep 0) c5State).map (fun t => t.pret 0)
      = some c5State.teamId ∧
    c5State.teamId = 1 ∧
    (applyEv (Event.pstep 0) { c5State with teamId := 99 }).map (fun t => t.pret 0)
      = some 99 :=
  ⟨c5State_reach, rfl, rfl, rfl, rfl, rfl, rfl, rfl, rfl⟩

set_option maxRecDepth 10000 in
/-- Witness for C5 (amended): the theorem applied at `c5State` and
player 0 (the unlocked read). -/
theorem claim5_witness :
    pHoldW (c5State.ploc 0) = 0 ∧
    (applyEv (Event.pstep 0) c5State).map (fun t => t.pret 0)
      = some c5State.teamId :=
  (claim5_lock_discipline 4 1).2.2.2.2.1 c5State 0 rfl

set_option maxRecDepth 10000 in
/-- Witness for C1: the theorem applied at the reachable final state of
the §8 scenario run: `teamId = 3` is the initial `1` plus the two
claimed formations, and `refereeWaitTeams` was signalled once per
formation. -/
theorem claim1_witness :
    c7Final.teamId = 1 + (c7Final.claimLog.length : Int) ∧
    c7Final.refereeWaitTeams + pcnt c7Final rwtPendW = c7Final.claimLog.length :=
  ⟨((@claim1_team_formation_protocol 9 2).1 c7Final c7Final_reach).1,
   ((@claim1_team_formation_protocol 9 2).1 c7Final c7Final_reach).2.1⟩

set_option maxRecDepth 10000 in
/-- Witness for C2: the theorem applied at the reachable state
`c7Late`, in which the 9th arrival (player 8) stands at the mutex
release of the late branch: its return value is still `0` and its
status is `LATE`. -/
theorem claim2_witness :
    c7Late.pret 8 = 0 ∧ c7Late.playerStat 8 = PStat.LATE :=
  (@claim2_late_arrival 9 2).2.2.1 c7Late c7Late_reach 8 rfl

/-- Witness for C6: the non-negativity conjunct applied at the initial
state, and the reservation conjunct applied at `w6State`, where the
guarded decrement yields `(playersFree, goaliesFree) = (2, 1)`. -/
theorem claim6_witness :
    (0 ≤ (initSys 1 1).playersFree ∧ 0 ≤ (initSys 1 1).goaliesFree) ∧
    (applyEv (Event.pstep 0) w6State).map (fun t => (t.playersFree, t.goaliesFree))
      = some (2, 1) := by
  refine ⟨(@claim6_free_counters 1 1).1 _ Relation.ReflTransGen.refl, ?_⟩
  have happ : applyEv (Event.pstep 0) w6State = some w6Next := rfl
  have hlt : w6Next.playersFree < w6State.playersFree
      ∨ w6Next.goaliesFree < w6State.goaliesFree := Or.inl (by decide)
  obtain ⟨i, he, hl, hh, hlate, h3, hg, hpf, hgf⟩ :=
    (@claim6_free_counters 1 1).2.1 w6State _ (Event.pstep 0) happ hlt
  rw [happ]
  simp only [Option.map_some']
  rw [hpf, hgf]
  decide

/-- Witness for C10: the theorem applied at `w10Claim` (a leader
claiming while `teamId = 0` returns `0`) and at `w10End` (a player
returning `0` skips straight to `fin`, exactly like a late player). -/
theorem claim10_witness :
    (applyEv (Event.pstep 0) w10Claim).map (fun t => t.pret 0) = some 0 ∧
    (applyEv (Event.pstep 0) w10End).map (fun t => t.ploc 0) = some PLoc.fin := by
  constructor
  · obtain ⟨s', happ, hret⟩ :=
      (@claim10_zero_return 1 0).2.2.1 w10Claim 0 rfl rfl
    rw [happ]
    simp [hret]
  · obtain ⟨s', happ, hloc⟩ :=
      (@claim10_zero_return 1 0).2.2.2.1 w10End 0 rfl rfl
    rw [happ]
    simp [hloc]

set_option maxRecDepth 10000 in
/-- C7 (counterexample): in the §8 scenario run, players 6 and 7 are
not `LATE` — they are recruited into the second team (team id 2) and
proceed to wait for the referee — and `teamId` finishes at `3`, not
`2`.  The claim's expected outcome (players 6–8 late with team 0,
`teamId` ending at 2, teams of 3 field players) does not match the
code, whose teams have `NUMTEAMPLAYERS = 4` field players and whose
late threshold is `8 = 2 × 4` arrivals. -/
theorem claim7_counterexample :
    Reach (initSys 9 2) c7Final ∧
    c7Final.playerStat 6 = PStat.WAITING_START_2 ∧ c7Final.pret 6 = 2 ∧
    c7Final.playerStat 7 = PStat.WAITING_START_2 ∧ c7Final.pret 7 = 2 ∧
    c7Final.teamId = 3 :=
  ⟨c7Final_reach, rfl, rfl, rfl, rfl, rfl⟩

set_option maxRecDepth 10000 in
/-- C7 (amended): when 9 players and 2 goalies arrive with players in
id order 0..8, players 0–3 plus goalie 0 form team 1 (player 3
leading), players 4–7 plus goalie 1 form team 2 (player 7 leading),
player 8 — the 9th arrival — is marked `LATE` with team 0 and skips
the match phase, `teamId` finishes at `3` (ids 1 and 2 handed out),
the referee channel carries one signal per formation, every recruited
player read exactly its own team's id, and both free counters return
to 0. -/
theorem claim7_scenario :
    Reach (initSys 9 2) c7Final ∧
    c7Final.playersArrived = 9 ∧
    c7Final.claimLog = [1, 2] ∧ c7Final.teamId = 3 ∧
    c7Final.pret 0 = 1 ∧ c7Final.pret 1 = 1 ∧ c7Final.pret 2 = 1 ∧
    c7Final.pret 3 = 1 ∧
    c7Final.pret 4 = 2 ∧ c7Final.pret 5 = 2 ∧ c7Final.pret 6 = 2 ∧
    c7Final.pret 7 = 2 ∧
    c7Final.pret 8 = 0 ∧ c7Final.playerStat 8 = PStat.LATE ∧
    c7Final.ploc 8 = PLoc.fin ∧
    c7Final.gret 0 = 1 ∧ c7Final.gret 1 = 2 ∧
    c7Final.fLog = [1, 1, 1, 2, 2, 2] ∧ c7Final.gLog = [1, 2] ∧
    c7Final.playersFree = 0 ∧ c7Final.goaliesFree = 0 ∧
    c7Final.refereeWaitTeams = 2 ∧
    c7Final.playerStat 0 = PStat.WAITING_START_1 ∧
    c7Final.playerStat 3 = PStat.WAITING_START_1 ∧
    c7Final.playerStat 4 = PStat.WAITING_START_2 ∧
    c7Final.playerStat 7 = PStat.WAITING_START_2 :=
  ⟨c7Final_reach, rfl, rfl, rfl, rfl, rfl, rfl, rfl, rfl, rfl, rfl, rfl, rfl,
   rfl, rfl, rfl, rfl, rfl, rfl, rfl, rfl, rfl, rfl, rfl, rfl, rfl⟩

end SoccerGame
